import Mathlib

/-!
# Composable allocators: a shallow embedding

The definitions below follow the C sources (`allocator.c`, `stack.c`,
`freelist.c`, `fallback.c`) function by function.

Conventions of the embedding.

* The target is an LP64 platform: `size_t`, pointers and `long` have 64 bits.
* A machine word (`size_t`, a pointer, the `allocation_result_t` union) is a
  `Nat`; arithmetic done by the C code in `size_t` is reduced `% 2 ^ 64`, and
  arithmetic done in `u32` is reduced `% 2 ^ 32`.
* A `word_t` argument (a signed size or alignment) is an `Int`; the casts
  `(size_t) x` and `(u32) x` are `toSizeT x` and `toU32 x`.
* A pointer is its address, a 64-bit word, and the cast of a pointer to
  `size_t` is the identity.  Pointer arithmetic wraps like `size_t`
  arithmetic: the sum of a pointer and an offset is reduced `% 2 ^ 64`.
* `ASSERT` / `ASSERTF` raise `SIGABRT`: a function whose assertion fails
  returns `none`.  Every other outcome is `some (result word, new state)`.
* The build is the non-debug one (`DEBUG_BLOCK(x)` expands to nothing).
-/

namespace Allocators

/-! ## Machine words and casts -/

/-- The cast `(size_t) x` of a signed word. -/
def toSizeT (x : Int) : Nat := (x % 2 ^ 64).toNat

/-- The cast `(u32) x` of a signed word. -/
def toU32 (x : Int) : Nat := (x % 2 ^ 32).toNat

/-! ## `allocator.c`: status codes and result encoding -/

def ALLOCATION_STATUS_SUCCEEDED : Nat := 0
def ALLOCATION_STATUS_OUT_OF_MEMORY : Nat := 1
def ALLOCATION_STATUS_UNSUPPORTED_OPERATION : Nat := 2
def ALLOCATION_STATUS_NON_OWNED_MEMORY : Nat := 3
def ALLOCATION_STATUS_COUNT : Nat := 4

def FREE_STATUS_SUCCEEDED : Nat := 0
def FREE_STATUS_CALLED_ON_NON_OWNED_MEMORY : Nat := 1
def FREE_STATUS_UNSUPPORTED_OPERATION : Nat := 2
def FREE_STATUS_COUNT : Nat := 3

/-- The query sentinel `(size_t) - 1`. -/
def ALLOCATION_QUERY_UNSUPPORTED : Nat := 2 ^ 64 - 1

/-- The function `is_power_of_two`: `value && ((value & (value - 1)) == 0)`. -/
def is_power_of_two (value : Nat) : Bool :=
  value != 0 && (value &&& (value - 1)) == 0

/-- The function `align_address`: asserts a power-of-two alignment, then
`(address + mask) & ~mask` in `size_t`. -/
def align_address (address alignment : Nat) : Option Nat :=
  if is_power_of_two alignment then
    let mask := alignment - 1
    some (((address + mask) % 2 ^ 64) &&& (2 ^ 64 - 1 - mask))
  else none

/-- The operation codes together with their argument records
(`allocation_arguments_t`); the `RESIZE` record keeps the field order of the
source: `memory`, `new_size`, `old_size`. -/
inductive allocation_arguments_t where
  | ALLOCATE (size : Int)
  | ALLOCATE_ALIGNED (size alignment : Int)
  | ALLOCATE_ALL
  | RESIZE (memory : Nat) (new_size old_size : Int)
  | FREE (memory : Nat)
  | FREE_ALL
  | QUERY_USED
  | QUERY_OWNS (memory : Nat)
  | QUERY_CAPACITY
  | QUERY_ALIGNMENT
  | QUERY_GOOD_SIZE

/-- The function `make_allocation_result`: asserts `address > 4096` and
`address != ALLOCATION_QUERY_UNSUPPORTED`. -/
def make_allocation_result (memory : Nat) : Option Nat :=
  if 4096 < memory ∧ memory ≠ ALLOCATION_QUERY_UNSUPPORTED then some memory else none

/-- The function `make_free_status`: asserts `status < FREE_STATUS_COUNT`. -/
def make_free_status (status : Nat) : Option Nat :=
  if status < FREE_STATUS_COUNT then some status else none

/-- The function `make_allocation_error`: asserts
`status < ALLOCATION_STATUS_COUNT`. -/
def make_allocation_error (status : Nat) : Option Nat :=
  if status < ALLOCATION_STATUS_COUNT then some status else none

/-- The function `make_query_result`. -/
def make_query_result (result : Nat) : Option Nat := some result

/-- The function `allocation_succeeded`:
`address == ALLOCATION_STATUS_SUCCEEDED || address >= ALLOCATION_STATUS_COUNT`. -/
def allocation_succeeded (allocation : Nat) : Bool :=
  allocation == ALLOCATION_STATUS_SUCCEEDED || decide (ALLOCATION_STATUS_COUNT ≤ allocation)

/-- The function `free_succeeded`: `status == FREE_STATUS_SUCCEEDED`. -/
def free_succeeded (status : Nat) : Bool :=
  status == FREE_STATUS_SUCCEEDED

/-- The polymorphic allocator handle `allocator_t`: a procedure and the state
it is applied to. -/
structure allocator_t (σ : Type) where
  procedure : σ → allocation_arguments_t → Option (Nat × σ)
  data : σ

/-- The function `allocation_proxy`: calls the procedure on the handle's
state; the handle with the updated state is returned next to the result. -/
def allocation_proxy {σ : Type} (allocator : allocator_t σ)
    (arguments : allocation_arguments_t) : Option (Nat × allocator_t σ) :=
  match allocator.procedure allocator.data arguments with
  | none => none
  | some (result, data) => some (result, { allocator with data := data })

/-- The value of a 64-bit word read as a signed `word_t`. -/
def ofSizeT (w : Nat) : Int := if w < 2 ^ 63 then (w : Int) else (w : Int) - 2 ^ 64

/-- The function `round_to_aligned`: asserts `size > 0`, then
`size + (alignment - 1) & -alignment` on two's-complement words (in C the
sum binds tighter than `&`). -/
def round_to_aligned (size alignment : Int) : Option Int :=
  if 0 < size then
    some (ofSizeT (toSizeT (size + (alignment - 1)) &&& toSizeT (-alignment)))
  else none

/-- The procedure `allocator_null_proc`; its state pointer is null, so the
state carries nothing. -/
def allocator_null_proc (allocator : Unit) : allocation_arguments_t → Option (Nat × Unit)
  | .ALLOCATE size =>
    if size = 0 then some (0, allocator)
    else (make_allocation_error ALLOCATION_STATUS_OUT_OF_MEMORY).map (fun r => (r, allocator))
  | .ALLOCATE_ALIGNED size _alignment =>
    if size = 0 then some (0, allocator)
    else (make_allocation_error ALLOCATION_STATUS_OUT_OF_MEMORY).map (fun r => (r, allocator))
  | .ALLOCATE_ALL => some (0, allocator)
  | .RESIZE _memory new_size _old_size =>
    if new_size = 0 then some (0, allocator)
    else (make_allocation_error ALLOCATION_STATUS_OUT_OF_MEMORY).map (fun r => (r, allocator))
  | .FREE memory =>
    if memory = 0 then (make_free_status FREE_STATUS_SUCCEEDED).map (fun r => (r, allocator))
    else (make_free_status FREE_STATUS_CALLED_ON_NON_OWNED_MEMORY).map (fun r => (r, allocator))
  | .FREE_ALL => (make_free_status FREE_STATUS_SUCCEEDED).map (fun r => (r, allocator))
  | .QUERY_OWNS memory =>
    (make_query_result (if memory = 0 then 1 else 0)).map (fun r => (r, allocator))
  | .QUERY_CAPACITY =>
    (make_query_result ALLOCATION_QUERY_UNSUPPORTED).map (fun r => (r, allocator))
  | .QUERY_ALIGNMENT =>
    (make_query_result ALLOCATION_QUERY_UNSUPPORTED).map (fun r => (r, allocator))
  | .QUERY_GOOD_SIZE =>
    (make_query_result ALLOCATION_QUERY_UNSUPPORTED).map (fun r => (r, allocator))
  | .QUERY_USED =>
    (make_query_result ALLOCATION_QUERY_UNSUPPORTED).map (fun r => (r, allocator))

/-- The procedure `allocator_panic_proc`: `ASSERTF(0, "PANIC!")`. -/
def allocator_panic_proc (_allocator : Unit) (_arguments : allocation_arguments_t) :
    Option (Nat × Unit) :=
  none

/-- The C library heap used by `allocator_malloc_proc`.  It lies outside the
repository and is taken as a parameter: `malloc` and `realloc` return the
pointer (0 on failure) and the new heap state, `free` the new heap state. -/
structure platform_heap (σ : Type) where
  malloc : σ → Nat → Nat × σ
  realloc : σ → Nat → Nat → Nat × σ
  free : σ → Nat → σ

/-- The procedure `allocator_malloc_proc` over a platform heap.  The fill of
the returned block with `0xCC` changes no allocator state and is not
represented. -/
def allocator_malloc_proc {σ : Type} (platform : platform_heap σ) (heap : σ) :
    allocation_arguments_t → Option (Nat × σ)
  | .ALLOCATE size =>
    let (memory, heap1) := platform.malloc heap (toSizeT size)
    if memory ≠ 0 then (make_allocation_result memory).map (fun r => (r, heap1))
    else (make_allocation_error ALLOCATION_STATUS_OUT_OF_MEMORY).map (fun r => (r, heap1))
  | .ALLOCATE_ALIGNED size alignment =>
    match round_to_aligned size alignment with
    | none => none
    | some aligned_size =>
      let (memory, heap1) := platform.malloc heap (toSizeT aligned_size)
      if memory ≠ 0 then (make_allocation_result memory).map (fun r => (r, heap1))
      else (make_allocation_error ALLOCATION_STATUS_OUT_OF_MEMORY).map (fun r => (r, heap1))
  | .RESIZE memory new_size _old_size =>
    match round_to_aligned new_size 8 with
    | none => none
    | some aligned_size =>
      let (memory1, heap1) := platform.realloc heap memory (toSizeT aligned_size)
      if memory1 ≠ 0 then (make_allocation_result memory1).map (fun r => (r, heap1))
      else (make_allocation_error ALLOCATION_STATUS_OUT_OF_MEMORY).map (fun r => (r, heap1))
  | .FREE memory =>
    (make_free_status FREE_STATUS_SUCCEEDED).map (fun r => (r, platform.free heap memory))
  | .ALLOCATE_ALL =>
    (make_allocation_error ALLOCATION_STATUS_UNSUPPORTED_OPERATION).map (fun r => (r, heap))
  | .FREE_ALL =>
    (make_allocation_error ALLOCATION_STATUS_UNSUPPORTED_OPERATION).map (fun r => (r, heap))
  | .QUERY_OWNS _memory =>
    (make_query_result ALLOCATION_QUERY_UNSUPPORTED).map (fun r => (r, heap))
  | .QUERY_CAPACITY =>
    (make_query_result ALLOCATION_QUERY_UNSUPPORTED).map (fun r => (r, heap))
  | .QUERY_ALIGNMENT =>
    (make_query_result ALLOCATION_QUERY_UNSUPPORTED).map (fun r => (r, heap))
  | .QUERY_GOOD_SIZE =>
    (make_query_result ALLOCATION_QUERY_UNSUPPORTED).map (fun r => (r, heap))
  | .QUERY_USED =>
    (make_query_result ALLOCATION_QUERY_UNSUPPORTED).map (fun r => (r, heap))

/-- The handle `allocator_null`. -/
def allocator_null : allocator_t Unit :=
  { procedure := allocator_null_proc, data := () }

/-- The handle `allocator_panic`. -/
def allocator_panic : allocator_t Unit :=
  { procedure := allocator_panic_proc, data := () }

/-- The handle `allocator_malloc` over a platform heap in state `heap`. -/
def allocator_malloc {σ : Type} (platform : platform_heap σ) (heap : σ) : allocator_t σ :=
  { procedure := allocator_malloc_proc platform, data := heap }


/-! ## `stack.c` -/

/-- The struct `allocator_stack_t`: buffer base, cursor and capacity (both
`u32`). -/
structure allocator_stack_t where
  m_memory : Nat
  m_pointer : Nat
  m_capacity : Nat
  deriving DecidableEq, Repr

/-- The function `allocator_stack_init`. -/
def allocator_stack_init (memory capacity : Nat) : allocator_stack_t :=
  { m_memory := memory, m_pointer := 0, m_capacity := capacity }

/-- The function `stack_owns` (non-debug build). -/
def stack_owns (allocator : allocator_stack_t) (memory : Nat) : Bool :=
  decide (allocator.m_memory ≤ memory) &&
    decide (memory ≤ (allocator.m_memory + allocator.m_pointer) % 2 ^ 64)

/-- The function `stack_allocate`. -/
def stack_allocate (allocator : allocator_stack_t) (size : Int) :
    Option (Nat × allocator_stack_t) :=
  if allocator.m_capacity < (allocator.m_pointer + toSizeT size) % 2 ^ 64 then
    (make_allocation_error ALLOCATION_STATUS_OUT_OF_MEMORY).map (fun r => (r, allocator))
  else
    let memory := (allocator.m_memory + allocator.m_pointer) % 2 ^ 64
    let allocator1 :=
      { allocator with m_pointer := (allocator.m_pointer + toU32 size) % 2 ^ 32 }
    (make_allocation_result memory).map (fun r => (r, allocator1))

/-- The function `stack_allocate_aligned`.  The pointer sum is handed to
`align_address` and to the subtraction as it is: both reduce their result
`% 2 ^ 64`, which gives the values the code computes from the wrapped sum. -/
def stack_allocate_aligned (allocator : allocator_stack_t) (size alignment : Int) :
    Option (Nat × allocator_stack_t) :=
  match align_address (allocator.m_memory + allocator.m_pointer) (toSizeT alignment) with
  | none => none
  | some aligned_address =>
    let alignment_padding :=
      (aligned_address + 2 ^ 64 - (allocator.m_memory + allocator.m_pointer)) % 2 ^ 64
    if allocator.m_capacity <
        (allocator.m_pointer + toSizeT size + alignment_padding) % 2 ^ 64 then
      (make_allocation_error ALLOCATION_STATUS_OUT_OF_MEMORY).map (fun r => (r, allocator))
    else
      let memory := aligned_address
      let allocator1 :=
        { allocator with
          m_pointer :=
            (allocator.m_pointer + (toU32 size + alignment_padding) % 2 ^ 64) % 2 ^ 32 }
      (make_allocation_result memory).map (fun r => (r, allocator1))

/-- The function `stack_allocate_all`. -/
def stack_allocate_all (allocator : allocator_stack_t) : Option (Nat × allocator_stack_t) :=
  if allocator.m_pointer = allocator.m_capacity then
    (make_allocation_error ALLOCATION_STATUS_OUT_OF_MEMORY).map (fun r => (r, allocator))
  else
    let memory := (allocator.m_memory + allocator.m_pointer) % 2 ^ 64
    let allocator1 := { allocator with m_pointer := allocator.m_capacity }
    (make_allocation_result memory).map (fun r => (r, allocator1))

/-- The function `stack_resize`. -/
def stack_resize (allocator : allocator_stack_t) (old_memory : Nat) (old_size new_size : Int) :
    Option (Nat × allocator_stack_t) :=
  if old_memory = 0 then stack_allocate allocator new_size
  else if stack_owns allocator old_memory = false then none
  else if old_size ≠
      (((allocator.m_memory + allocator.m_pointer) % 2 ^ 64 : Nat) : Int) - (old_memory : Int)
  then none
  else
    let allocator1 :=
      { allocator with m_pointer := (allocator.m_pointer + 2 ^ 32 - toU32 old_size) % 2 ^ 32 }
    if allocator1.m_capacity < (allocator1.m_pointer + toU32 new_size) % 2 ^ 32 then
      (make_allocation_error ALLOCATION_STATUS_OUT_OF_MEMORY).map (fun r => (r, allocator1))
    else
      let memory := (allocator1.m_memory + allocator1.m_pointer) % 2 ^ 64
      let allocator2 :=
        { allocator1 with m_pointer := (allocator1.m_pointer + toU32 new_size) % 2 ^ 32 }
      (make_allocation_result memory).map (fun r => (r, allocator2))

/-- The function `stack_free` (non-debug build): `size` is the signed
distance from `memory` to the top of the stack. -/
def stack_free (allocator : allocator_stack_t) (memory : Nat) :
    Option (Nat × allocator_stack_t) :=
  if stack_owns allocator memory = false then
    (make_free_status FREE_STATUS_CALLED_ON_NON_OWNED_MEMORY).map (fun r => (r, allocator))
  else
    let size : Int :=
      (((allocator.m_memory + allocator.m_pointer) % 2 ^ 64 : Nat) : Int) - (memory : Int)
    if size ≤ 0 then
      (make_free_status FREE_STATUS_CALLED_ON_NON_OWNED_MEMORY).map (fun r => (r, allocator))
    else
      let allocator1 := { allocator with m_pointer := toU32 ((allocator.m_pointer : Int) - size) }
      (make_free_status FREE_STATUS_SUCCEEDED).map (fun r => (r, allocator1))

/-- The function `stack_free_all`. -/
def stack_free_all (allocator : allocator_stack_t) : Option (Nat × allocator_stack_t) :=
  (make_free_status FREE_STATUS_SUCCEEDED).map (fun r => (r, { allocator with m_pointer := 0 }))

/-- The function `stack_used`. -/
def stack_used (allocator : allocator_stack_t) : Nat := allocator.m_pointer

/-- The function `stack_capacity`. -/
def stack_capacity (allocator : allocator_stack_t) : Nat := allocator.m_capacity

/-- The dispatcher `allocator_stack_proc`.  The `RESIZE` case passes
`arguments.resize.old_size` for both size parameters of `stack_resize`, as the
source does. -/
def allocator_stack_proc (allocator : allocator_stack_t) :
    allocation_arguments_t → Option (Nat × allocator_stack_t)
  | .ALLOCATE size => stack_allocate allocator size
  | .ALLOCATE_ALIGNED size alignment => stack_allocate_aligned allocator size alignment
  | .ALLOCATE_ALL => stack_allocate_all allocator
  | .RESIZE memory _new_size old_size => stack_resize allocator memory old_size old_size
  | .FREE memory => stack_free allocator memory
  | .FREE_ALL => stack_free_all allocator
  | .QUERY_USED => (make_query_result (stack_used allocator)).map (fun r => (r, allocator))
  | .QUERY_OWNS memory =>
    (make_query_result (if stack_owns allocator memory then 1 else 0)).map
      (fun r => (r, allocator))
  | .QUERY_CAPACITY => (make_query_result (stack_capacity allocator)).map (fun r => (r, allocator))
  | .QUERY_ALIGNMENT => (make_query_result 1).map (fun r => (r, allocator))
  | .QUERY_GOOD_SIZE => (make_query_result 1).map (fun r => (r, allocator))

/-! ## `freelist.c` -/

/-- The struct `allocator_freelist_t` together with the memory it points to:
`heap off` is the `u32` stored at byte offset `off` from `m_memory` (the
field `one_past_next` of a `freelist_node_t` placed there).  All accesses of
the allocator are at offsets that are multiples of the block size; offsets at
or beyond the capacity address the memory that follows the buffer. -/
structure allocator_freelist_t where
  m_memory : Nat
  m_first_free : Nat
  m_block_size : Nat
  m_count : Nat
  m_used : Nat
  heap : Nat → Nat

/-- The function `freelist_capacity`: the `u32` product
`m_block_size * m_count`. -/
def freelist_capacity (allocator : allocator_freelist_t) : Nat :=
  (allocator.m_block_size * allocator.m_count) % 2 ^ 32

/-- The function `freelist_used`: the `u32` product `m_block_size * m_used`. -/
def freelist_used (allocator : allocator_freelist_t) : Nat :=
  (allocator.m_block_size * allocator.m_used) % 2 ^ 32

/-- The call `memset(memory, 0, n)` on the words of the heap. -/
def memset_zero (heap : Nat → Nat) (n : Nat) : Nat → Nat :=
  fun off => if off < n then 0 else heap off

/-- The function `freelist_init`, applied to the memory contents `heap` found
at `memory`: asserts `block_size % sizeof(freelist_node_t) == 0`, then zeroes
`freelist_capacity` bytes. -/
def freelist_init (heap : Nat → Nat) (memory block_size count : Nat) :
    Option allocator_freelist_t :=
  if block_size % 4 = 0 then
    let freelist : allocator_freelist_t :=
      { m_memory := memory, m_first_free := 0, m_block_size := block_size,
        m_count := count, m_used := 0, heap := heap }
    some { freelist with heap := memset_zero heap (freelist_capacity freelist) }
  else none

/-- The function `freelist_owns`; the upper bound uses the `u32` product
`m_count * m_block_size`. -/
def freelist_owns (allocator : allocator_freelist_t) (memory : Nat) : Bool :=
  decide (allocator.m_memory ≤ memory) &&
    decide (memory ≤ (allocator.m_memory +
      (allocator.m_count * allocator.m_block_size) % 2 ^ 32) % 2 ^ 64)

/-- The function `freelist_allocate`.  `ALIGN_OF(freelist_node_t)` is 4. -/
def freelist_allocate (allocator : allocator_freelist_t) (size : Int) :
    Option (Nat × allocator_freelist_t) :=
  if allocator.m_block_size < toU32 size then none
  else if freelist_capacity allocator ≤ allocator.m_first_free then
    (make_allocation_error ALLOCATION_STATUS_OUT_OF_MEMORY).map (fun r => (r, allocator))
  else
    let offset := (allocator.m_first_free * allocator.m_block_size) % 2 ^ 32
    let element := (allocator.m_memory + offset) % 2 ^ 64
    if align_address element 4 ≠ some element then none
    else
      let one_past_next := allocator.heap offset
      let allocator1 :=
        { allocator with
          m_first_free :=
            if one_past_next = 0 then (allocator.m_first_free + 1) % 2 ^ 32
            else one_past_next - 1
          m_used := (allocator.m_used + 1) % 2 ^ 32 }
      (make_allocation_result element).map (fun r => (r, allocator1))

/-- The function `freelist_free`.  A zero block size makes the `%` of the
offset check trap, which ends the process like a failed assertion. -/
def freelist_free (allocator : allocator_freelist_t) (memory : Nat) :
    Option (Nat × allocator_freelist_t) :=
  if freelist_owns allocator memory = false then none
  else if freelist_capacity allocator < allocator.m_first_free then none
  else
    let offset := toU32 ((memory : Int) - (allocator.m_memory : Int))
    if allocator.m_block_size = 0 then none
    else if offset % allocator.m_block_size ≠ 0 then none
    else
      let element := (allocator.m_memory + offset) % 2 ^ 64
      if align_address element 4 ≠ some element then none
      else
        let allocator1 :=
          { allocator with
            heap := fun off =>
              if off = offset then (allocator.m_first_free + 1) % 2 ^ 32
              else allocator.heap off
            m_first_free := offset / allocator.m_block_size
            m_used := (allocator.m_used + 2 ^ 32 - 1) % 2 ^ 32 }
        (make_free_status FREE_STATUS_SUCCEEDED).map (fun r => (r, allocator1))

/-- A run of `ALLOCATE` calls, one per requested size, threading the state;
the result words are collected in call order. -/
def freelist_allocate_list :
    List Int → allocator_freelist_t → Option (List Nat × allocator_freelist_t)
  | [], allocator => some ([], allocator)
  | size :: sizes, allocator =>
    match freelist_allocate allocator size with
    | none => none
    | some (r, allocator1) =>
      match freelist_allocate_list sizes allocator1 with
      | none => none
      | some (rs, allocator2) => some (r :: rs, allocator2)

/-- A run of `FREE` calls, one per pointer, threading the state; the status
words are collected in call order. -/
def freelist_free_list :
    List Nat → allocator_freelist_t → Option (List Nat × allocator_freelist_t)
  | [], allocator => some ([], allocator)
  | memory :: rest, allocator =>
    match freelist_free allocator memory with
    | none => none
    | some (r, allocator1) =>
      match freelist_free_list rest allocator1 with
      | none => none
      | some (rs, allocator2) => some (r :: rs, allocator2)

/-- The function `freelist_resize`: `ASSERTF(0, "TODO")` precedes its return
statement. -/
def freelist_resize (allocator : allocator_freelist_t) (_memory : Nat)
    (_old_size _new_size : Int) : Option (Nat × allocator_freelist_t) :=
  if false = true then
    (make_allocation_error ALLOCATION_STATUS_SUCCEEDED).map (fun r => (r, allocator))
  else none

/-- The function `freelist_free_all`. -/
def freelist_free_all (allocator : allocator_freelist_t) :
    Option (Nat × allocator_freelist_t) :=
  let allocator1 := { allocator with m_first_free := 0, m_used := 0 }
  (make_free_status FREE_STATUS_SUCCEEDED).map
    (fun r => (r, { allocator1 with
      heap := memset_zero allocator1.heap (freelist_capacity allocator1) }))

/-- The dispatcher `allocator_freelist_proc`. -/
def allocator_freelist_proc (allocator : allocator_freelist_t) :
    allocation_arguments_t → Option (Nat × allocator_freelist_t)
  | .ALLOCATE size => freelist_allocate allocator size
  | .ALLOCATE_ALIGNED size alignment =>
    if toU32 alignment ≠ allocator.m_block_size then none
    else freelist_allocate allocator size
  | .RESIZE memory new_size old_size => freelist_resize allocator memory old_size new_size
  | .FREE memory => freelist_free allocator memory
  | .FREE_ALL => freelist_free_all allocator
  | .QUERY_USED => (make_query_result (freelist_used allocator)).map (fun r => (r, allocator))
  | .QUERY_OWNS memory =>
    (make_query_result (if freelist_owns allocator memory then 1 else 0)).map
      (fun r => (r, allocator))
  | .QUERY_CAPACITY =>
    (make_query_result (freelist_capacity allocator)).map (fun r => (r, allocator))
  | .QUERY_ALIGNMENT =>
    (make_query_result allocator.m_block_size).map (fun r => (r, allocator))
  | .QUERY_GOOD_SIZE =>
    (make_query_result allocator.m_block_size).map (fun r => (r, allocator))
  | .ALLOCATE_ALL =>
    (make_allocation_error ALLOCATION_STATUS_UNSUPPORTED_OPERATION).map
      (fun r => (r, allocator))


/-! ## `fallback.c` -/

/-- The struct `allocator_fallback_t`. -/
structure allocator_fallback_t (σ₁ σ₂ : Type) where
  primary : allocator_t σ₁
  secondary : allocator_t σ₂

/-- The function `fallback_free`; the cast `(free_status_t) result` keeps the
low 32 bits of the word. -/
def fallback_free {σ₁ σ₂ : Type} (allocator : allocator_fallback_t σ₁ σ₂) (memory : Nat) :
    Option (Nat × allocator_fallback_t σ₁ σ₂) :=
  match allocation_proxy allocator.primary (.FREE memory) with
  | none => none
  | some (result, primary1) =>
    if free_succeeded result = false then
      match allocation_proxy allocator.secondary (.FREE memory) with
      | none => none
      | some (result2, secondary1) =>
        let allocator1 : allocator_fallback_t σ₁ σ₂ :=
          { primary := primary1, secondary := secondary1 }
        if free_succeeded result2 = false then
          (make_free_status (result2 % 2 ^ 32)).map (fun r => (r, allocator1))
        else
          (make_free_status FREE_STATUS_SUCCEEDED).map (fun r => (r, allocator1))
    else
      (make_free_status FREE_STATUS_SUCCEEDED).map
        (fun r => (r, { allocator with primary := primary1 }))

/-- The function `fallback_owns`. -/
def fallback_owns {σ₁ σ₂ : Type} (allocator : allocator_fallback_t σ₁ σ₂) (memory : Nat) :
    Option (Nat × allocator_fallback_t σ₁ σ₂) :=
  match allocation_proxy allocator.primary (.QUERY_OWNS memory) with
  | none => none
  | some (query_1, primary1) =>
    if query_1 ≠ 0 then
      (make_query_result 1).map (fun r => (r, { allocator with primary := primary1 }))
    else
      match allocation_proxy allocator.secondary (.QUERY_OWNS memory) with
      | none => none
      | some (query_2, secondary1) =>
        let allocator1 : allocator_fallback_t σ₁ σ₂ :=
          { primary := primary1, secondary := secondary1 }
        if query_2 ≠ 0 then (make_query_result 1).map (fun r => (r, allocator1))
        else if query_1 = ALLOCATION_QUERY_UNSUPPORTED ∧ query_2 = ALLOCATION_QUERY_UNSUPPORTED
        then (make_query_result ALLOCATION_QUERY_UNSUPPORTED).map (fun r => (r, allocator1))
        else (make_query_result 0).map (fun r => (r, allocator1))

/-- The function `fallback_allocate`; the cast `(allocation_status_t) result`
keeps the low 32 bits of the word. -/
def fallback_allocate {σ₁ σ₂ : Type} (allocator : allocator_fallback_t σ₁ σ₂) (size : Int) :
    Option (Nat × allocator_fallback_t σ₁ σ₂) :=
  match allocation_proxy allocator.primary (.ALLOCATE size) with
  | none => none
  | some (result, primary1) =>
    if allocation_succeeded result = false then
      match allocation_proxy allocator.secondary (.ALLOCATE size) with
      | none => none
      | some (result2, secondary1) =>
        let allocator1 : allocator_fallback_t σ₁ σ₂ :=
          { primary := primary1, secondary := secondary1 }
        if allocation_succeeded result2 = false then
          (make_allocation_error (result2 % 2 ^ 32)).map (fun r => (r, allocator1))
        else (make_allocation_result result2).map (fun r => (r, allocator1))
    else
      (make_allocation_result result).map
        (fun r => (r, { allocator with primary := primary1 }))

/-- The function `fallback_allocate_aligned`. -/
def fallback_allocate_aligned {σ₁ σ₂ : Type} (allocator : allocator_fallback_t σ₁ σ₂)
    (size alignment : Int) : Option (Nat × allocator_fallback_t σ₁ σ₂) :=
  match allocation_proxy allocator.primary (.ALLOCATE_ALIGNED size alignment) with
  | none => none
  | some (result, primary1) =>
    if allocation_succeeded result = false then
      match allocation_proxy allocator.secondary (.ALLOCATE_ALIGNED size alignment) with
      | none => none
      | some (result2, secondary1) =>
        let allocator1 : allocator_fallback_t σ₁ σ₂ :=
          { primary := primary1, secondary := secondary1 }
        if allocation_succeeded result2 = false then
          (make_allocation_error (result2 % 2 ^ 32)).map (fun r => (r, allocator1))
        else (make_allocation_result result2).map (fun r => (r, allocator1))
    else
      (make_allocation_result result).map
        (fun r => (r, { allocator with primary := primary1 }))

/-- The function `fallback_resize`: `ASSERTF(0, "TODO")` precedes its return
statement. -/
def fallback_resize {σ₁ σ₂ : Type} (allocator : allocator_fallback_t σ₁ σ₂) (_memory : Nat)
    (_old_size _new_size : Int) : Option (Nat × allocator_fallback_t σ₁ σ₂) :=
  if false = true then
    (make_allocation_error ALLOCATION_STATUS_UNSUPPORTED_OPERATION).map
      (fun r => (r, allocator))
  else none

/-- The function `fallback_free_all`: both children are called and their
results dropped. -/
def fallback_free_all {σ₁ σ₂ : Type} (allocator : allocator_fallback_t σ₁ σ₂) :
    Option (Nat × allocator_fallback_t σ₁ σ₂) :=
  match allocation_proxy allocator.primary .FREE_ALL with
  | none => none
  | some (_, primary1) =>
    match allocation_proxy allocator.secondary .FREE_ALL with
    | none => none
    | some (_, secondary1) =>
      (make_free_status FREE_STATUS_SUCCEEDED).map
        (fun r => (r, { allocator with primary := primary1, secondary := secondary1 }))

/-- The function `fallback_alignment`. -/
def fallback_alignment {σ₁ σ₂ : Type} (allocator : allocator_fallback_t σ₁ σ₂) :
    Option (Nat × allocator_fallback_t σ₁ σ₂) :=
  match allocation_proxy allocator.primary .QUERY_ALIGNMENT with
  | none => none
  | some (query_1, primary1) =>
    match allocation_proxy allocator.secondary .QUERY_ALIGNMENT with
    | none => none
    | some (query_2, secondary1) =>
      (make_query_result
        (if query_1 < query_2 then query_1 else query_2)).map
        (fun r => (r, { allocator with primary := primary1, secondary := secondary1 }))

/-- The function `fallback_good_size`. -/
def fallback_good_size {σ₁ σ₂ : Type} (allocator : allocator_fallback_t σ₁ σ₂) :
    Option (Nat × allocator_fallback_t σ₁ σ₂) :=
  match allocation_proxy allocator.primary .QUERY_GOOD_SIZE with
  | none => none
  | some (query_1, primary1) =>
    match allocation_proxy allocator.secondary .QUERY_GOOD_SIZE with
    | none => none
    | some (query_2, secondary1) =>
      (make_query_result
        (if query_1 < query_2 then query_1 else query_2)).map
        (fun r => (r, { allocator with primary := primary1, secondary := secondary1 }))

/-- The function `fallback_capacity`; the sum is a `size_t` sum. -/
def fallback_capacity {σ₁ σ₂ : Type} (allocator : allocator_fallback_t σ₁ σ₂) :
    Option (Nat × allocator_fallback_t σ₁ σ₂) :=
  match allocation_proxy allocator.primary .QUERY_CAPACITY with
  | none => none
  | some (query_1, primary1) =>
    match allocation_proxy allocator.secondary .QUERY_CAPACITY with
    | none => none
    | some (query_2, secondary1) =>
      (make_query_result
        (if query_1 ≠ ALLOCATION_QUERY_UNSUPPORTED ∧ query_2 ≠ ALLOCATION_QUERY_UNSUPPORTED
          then (query_1 + query_2) % 2 ^ 64
          else if query_1 ≠ ALLOCATION_QUERY_UNSUPPORTED then query_1 else query_2)).map
        (fun r => (r, { allocator with primary := primary1, secondary := secondary1 }))

/-- The function `fallback_used`; the sum is a `size_t` sum. -/
def fallback_used {σ₁ σ₂ : Type} (allocator : allocator_fallback_t σ₁ σ₂) :
    Option (Nat × allocator_fallback_t σ₁ σ₂) :=
  match allocation_proxy allocator.primary .QUERY_USED with
  | none => none
  | some (query_1, primary1) =>
    match allocation_proxy allocator.secondary .QUERY_USED with
    | none => none
    | some (query_2, secondary1) =>
      (make_query_result
        (if query_1 ≠ ALLOCATION_QUERY_UNSUPPORTED ∧ query_2 ≠ ALLOCATION_QUERY_UNSUPPORTED
          then (query_1 + query_2) % 2 ^ 64
          else if query_1 ≠ ALLOCATION_QUERY_UNSUPPORTED then query_1 else query_2)).map
        (fun r => (r, { allocator with primary := primary1, secondary := secondary1 }))

/-- The dispatcher `allocator_fallback_proc`. -/
def allocator_fallback_proc {σ₁ σ₂ : Type} (allocator : allocator_fallback_t σ₁ σ₂) :
    allocation_arguments_t → Option (Nat × allocator_fallback_t σ₁ σ₂)
  | .ALLOCATE size => fallback_allocate allocator size
  | .ALLOCATE_ALIGNED size alignment => fallback_allocate_aligned allocator size alignment
  | .ALLOCATE_ALL =>
    (make_allocation_error ALLOCATION_STATUS_UNSUPPORTED_OPERATION).map
      (fun r => (r, allocator))
  | .RESIZE memory new_size old_size => fallback_resize allocator memory old_size new_size
  | .FREE memory => fallback_free allocator memory
  | .FREE_ALL => fallback_free_all allocator
  | .QUERY_USED => fallback_used allocator
  | .QUERY_OWNS memory => fallback_owns allocator memory
  | .QUERY_CAPACITY => fallback_capacity allocator
  | .QUERY_ALIGNMENT => fallback_alignment allocator
  | .QUERY_GOOD_SIZE => fallback_good_size allocator

/-! ## `segregator.c` -/

/-- The struct `allocator_segregator_t`; `threshold` is a `word_t`. -/
structure allocator_segregator_t (σ₁ σ₂ : Type) where
  primary : allocator_t σ₁
  secondary : allocator_t σ₂
  threshold : Int

/-- The function `segregator_allocate`. -/
def segregator_allocate {σ₁ σ₂ : Type} (allocator : allocator_segregator_t σ₁ σ₂)
    (size : Int) : Option (Nat × allocator_segregator_t σ₁ σ₂) :=
  if size ≤ allocator.threshold then
    match allocation_proxy allocator.primary (.ALLOCATE size) with
    | none => none
    | some (memory, primary1) =>
      if allocation_succeeded memory = false then
        (make_allocation_error (memory % 2 ^ 32)).map
          (fun r => (r, { allocator with primary := primary1 }))
      else
        (make_allocation_result memory).map
          (fun r => (r, { allocator with primary := primary1 }))
  else
    match allocation_proxy allocator.secondary (.ALLOCATE size) with
    | none => none
    | some (memory, secondary1) =>
      if allocation_succeeded memory = false then
        (make_allocation_error (memory % 2 ^ 32)).map
          (fun r => (r, { allocator with secondary := secondary1 }))
      else
        (make_allocation_result memory).map
          (fun r => (r, { allocator with secondary := secondary1 }))

/-- The function `segregator_allocate_aligned`. -/
def segregator_allocate_aligned {σ₁ σ₂ : Type} (allocator : allocator_segregator_t σ₁ σ₂)
    (size alignment : Int) : Option (Nat × allocator_segregator_t σ₁ σ₂) :=
  if size ≤ allocator.threshold then
    match allocation_proxy allocator.primary (.ALLOCATE_ALIGNED size alignment) with
    | none => none
    | some (memory, primary1) =>
      if allocation_succeeded memory = false then
        (make_allocation_error (memory % 2 ^ 32)).map
          (fun r => (r, { allocator with primary := primary1 }))
      else
        (make_allocation_result memory).map
          (fun r => (r, { allocator with primary := primary1 }))
  else
    match allocation_proxy allocator.secondary (.ALLOCATE_ALIGNED size alignment) with
    | none => none
    | some (memory, secondary1) =>
      if allocation_succeeded memory = false then
        (make_allocation_error (memory % 2 ^ 32)).map
          (fun r => (r, { allocator with secondary := secondary1 }))
      else
        (make_allocation_result memory).map
          (fun r => (r, { allocator with secondary := secondary1 }))

/-- The function `segregator_resize`: `ASSERTF(0, "TODO")` precedes its
return statement, which yields the zero word. -/
def segregator_resize {σ₁ σ₂ : Type} (allocator : allocator_segregator_t σ₁ σ₂)
    (_memory : Nat) (_old_size _new_size : Int) :
    Option (Nat × allocator_segregator_t σ₁ σ₂) :=
  if false = true then some (0, allocator) else none

/-- The function `segregator_free`: `ASSERTF(0, "TODO")` precedes its return
statement, which yields the zero word. -/
def segregator_free {σ₁ σ₂ : Type} (allocator : allocator_segregator_t σ₁ σ₂)
    (_memory : Nat) : Option (Nat × allocator_segregator_t σ₁ σ₂) :=
  if false = true then some (0, allocator) else none

/-- The function `segregator_free_all`: both children are called and their
results dropped. -/
def segregator_free_all {σ₁ σ₂ : Type} (allocator : allocator_segregator_t σ₁ σ₂) :
    Option (Nat × allocator_segregator_t σ₁ σ₂) :=
  match allocation_proxy allocator.primary .FREE_ALL with
  | none => none
  | some (_, primary1) =>
    match allocation_proxy allocator.secondary .FREE_ALL with
    | none => none
    | some (_, secondary1) =>
      (make_free_status FREE_STATUS_SUCCEEDED).map
        (fun r => (r, { allocator with primary := primary1, secondary := secondary1 }))

/-- The function `segregator_owns`: each answer is compared with 1. -/
def segregator_owns {σ₁ σ₂ : Type} (allocator : allocator_segregator_t σ₁ σ₂)
    (memory : Nat) : Option (Nat × allocator_segregator_t σ₁ σ₂) :=
  match allocation_proxy allocator.primary (.QUERY_OWNS memory) with
  | none => none
  | some (query_1, primary1) =>
    if query_1 = 1 then
      (make_query_result 1).map (fun r => (r, { allocator with primary := primary1 }))
    else
      match allocation_proxy allocator.secondary (.QUERY_OWNS memory) with
      | none => none
      | some (query_2, secondary1) =>
        let allocator1 : allocator_segregator_t σ₁ σ₂ :=
          { allocator with primary := primary1, secondary := secondary1 }
        if query_2 = 1 then (make_query_result 1).map (fun r => (r, allocator1))
        else if query_1 = ALLOCATION_QUERY_UNSUPPORTED ∧ query_2 = ALLOCATION_QUERY_UNSUPPORTED
        then (make_query_result ALLOCATION_QUERY_UNSUPPORTED).map (fun r => (r, allocator1))
        else (make_query_result 0).map (fun r => (r, allocator1))

/-- The function `segregator_alignment`. -/
def segregator_alignment {σ₁ σ₂ : Type} (allocator : allocator_segregator_t σ₁ σ₂) :
    Option (Nat × allocator_segregator_t σ₁ σ₂) :=
  match allocation_proxy allocator.primary .QUERY_ALIGNMENT with
  | none => none
  | some (query_1, primary1) =>
    match allocation_proxy allocator.secondary .QUERY_ALIGNMENT with
    | none => none
    | some (query_2, secondary1) =>
      (make_query_result
        (if query_1 < query_2 then query_1 else query_2)).map
        (fun r => (r, { allocator with primary := primary1, secondary := secondary1 }))

/-- The function `segregator_good_size`. -/
def segregator_good_size {σ₁ σ₂ : Type} (allocator : allocator_segregator_t σ₁ σ₂) :
    Option (Nat × allocator_segregator_t σ₁ σ₂) :=
  match allocation_proxy allocator.primary .QUERY_GOOD_SIZE with
  | none => none
  | some (query_1, primary1) =>
    match allocation_proxy allocator.secondary .QUERY_GOOD_SIZE with
    | none => none
    | some (query_2, secondary1) =>
      (make_query_result
        (if query_1 < query_2 then query_1 else query_2)).map
        (fun r => (r, { allocator with primary := primary1, secondary := secondary1 }))

/-- The function `segregator_capacity`; the sum is a `size_t` sum. -/
def segregator_capacity {σ₁ σ₂ : Type} (allocator : allocator_segregator_t σ₁ σ₂) :
    Option (Nat × allocator_segregator_t σ₁ σ₂) :=
  match allocation_proxy allocator.primary .QUERY_CAPACITY with
  | none => none
  | some (query_1, primary1) =>
    match allocation_proxy allocator.secondary .QUERY_CAPACITY with
    | none => none
    | some (query_2, secondary1) =>
      (make_query_result
        (if query_1 ≠ ALLOCATION_QUERY_UNSUPPORTED ∧ query_2 ≠ ALLOCATION_QUERY_UNSUPPORTED
          then (query_1 + query_2) % 2 ^ 64
          else if query_1 ≠ ALLOCATION_QUERY_UNSUPPORTED then query_1 else query_2)).map
        (fun r => (r, { allocator with primary := primary1, secondary := secondary1 }))

/-- The function `segregator_used`; the sum is a `size_t` sum. -/
def segregator_used {σ₁ σ₂ : Type} (allocator : allocator_segregator_t σ₁ σ₂) :
    Option (Nat × allocator_segregator_t σ₁ σ₂) :=
  match allocation_proxy allocator.primary .QUERY_USED with
  | none => none
  | some (query_1, primary1) =>
    match allocation_proxy allocator.secondary .QUERY_USED with
    | none => none
    | some (query_2, secondary1) =>
      (make_query_result
        (if query_1 ≠ ALLOCATION_QUERY_UNSUPPORTED ∧ query_2 ≠ ALLOCATION_QUERY_UNSUPPORTED
          then (query_1 + query_2) % 2 ^ 64
          else if query_1 ≠ ALLOCATION_QUERY_UNSUPPORTED then query_1 else query_2)).map
        (fun r => (r, { allocator with primary := primary1, secondary := secondary1 }))

/-- The dispatcher `allocator_segregator_proc`. -/
def allocator_segregator_proc {σ₁ σ₂ : Type} (allocator : allocator_segregator_t σ₁ σ₂) :
    allocation_arguments_t → Option (Nat × allocator_segregator_t σ₁ σ₂)
  | .ALLOCATE size => segregator_allocate allocator size
  | .ALLOCATE_ALIGNED size alignment => segregator_allocate_aligned allocator size alignment
  | .ALLOCATE_ALL =>
    (make_allocation_error ALLOCATION_STATUS_UNSUPPORTED_OPERATION).map
      (fun r => (r, allocator))
  | .RESIZE memory new_size old_size => segregator_resize allocator memory old_size new_size
  | .FREE memory => segregator_free allocator memory
  | .FREE_ALL => segregator_free_all allocator
  | .QUERY_USED => segregator_used allocator
  | .QUERY_OWNS memory => segregator_owns allocator memory
  | .QUERY_CAPACITY => segregator_capacity allocator
  | .QUERY_ALIGNMENT => segregator_alignment allocator
  | .QUERY_GOOD_SIZE => segregator_good_size allocator


/-! ## Auxiliary notions used in the statements -/

/-- The two assertions `freelist_allocate` makes on the address of cell
`c`: it is aligned for a `freelist_node_t`, and `make_allocation_result`
accepts it. -/
def cell_ok (memory block_size c : Nat) : Prop :=
  align_address (memory + c * block_size) 4 = some (memory + c * block_size) ∧
    make_allocation_result (memory + c * block_size) = some (memory + c * block_size)

/-- The recycled free chain as the list of addresses it hands out: starting
at cell `head`, each listed cell stores `next + 1` in its header, and the
walk ends at index `count`. -/
def free_chain (heap : Nat → Nat) (memory block_size count : Nat) : List Nat → Nat → Prop
  | [], head => head = count
  | p :: ps, head =>
    p = memory + head * block_size ∧ head < count ∧
      ∃ next, heap (head * block_size) = next + 1 ∧
        free_chain heap memory block_size count ps next

/-- The constant part of a free-list state: its buffer base, block size and
block count. -/
def freelist_config (s : allocator_freelist_t) (memory block_size count : Nat) : Prop :=
  s.m_memory = memory ∧ s.m_block_size = block_size ∧ s.m_count = count

/-- A child allocator used as an input: it answers every call with the word
`w` and counts the calls it receives in its state. -/
def counting_child (w : Nat) : allocator_t Nat :=
  { procedure := fun calls _ => some (w, calls + 1), data := 0 }


/-- A platform heap used as an input: its state is the next free address,
`malloc` and `realloc` hand out that address and advance it by the size, and
`free` does nothing. -/
def bump_platform : platform_heap Nat :=
  { malloc := fun next size => (next, next + size)
    realloc := fun next _ size => (next, next + size)
    free := fun next _ => next }

/-- The allocating operations: `ALLOCATE`, `ALLOCATE_ALIGNED`, `ALLOCATE_ALL`
and `RESIZE`. -/
def is_allocating_call : allocation_arguments_t → Bool
  | .ALLOCATE _ => true
  | .ALLOCATE_ALIGNED _ _ => true
  | .ALLOCATE_ALL => true
  | .RESIZE _ _ _ => true
  | _ => false

/-- Exactly one of three propositions holds. -/
def exactly_one (a b c : Prop) : Prop :=
  (a ∧ ¬ b ∧ ¬ c) ∨ (¬ a ∧ b ∧ ¬ c) ∨ (¬ a ∧ ¬ b ∧ c)

/-- The three classes of a result word of an allocating call: the zero word,
a pointer (`4096` or more), or a word below `4096` that is one of the error
codes of `allocation_status_t`. -/
def allocation_word_partition (w : Nat) : Prop :=
  exactly_one (w = 0) (4096 ≤ w)
    (w < 4096 ∧ (w = ALLOCATION_STATUS_OUT_OF_MEMORY ∨
      w = ALLOCATION_STATUS_UNSUPPORTED_OPERATION ∨ w = ALLOCATION_STATUS_NON_OWNED_MEMORY))

/-- The range invariant of a free-list state: `first_free <= N` and
`used <= N`. -/
def freelist_in_range (s : allocator_freelist_t) : Prop :=
  s.m_first_free ≤ s.m_count ∧ s.m_used ≤ s.m_count

/-- The requests that hand out a cell of the free list: `ALLOCATE` and
`ALLOCATE_ALIGNED`. -/
def is_cell_request : allocation_arguments_t → Bool
  | .ALLOCATE _ => true
  | .ALLOCATE_ALIGNED _ _ => true
  | _ => false

/-- The walk of the free chain in the words of the specification: starting at
cell `index`, the walk ends when the index is `count`; otherwise it visits the
cell and moves to `one_past_next - 1` when the header is nonzero and to
`index + 1` when the header is the sentinel 0.  The result is the list of
visited cell indices; `fuel` bounds the number of visited cells, and `none`
says that the walk has not reached `count` within the bound. -/
def chain_walk (heap : Nat → Nat) (block_size count : Nat) : Nat → Nat → Option (List Nat)
  | 0, index => if index = count then some [] else none
  | fuel + 1, index =>
    if index = count then some []
    else
      let header := heap (index * block_size)
      let next := if header = 0 then index + 1 else header - 1
      (chain_walk heap block_size count fuel next).map (fun visited => index :: visited)

/-! # Theorems -/

/-! ## Casts of non-negative words -/

theorem toSizeT_natCast (n : Nat) : toSizeT (n : Int) = n % 2 ^ 64 := by
  unfold toSizeT
  have h : ((n : Int) % 2 ^ 64) = ((n % 2 ^ 64 : Nat) : Int) := by
    push_cast
    rfl
  rw [h, Int.toNat_ofNat]

theorem toU32_natCast (n : Nat) : toU32 (n : Int) = n % 2 ^ 32 := by
  unfold toU32
  have h : ((n : Int) % 2 ^ 32) = ((n % 2 ^ 32 : Nat) : Int) := by
    push_cast
    rfl
  rw [h, Int.toNat_ofNat]

/-! ## The success predicate -/

/-- C10 (as stated, refuted): the word 100 is accepted by
`allocation_succeeded` although it is neither 0 nor at least 4096. -/
theorem allocation_succeeded_below_reserved :
    allocation_succeeded 100 = true ∧ ¬ (100 = 0 ∨ 4096 ≤ 100) := by
  decide

/-- C10 (amended): `allocation_succeeded v` holds exactly when `v` is 0 or at
least `ALLOCATION_STATUS_COUNT`, which is 4. -/
theorem allocation_succeeded_iff (v : Nat) :
    allocation_succeeded v = true ↔ (v = 0 ∨ 4 ≤ v) := by
  simp [allocation_succeeded, ALLOCATION_STATUS_SUCCEEDED, ALLOCATION_STATUS_COUNT]

/-! ## The stack allocator -/

/-- The rejecting branches of `stack_free`. -/
theorem stack_free_rejects (s : allocator_stack_t) (memory : Nat)
    (h : ¬ (s.m_memory ≤ memory ∧ memory ≤ (s.m_memory + s.m_pointer) % 2 ^ 64) ∨
        (((s.m_memory + s.m_pointer) % 2 ^ 64 : Nat) : Int) - (memory : Int) ≤ 0) :
    stack_free s memory = some (FREE_STATUS_CALLED_ON_NON_OWNED_MEMORY, s) := by
  unfold stack_free
  by_cases ho : stack_owns s memory = false
  · rw [if_pos ho]
    rfl
  · rcases h with h | h
    · exfalso
      apply ho
      simp only [stack_owns, Bool.and_eq_false_imp, decide_eq_true_eq, decide_eq_false_iff_not]
      intro h1 h2
      exact h ⟨h1, h2⟩
    · rw [if_neg ho]
      simp only []
      rw [if_pos h]
      rfl

/-- The rewinding branch of `stack_free`: an address from `base` up to, but
not including, the top of the stack as the code computes it. -/
theorem stack_free_rewinds (s : allocator_stack_t) (memory : Nat) (hp : s.m_pointer < 2 ^ 32)
    (h1 : s.m_memory ≤ memory) (h3 : memory < (s.m_memory + s.m_pointer) % 2 ^ 64) :
    stack_free s memory =
      some (FREE_STATUS_SUCCEEDED,
        { m_memory := s.m_memory, m_pointer := memory - s.m_memory,
          m_capacity := s.m_capacity }) := by
  have ho : ¬ (stack_owns s memory = false) := by
    unfold stack_owns
    rw [decide_eq_true h1, decide_eq_true h3.le]
    decide
  have hsz : ¬ ((((s.m_memory + s.m_pointer) % 2 ^ 64 : Nat) : Int) - (memory : Int) ≤ 0) := by
    omega
  have hptr : toU32 ((s.m_pointer : Int) -
      ((((s.m_memory + s.m_pointer) % 2 ^ 64 : Nat) : Int) - (memory : Int))) =
        memory - s.m_memory := by
    have e : (s.m_pointer : Int) -
        ((((s.m_memory + s.m_pointer) % 2 ^ 64 : Nat) : Int) - (memory : Int))
          = ((memory - s.m_memory : Nat) : Int) := by omega
    rw [e, toU32_natCast]
    apply Nat.mod_eq_of_lt
    omega
  unfold stack_free
  rw [if_neg ho]
  simp only []
  rw [if_neg hsz, hptr]
  rfl

/-- C4 (as stated, refuted): a full 16-byte stack whose buffer ends at
`2 ^ 64` has `pointer <= capacity`, and the address `memory = 2 ^ 64 - 8` lies
in `[base, base + pointer]` at a positive distance below `base + pointer`.
`stack_free` nevertheless returns `CALLED_ON_NON_OWNED_MEMORY` and keeps the
state: the pointer sum `base + pointer` of `stack_owns` wraps to 0. -/
theorem stack_free_rejects_at_address_wrap :
    ((16 : Nat) ≤ 16 ∧ (2 ^ 64 - 16 : Nat) ≤ 2 ^ 64 - 8 ∧
      (2 ^ 64 - 8 : Nat) ≤ (2 ^ 64 - 16) + 16 ∧
      ¬ (((((2 ^ 64 - 16) + 16 : Nat) : Int) - ((2 ^ 64 - 8 : Nat) : Int)) ≤ 0)) ∧
    stack_free { m_memory := 2 ^ 64 - 16, m_pointer := 16, m_capacity := 16 } (2 ^ 64 - 8) =
      some (FREE_STATUS_CALLED_ON_NON_OWNED_MEMORY,
        { m_memory := 2 ^ 64 - 16, m_pointer := 16, m_capacity := 16 }) := by
  refine ⟨by decide, ?_⟩
  exact stack_free_rejects _ _ (Or.inl (by decide))

/-- C4 (amended): on a state with `pointer <= capacity` whose top
`base + pointer` lies below `2 ^ 64`, `stack_free` reports
`CALLED_ON_NON_OWNED_MEMORY` and keeps the state exactly when `memory` lies
outside `[base, base + pointer]` or the distance `(base + pointer) - memory`
is not positive; in every other case it reports `SUCCEEDED` and the cursor
becomes `memory - base`, base and capacity kept. -/
theorem stack_free_rule (s : allocator_stack_t) (memory : Nat)
    (hp : s.m_pointer ≤ s.m_capacity) (hc : s.m_capacity < 2 ^ 32)
    (hw : s.m_memory + s.m_pointer < 2 ^ 64) :
    ((¬ (s.m_memory ≤ memory ∧ memory ≤ s.m_memory + s.m_pointer) ∨
        ((s.m_memory + s.m_pointer : Nat) : Int) - (memory : Int) ≤ 0) →
      stack_free s memory = some (FREE_STATUS_CALLED_ON_NON_OWNED_MEMORY, s)) ∧
    (¬ (¬ (s.m_memory ≤ memory ∧ memory ≤ s.m_memory + s.m_pointer) ∨
        ((s.m_memory + s.m_pointer : Nat) : Int) - (memory : Int) ≤ 0) →
      stack_free s memory =
        some (FREE_STATUS_SUCCEEDED,
          { m_memory := s.m_memory, m_pointer := memory - s.m_memory,
            m_capacity := s.m_capacity })) := by
  have e : (s.m_memory + s.m_pointer) % 2 ^ 64 = s.m_memory + s.m_pointer :=
    Nat.mod_eq_of_lt hw
  constructor
  · intro h
    apply stack_free_rejects s memory
    rw [e]
    exact h
  · intro h
    push_neg at h
    exact stack_free_rewinds s memory (by omega) h.1.1 (by omega)

/-- C4 (witness): the rule at a stack of 1024 bytes at address 8192 holding
22 bytes, freeing the address 8202. -/
theorem stack_free_rule_witness :
    stack_free { m_memory := 8192, m_pointer := 22, m_capacity := 1024 } 8202 =
      some (FREE_STATUS_SUCCEEDED,
        { m_memory := 8192, m_pointer := 8202 - 8192, m_capacity := 1024 }) :=
  (stack_free_rule { m_memory := 8192, m_pointer := 22, m_capacity := 1024 } 8202
    (by decide) (by decide) (by decide)).2 (by decide)


/-- The out-of-memory branch of `stack_allocate`. -/
theorem stack_allocate_oom (s : allocator_stack_t) (size : Nat)
    (hp : s.m_pointer < 2 ^ 32) (hs : size < 2 ^ 63)
    (h : s.m_capacity < s.m_pointer + size) :
    stack_allocate s (size : Int) = some (ALLOCATION_STATUS_OUT_OF_MEMORY, s) := by
  unfold stack_allocate
  rw [toSizeT_natCast]
  have e : (s.m_pointer + size % 2 ^ 64) % 2 ^ 64 = s.m_pointer + size := by omega
  rw [e, if_pos h]
  rfl

/-- The success branch of `stack_allocate`, up to the assertion of
`make_allocation_result`. -/
theorem stack_allocate_fits (s : allocator_stack_t) (size : Nat)
    (hc : s.m_capacity < 2 ^ 32) (h : s.m_pointer + size ≤ s.m_capacity) :
    stack_allocate s (size : Int) =
      (make_allocation_result ((s.m_memory + s.m_pointer) % 2 ^ 64)).map
        (fun r => (r, { m_memory := s.m_memory, m_pointer := s.m_pointer + size,
                        m_capacity := s.m_capacity })) := by
  unfold stack_allocate
  rw [toSizeT_natCast, toU32_natCast]
  have e : (s.m_pointer + size % 2 ^ 64) % 2 ^ 64 = s.m_pointer + size := by omega
  have e2 : (s.m_pointer + size % 2 ^ 32) % 2 ^ 32 = s.m_pointer + size := by omega
  rw [e, e2, if_neg (by omega)]

/-- C5 (as stated, refuted): a full 16-byte stack whose buffer ends at the top
of the address space satisfies `pointer <= capacity` and
`base + pointer > 4096`, and a request of 0 bytes fits, yet `stack_allocate`
does not return `base + pointer`: the assertion of `make_allocation_result`
rejects the address `2 ^ 64 - 1`. -/
theorem stack_allocate_at_sentinel_address :
    ((16 : Nat) ≤ 16 ∧ 4096 < (2 ^ 64 - 17) + 16 ∧ ¬ (16 < 16 + 0)) ∧
    stack_allocate { m_memory := 2 ^ 64 - 17, m_pointer := 16, m_capacity := 16 } ((0 : Nat) : Int)
      = none := by
  refine ⟨by decide, ?_⟩
  rw [stack_allocate_fits _ _ (by decide) (by decide)]
  simp [make_allocation_result, ALLOCATION_QUERY_UNSUPPORTED]

/-- C5 (amended): with `pointer <= capacity` and
`4096 < base + pointer < 2 ^ 64 - 1` (the address is above the reserved page,
below the sentinel `2 ^ 64 - 1`, and the pointer sum does not wrap),
`stack_allocate` returns `OUT_OF_MEMORY` and keeps the state when
`pointer + size > capacity`, and otherwise returns `base + pointer` and
advances the cursor by `size`; on a fresh stack a successful `ALLOCATE(size)`
is followed by `QUERY_USED = size` and `QUERY_CAPACITY = cap`. -/
theorem stack_allocate_post (s : allocator_stack_t) (size : Nat)
    (hp : s.m_pointer ≤ s.m_capacity) (hc : s.m_capacity < 2 ^ 32) (hs : size < 2 ^ 63)
    (haddr : 4096 < s.m_memory + s.m_pointer)
    (hmax : s.m_memory + s.m_pointer < 2 ^ 64 - 1) :
    (s.m_capacity < s.m_pointer + size →
      stack_allocate s (size : Int) = some (ALLOCATION_STATUS_OUT_OF_MEMORY, s)) ∧
    (s.m_pointer + size ≤ s.m_capacity →
      stack_allocate s (size : Int) =
        some (s.m_memory + s.m_pointer,
          { m_memory := s.m_memory, m_pointer := s.m_pointer + size,
            m_capacity := s.m_capacity })) ∧
    (s = allocator_stack_init s.m_memory s.m_capacity → size ≤ s.m_capacity →
      ∃ t, stack_allocate s (size : Int) = some (s.m_memory, t) ∧
        allocator_stack_proc t .QUERY_USED = some (size, t) ∧
        allocator_stack_proc t .QUERY_CAPACITY = some (s.m_capacity, t)) := by
  have e : (s.m_memory + s.m_pointer) % 2 ^ 64 = s.m_memory + s.m_pointer :=
    Nat.mod_eq_of_lt (by omega)
  have hres : make_allocation_result ((s.m_memory + s.m_pointer) % 2 ^ 64)
      = some (s.m_memory + s.m_pointer) := by
    rw [e]
    unfold make_allocation_result ALLOCATION_QUERY_UNSUPPORTED
    rw [if_pos ⟨haddr, by omega⟩]
  refine ⟨stack_allocate_oom s size (by omega) hs, ?_, ?_⟩
  · intro h
    rw [stack_allocate_fits s size hc h, hres]
    rfl
  · intro hfresh hfit
    have hp0 : s.m_pointer = 0 := by
      rw [hfresh]
      rfl
    refine ⟨{ m_memory := s.m_memory, m_pointer := s.m_pointer + size,
              m_capacity := s.m_capacity }, ?_, ?_, ?_⟩
    · rw [stack_allocate_fits s size hc (by omega), hres]
      simp [hp0]
    · simp [allocator_stack_proc, make_query_result, stack_used, hp0]
    · simp [allocator_stack_proc, make_query_result, stack_capacity]

/-- C5 (witness): a fresh 1024-byte stack at address 8192 and a request of 10
bytes. -/
theorem stack_allocate_post_witness :
    stack_allocate (allocator_stack_init 8192 1024) ((10 : Nat) : Int) =
      some (8192 + 0, { m_memory := 8192, m_pointer := 0 + 10, m_capacity := 1024 }) :=
  (stack_allocate_post (allocator_stack_init 8192 1024) 10 (by decide) (by decide)
    (by decide) (by decide) (by decide)).2.1 (by decide)


/-- A word accepted by `allocation_succeeded` is not the out-of-memory code,
so a `stack_allocate` that produced it took the success branch. -/
theorem stack_allocate_succeeded_inv (s : allocator_stack_t) (size : Nat) (a : Nat)
    (t : allocator_stack_t) (hp : s.m_pointer < 2 ^ 32) (hc : s.m_capacity < 2 ^ 32)
    (hs : size < 2 ^ 63) (h : stack_allocate s (size : Int) = some (a, t))
    (ha : allocation_succeeded a = true) :
    s.m_pointer + size ≤ s.m_capacity ∧ a = (s.m_memory + s.m_pointer) % 2 ^ 64 ∧
      t = { m_memory := s.m_memory, m_pointer := s.m_pointer + size,
            m_capacity := s.m_capacity } := by
  by_cases hfit : s.m_pointer + size ≤ s.m_capacity
  · rw [stack_allocate_fits s size hc hfit] at h
    unfold make_allocation_result at h
    split at h
    · simp only [Option.map_some', Option.some.injEq, Prod.mk.injEq] at h
      exact ⟨hfit, h.1.symm, h.2.symm⟩
    · simp at h
  · rw [stack_allocate_oom s size hp hs (by omega)] at h
    simp only [Option.some.injEq, Prod.mk.injEq] at h
    rw [← h.1] at ha
    simp [allocation_succeeded, ALLOCATION_STATUS_OUT_OF_MEMORY, ALLOCATION_STATUS_SUCCEEDED,
      ALLOCATION_STATUS_COUNT] at ha

/-- C3 (as stated, refuted): on a fresh 1024-byte stack at address 8192,
`a = ALLOCATE(10)` and `b = ALLOCATE(12)` succeed, and `FREE(a)` while `b` is
the top allocation returns `SUCCEEDED` and moves the cursor from 22 to 0: it
is not rejected. -/
theorem stack_free_non_top_accepted :
    stack_allocate (allocator_stack_init 8192 1024) ((10 : Nat) : Int) =
      some (8192, { m_memory := 8192, m_pointer := 10, m_capacity := 1024 }) ∧
    stack_allocate { m_memory := 8192, m_pointer := 10, m_capacity := 1024 } ((12 : Nat) : Int) =
      some (8202, { m_memory := 8192, m_pointer := 22, m_capacity := 1024 }) ∧
    stack_free { m_memory := 8192, m_pointer := 22, m_capacity := 1024 } 8192 =
      some (FREE_STATUS_SUCCEEDED, { m_memory := 8192, m_pointer := 0, m_capacity := 1024 }) ∧
    stack_free { m_memory := 8192, m_pointer := 22, m_capacity := 1024 } 8192 ≠
      some (FREE_STATUS_CALLED_ON_NON_OWNED_MEMORY,
        { m_memory := 8192, m_pointer := 22, m_capacity := 1024 }) := by
  have h3 : stack_free { m_memory := 8192, m_pointer := 22, m_capacity := 1024 } 8192 =
      some (FREE_STATUS_SUCCEEDED, { m_memory := 8192, m_pointer := 0, m_capacity := 1024 }) :=
    stack_free_rewinds { m_memory := 8192, m_pointer := 22, m_capacity := 1024 } 8192
      (by decide) (by decide) (by decide)
  refine ⟨?_, ?_, h3, ?_⟩
  · rw [stack_allocate_fits _ _ (by decide) (by decide)]
    simp [make_allocation_result, ALLOCATION_QUERY_UNSUPPORTED, allocator_stack_init]
  · rw [stack_allocate_fits _ _ (by decide) (by decide)]
    simp [make_allocation_result, ALLOCATION_QUERY_UNSUPPORTED]
  · rw [h3]
    decide

/-- C3 (amended): when `a = ALLOCATE(s1)` and then `b = ALLOCATE(s2)` both
succeed with `s1, s2 > 0` and the two allocations end below `2 ^ 64`
(`base + pointer + s1 + s2 < 2 ^ 64`), `FREE(a)` while `b` is the top
allocation returns `SUCCEEDED` and rewinds the cursor to its value before `a`
was allocated, so the state is the one before both allocations. -/
theorem stack_free_non_top (s t1 t2 : allocator_stack_t) (s1 s2 a b : Nat)
    (hp : s.m_pointer < 2 ^ 32) (hc : s.m_capacity < 2 ^ 32)
    (h1 : 0 < s1) (h2 : 0 < s2) (hs1 : s1 < 2 ^ 63) (hs2 : s2 < 2 ^ 63)
    (hw : s.m_memory + s.m_pointer + s1 + s2 < 2 ^ 64)
    (ha : stack_allocate s (s1 : Int) = some (a, t1)) (hasucc : allocation_succeeded a = true)
    (hb : stack_allocate t1 (s2 : Int) = some (b, t2)) (hbsucc : allocation_succeeded b = true) :
    stack_free t2 a = some (FREE_STATUS_SUCCEEDED, s) := by
  obtain ⟨hfit1, rfl, rfl⟩ := stack_allocate_succeeded_inv s s1 a t1 hp hc hs1 ha hasucc
  obtain ⟨hfit2, rfl, rfl⟩ :=
    stack_allocate_succeeded_inv
      { m_memory := s.m_memory, m_pointer := s.m_pointer + s1, m_capacity := s.m_capacity }
      s2 b t2 (lt_of_le_of_lt hfit1 hc) hc hs2 hb hbsucc
  have hfit3 : s.m_pointer + s1 + s2 ≤ s.m_capacity := hfit2
  have h := stack_free_rewinds
    { m_memory := s.m_memory, m_pointer := s.m_pointer + s1 + s2, m_capacity := s.m_capacity }
    ((s.m_memory + s.m_pointer) % 2 ^ 64) (by
      show s.m_pointer + s1 + s2 < 2 ^ 32
      omega) (by
      show s.m_memory ≤ (s.m_memory + s.m_pointer) % 2 ^ 64
      omega) (by
      show (s.m_memory + s.m_pointer) % 2 ^ 64 <
        (s.m_memory + (s.m_pointer + s1 + s2)) % 2 ^ 64
      omega)
  rw [h]
  have e : (s.m_memory + s.m_pointer) % 2 ^ 64 - s.m_memory = s.m_pointer := by omega
  rw [e]

/-- C3 (witness): the amended statement on a fresh 1024-byte stack at address
8192 with sizes 10 and 12. -/
theorem stack_free_non_top_witness :
    stack_free { m_memory := 8192, m_pointer := 22, m_capacity := 1024 } 8192 =
      some (FREE_STATUS_SUCCEEDED, allocator_stack_init 8192 1024) :=
  stack_free_non_top (allocator_stack_init 8192 1024)
    { m_memory := 8192, m_pointer := 10, m_capacity := 1024 }
    { m_memory := 8192, m_pointer := 22, m_capacity := 1024 } 10 12 8192 8202
    (by decide) (by decide) (by decide) (by decide) (by decide) (by decide) (by decide)
    (by rw [stack_allocate_fits _ _ (by decide) (by decide)]
        simp [make_allocation_result, ALLOCATION_QUERY_UNSUPPORTED, allocator_stack_init])
    (by decide)
    (by rw [stack_allocate_fits _ _ (by decide) (by decide)]
        simp [make_allocation_result, ALLOCATION_QUERY_UNSUPPORTED])
    (by decide)

/-- C2 (the code at the failing input): on a stack at address 8192 holding one
16-byte allocation, `RESIZE(memory = 8192, old_size = 16, new_size = 32)`
through `allocator_stack_proc` returns 8192 and leaves the cursor at 16, not
at 32; and `RESIZE(memory = 0, old_size = 16, new_size = 32)` advances the
cursor by 16, whereas `ALLOCATE(32)` advances it by 32. -/
theorem allocator_stack_proc_resize_ignores_new_size :
    allocator_stack_proc { m_memory := 8192, m_pointer := 16, m_capacity := 1024 }
        (.RESIZE 8192 ((32 : Nat) : Int) ((16 : Nat) : Int)) =
      some (8192, { m_memory := 8192, m_pointer := 16, m_capacity := 1024 }) ∧
    allocator_stack_proc { m_memory := 8192, m_pointer := 16, m_capacity := 1024 }
        (.RESIZE 0 ((32 : Nat) : Int) ((16 : Nat) : Int)) =
      some (8208, { m_memory := 8192, m_pointer := 32, m_capacity := 1024 }) ∧
    allocator_stack_proc { m_memory := 8192, m_pointer := 16, m_capacity := 1024 }
        (.ALLOCATE ((32 : Nat) : Int)) =
      some (8208, { m_memory := 8192, m_pointer := 48, m_capacity := 1024 }) := by
  refine ⟨?_, ?_, ?_⟩
  · simp only [allocator_stack_proc, stack_resize, toU32_natCast]
    simp [stack_owns, make_allocation_result, ALLOCATION_QUERY_UNSUPPORTED]
  · simp only [allocator_stack_proc, stack_resize, if_true]
    rw [stack_allocate_fits _ _ (by decide) (by decide)]
    simp [make_allocation_result, ALLOCATION_QUERY_UNSUPPORTED]
  · simp only [allocator_stack_proc]
    rw [stack_allocate_fits _ _ (by decide) (by decide)]
    simp [make_allocation_result, ALLOCATION_QUERY_UNSUPPORTED]


/-! ## Alignment -/

/-- Masking with the complement of `2 ^ k - 1` in a 64-bit word clears the
low `k` bits. -/
theorem and_not_mask (x k : Nat) (hk : k ≤ 64) (hx : x < 2 ^ 64) :
    x &&& (2 ^ 64 - 1 - (2 ^ k - 1)) = x / 2 ^ k * 2 ^ k := by
  have hm : 2 ^ 64 - 1 - (2 ^ k - 1) = 2 ^ k * (2 ^ (64 - k) - 1) := by
    have h1 : 2 ^ k * 2 ^ (64 - k) = 2 ^ 64 := by
      rw [← pow_add]
      congr 1
      omega
    have h2 : 0 < 2 ^ k := by positivity
    rw [Nat.mul_sub, Nat.mul_one, h1]
    omega
  rw [hm, Nat.mul_comm (x / 2 ^ k)]
  apply Nat.eq_of_testBit_eq
  intro j
  rw [Nat.testBit_and, Nat.testBit_mul_pow_two, Nat.testBit_mul_pow_two,
    Nat.testBit_two_pow_sub_one, ← Nat.shiftRight_eq_div_pow, Nat.testBit_shiftRight]
  by_cases hj : k ≤ j
  · have e : k + (j - k) = j := by omega
    rw [e]
    by_cases hj2 : j < 64
    · have : j - k < 64 - k := by omega
      simp [hj, this]
    · have hf : x.testBit j = false :=
        Nat.testBit_lt_two_pow (lt_of_lt_of_le hx (Nat.pow_le_pow_right (by norm_num) (by omega)))
      simp [hf]
  · simp [hj]

theorem is_power_of_two_pow (k : Nat) : is_power_of_two (2 ^ k) = true := by
  unfold is_power_of_two
  rw [Nat.and_pow_two_sub_one_eq_mod, Nat.mod_self]
  simp

/-- On a power-of-two alignment and without wrap-around, `align_address`
passes its assertion and rounds the address up to a multiple of the
alignment. -/
theorem align_address_pow (address k : Nat) (hk : k ≤ 64)
    (hov : address + (2 ^ k - 1) < 2 ^ 64) :
    align_address address (2 ^ k) = some ((address + (2 ^ k - 1)) / 2 ^ k * 2 ^ k) := by
  unfold align_address
  rw [if_pos (is_power_of_two_pow k)]
  simp only []
  rw [Nat.mod_eq_of_lt hov, and_not_mask _ k hk hov]

/-- Rounding up by division is the least multiple at or above the address. -/
theorem round_up_least (address a : Nat) (ha : 0 < a) :
    a ∣ (address + (a - 1)) / a * a ∧ address ≤ (address + (a - 1)) / a * a ∧
      (address + (a - 1)) / a * a < address + a ∧
      ∀ m, a ∣ m → address ≤ m → (address + (a - 1)) / a * a ≤ m := by
  have hdm := Nat.div_add_mod (address + (a - 1)) a
  have hml := Nat.mod_lt (address + (a - 1)) ha
  have hcomm : a * ((address + (a - 1)) / a) = (address + (a - 1)) / a * a := Nat.mul_comm _ _
  refine ⟨Dvd.intro_left _ rfl, by omega, by omega, ?_⟩
  rintro m ⟨c, rfl⟩ hle
  have hlt : (address + (a - 1)) / a < c + 1 := by
    rw [Nat.div_lt_iff_lt_mul ha]
    have : (c + 1) * a = a * c + a := by ring
    omega
  have hle2 : (address + (a - 1)) / a ≤ c := by omega
  calc (address + (a - 1)) / a * a ≤ c * a := Nat.mul_le_mul_right a hle2
    _ = a * c := Nat.mul_comm _ _

/-- C6 (as stated, refuted): on a 1024-byte stack whose buffer starts at
address 4096, `ALLOCATE_ALIGNED(16, 64)` fits (`pointer + pad + size` is 16)
and the aligned address is 4096, yet the call does not return it: the
assertion `address > 4096` of `make_allocation_result` fails. -/
theorem stack_allocate_aligned_at_page_start :
    (4096 + 0 + (64 - 1)) / 64 * 64 = 4096 ∧ 0 + (4096 - (4096 + 0)) + 16 ≤ 1024 ∧
    stack_allocate_aligned { m_memory := 4096, m_pointer := 0, m_capacity := 1024 }
      ((16 : Nat) : Int) ((64 : Nat) : Int) = none := by
  refine ⟨by decide, by decide, ?_⟩
  have h := align_address_pow (4096 + 0) 6 (by decide) (by decide)
  have e : ((4096 + 0 + (2 ^ 6 - 1)) / 2 ^ 6 * 2 ^ 6 : Nat) = 4096 := by decide
  rw [e] at h
  unfold stack_allocate_aligned
  rw [toSizeT_natCast, toSizeT_natCast, toU32_natCast]
  have e64 : (64 : Nat) % 2 ^ 64 = 2 ^ 6 := by decide
  simp only [e64, h]
  simp [make_allocation_result]

/-- C6 (amended): for a power-of-two alignment `a = 2 ^ k` and no address
overflow, with `aligned` the least multiple of `a` at or above `base + pointer`
and `pad = aligned - (base + pointer)`: `stack_allocate_aligned` returns
`OUT_OF_MEMORY` and keeps the state when `pointer + pad + size > capacity`;
otherwise, provided `aligned > 4096` and `aligned` is not the sentinel
`2 ^ 64 - 1`, it returns `aligned`, a multiple of `a`, and sets the cursor to
`pointer + pad + size`. -/
theorem stack_allocate_aligned_post (s : allocator_stack_t) (size k aligned pad : Nat)
    (hptr : s.m_pointer < 2 ^ 32) (hc : s.m_capacity < 2 ^ 32) (hs : size < 2 ^ 63)
    (hk : k < 63) (hov : s.m_memory + s.m_pointer + (2 ^ k - 1) < 2 ^ 64)
    (hdvd : 2 ^ k ∣ aligned) (hge : s.m_memory + s.m_pointer ≤ aligned)
    (hleast : ∀ m, 2 ^ k ∣ m → s.m_memory + s.m_pointer ≤ m → aligned ≤ m)
    (hpad : pad = aligned - (s.m_memory + s.m_pointer)) :
    (s.m_capacity < s.m_pointer + pad + size →
      stack_allocate_aligned s (size : Int) ((2 ^ k : Nat) : Int) =
        some (ALLOCATION_STATUS_OUT_OF_MEMORY, s)) ∧
    (s.m_pointer + pad + size ≤ s.m_capacity → 4096 < aligned → aligned ≠ 2 ^ 64 - 1 →
      stack_allocate_aligned s (size : Int) ((2 ^ k : Nat) : Int) =
        some (aligned,
          { m_memory := s.m_memory, m_pointer := s.m_pointer + pad + size,
            m_capacity := s.m_capacity }) ∧ aligned % 2 ^ k = 0) := by
  have hpos : 0 < 2 ^ k := by positivity
  obtain ⟨hdvd2, hle2, hlt2, hleast2⟩ := round_up_least (s.m_memory + s.m_pointer) (2 ^ k) hpos
  have hal := align_address_pow (s.m_memory + s.m_pointer) k (by omega) hov
  have heq : (s.m_memory + s.m_pointer + (2 ^ k - 1)) / 2 ^ k * 2 ^ k = aligned :=
    Nat.le_antisymm (hleast2 aligned hdvd hge) (hleast _ hdvd2 hle2)
  rw [heq] at hal hlt2
  have hk64 : (2 ^ k : Nat) < 2 ^ 64 := Nat.pow_lt_pow_right (by norm_num) (by omega)
  have hk62 : (2 ^ k : Nat) ≤ 2 ^ 62 := Nat.pow_le_pow_right (by norm_num) (by omega)
  have hpadlt : pad < 2 ^ k := by omega
  have hpad2 : (aligned + 2 ^ 64 - (s.m_memory + s.m_pointer)) % 2 ^ 64 = pad := by
    have : aligned + 2 ^ 64 - (s.m_memory + s.m_pointer) = pad + 2 ^ 64 := by omega
    rw [this]
    omega
  constructor
  · intro h
    unfold stack_allocate_aligned
    rw [toSizeT_natCast, toSizeT_natCast, Nat.mod_eq_of_lt hk64, hal]
    simp only []
    rw [hpad2, if_pos (by omega)]
    rfl
  · intro h hlow hmax
    refine ⟨?_, Nat.mod_eq_zero_of_dvd hdvd⟩
    unfold stack_allocate_aligned
    rw [toSizeT_natCast, toSizeT_natCast, toU32_natCast, Nat.mod_eq_of_lt hk64, hal]
    simp only []
    rw [hpad2, if_neg (by omega)]
    unfold make_allocation_result
    rw [if_pos ⟨hlow, by simpa [ALLOCATION_QUERY_UNSUPPORTED] using hmax⟩]
    simp only [Option.map_some', Option.some.injEq, Prod.mk.injEq, true_and,
      allocator_stack_t.mk.injEq, and_true]
    clear hpad2 heq hleast2 hle2 hdvd2 hal hleast hdvd
    omega

/-- C6 (witness): the demo's `ALLOCATE_ALIGNED(155, 64)` on a 1024-byte stack
at address 8192 holding 10 bytes returns 8256, a multiple of 64. -/
theorem stack_allocate_aligned_post_witness :
    stack_allocate_aligned { m_memory := 8192, m_pointer := 10, m_capacity := 1024 }
        ((155 : Nat) : Int) ((2 ^ 6 : Nat) : Int) =
      some (8256, { m_memory := 8192, m_pointer := 10 + 54 + 155, m_capacity := 1024 }) ∧
    8256 % 2 ^ 6 = 0 :=
  (stack_allocate_aligned_post { m_memory := 8192, m_pointer := 10, m_capacity := 1024 }
    155 6 8256 54 (by decide) (by decide) (by decide) (by decide) (by decide) (by decide)
    (by decide) (by intro m h1 h2; simp only at h2; omega) (by decide)).2 (by decide) (by decide) (by decide)

/-! ## The fallback compositor -/

/-- C8 (as stated, refuted): with a primary that answers `FREE` with
`UNSUPPORTED_OPERATION` and a secondary that answers `SUCCEEDED`, the fallback
does call the secondary (its call counter goes from 0 to 1) and returns
`SUCCEEDED`, not the primary's `UNSUPPORTED_OPERATION`. -/
theorem fallback_free_retries_on_unsupported :
    (fallback_free
        { primary := counting_child FREE_STATUS_UNSUPPORTED_OPERATION,
          secondary := counting_child FREE_STATUS_SUCCEEDED } 8192).map
      (fun r => (r.1, r.2.primary.data, r.2.secondary.data)) =
    some (FREE_STATUS_SUCCEEDED, 1, 1) := by
  rfl

/-- C8 (amended): the secondary is called exactly when the primary's `FREE`
returned a status other than `SUCCEEDED` (be it `CALLED_ON_NON_OWNED_MEMORY`
or `UNSUPPORTED_OPERATION`), and the fallback returns the status of the last
child call made: after a successful primary the secondary handle is
untouched whatever the secondary would do; otherwise the secondary's status
and state are the outcome, and a secondary that aborts aborts the fallback. -/
theorem fallback_free_retry {σ₁ σ₂ : Type} (f : allocator_fallback_t σ₁ σ₂) (memory r1 : Nat)
    (p1 : allocator_t σ₁) (h1 : allocation_proxy f.primary (.FREE memory) = some (r1, p1)) :
    (r1 = FREE_STATUS_SUCCEEDED →
      fallback_free f memory =
        some (r1, { primary := p1, secondary := f.secondary })) ∧
    (r1 ≠ FREE_STATUS_SUCCEEDED → ∀ (r2 : Nat) (q1 : allocator_t σ₂),
      allocation_proxy f.secondary (.FREE memory) = some (r2, q1) → r2 < FREE_STATUS_COUNT →
      fallback_free f memory = some (r2, { primary := p1, secondary := q1 })) ∧
    (r1 ≠ FREE_STATUS_SUCCEEDED → allocation_proxy f.secondary (.FREE memory) = none →
      fallback_free f memory = none) := by
  refine ⟨?_, ?_, ?_⟩
  · intro h
    subst h
    unfold fallback_free
    rw [h1]
    rfl
  · intro h r2 q1 h2 hr2
    unfold fallback_free
    rw [h1]
    have hf : free_succeeded r1 = false := by
      simpa [free_succeeded] using h
    simp only [hf, if_true]
    rw [h2]
    simp only []
    by_cases h0 : r2 = FREE_STATUS_SUCCEEDED
    · subst h0
      rfl
    · have hf2 : free_succeeded r2 = false := by
        simpa [free_succeeded] using h0
      have hmod : r2 % 2 ^ 32 = r2 := by
        apply Nat.mod_eq_of_lt
        unfold FREE_STATUS_COUNT at hr2
        omega
      simp only [hf2, if_true, hmod, make_free_status, hr2, Option.map_some']
  · intro h h2
    unfold fallback_free
    rw [h1]
    have hf : free_succeeded r1 = false := by
      simpa [free_succeeded] using h
    simp only [hf, if_true]
    rw [h2]

/-- C8 (witness): a primary answering `CALLED_ON_NON_OWNED_MEMORY` and a
secondary answering `SUCCEEDED`. -/
theorem fallback_free_retry_witness :
    fallback_free
        { primary := counting_child FREE_STATUS_CALLED_ON_NON_OWNED_MEMORY,
          secondary := counting_child FREE_STATUS_SUCCEEDED } 8192 =
      some (FREE_STATUS_SUCCEEDED,
        { primary := { counting_child FREE_STATUS_CALLED_ON_NON_OWNED_MEMORY with data := 1 },
          secondary := { counting_child FREE_STATUS_SUCCEEDED with data := 1 } }) :=
  (fallback_free_retry
    { primary := counting_child FREE_STATUS_CALLED_ON_NON_OWNED_MEMORY,
      secondary := counting_child FREE_STATUS_SUCCEEDED } 8192
    FREE_STATUS_CALLED_ON_NON_OWNED_MEMORY
    { counting_child FREE_STATUS_CALLED_ON_NON_OWNED_MEMORY with data := 1 } rfl).2.1
    (by decide) FREE_STATUS_SUCCEEDED { counting_child FREE_STATUS_SUCCEEDED with data := 1 }
    rfl (by decide)

/-- C9 (the code at the failing input): whenever the primary answers
`QUERY_OWNS` with `UNSUPPORTED`, `fallback_owns` returns 1 and does not ask
the secondary, so two children that both answer `UNSUPPORTED` give 1 and not
`UNSUPPORTED`. -/
theorem fallback_owns_unsupported_primary {σ₁ σ₂ : Type} (f : allocator_fallback_t σ₁ σ₂)
    (memory : Nat) (p1 : allocator_t σ₁)
    (h1 : allocation_proxy f.primary (.QUERY_OWNS memory) =
      some (ALLOCATION_QUERY_UNSUPPORTED, p1)) :
    fallback_owns f memory = some (1, { primary := p1, secondary := f.secondary }) := by
  unfold fallback_owns
  rw [h1]
  rfl

/-- C9 (witness): both children answer `UNSUPPORTED`; the secondary's call
counter stays 0. -/
theorem fallback_owns_unsupported_primary_witness :
    fallback_owns
        { primary := counting_child ALLOCATION_QUERY_UNSUPPORTED,
          secondary := counting_child ALLOCATION_QUERY_UNSUPPORTED } 8192 =
      some (1, { primary := { counting_child ALLOCATION_QUERY_UNSUPPORTED with data := 1 },
                 secondary := counting_child ALLOCATION_QUERY_UNSUPPORTED }) :=
  fallback_owns_unsupported_primary
    { primary := counting_child ALLOCATION_QUERY_UNSUPPORTED,
      secondary := counting_child ALLOCATION_QUERY_UNSUPPORTED } 8192
    { counting_child ALLOCATION_QUERY_UNSUPPORTED with data := 1 } rfl


/-! ## The free-list allocator -/

/-- The result of `align_address` is a 64-bit word. -/
theorem align_address_lt (address alignment r : Nat)
    (h : align_address address alignment = some r) : r < 2 ^ 64 := by
  unfold align_address at h
  split at h
  · simp only [Option.some.injEq] at h
    rw [← h]
    exact lt_of_le_of_lt Nat.and_le_left (Nat.mod_lt _ (by decide))
  · exact absurd h (by simp)

/-- A cell address that passes the two assertions is a 64-bit word. -/
theorem cell_ok_lt (memory block_size c : Nat) (h : cell_ok memory block_size c) :
    memory + c * block_size < 2 ^ 64 :=
  align_address_lt _ _ _ h.1

/-- One `ALLOCATE` at a cell inside the capacity whose two assertions pass. -/
theorem freelist_allocate_step (s : allocator_freelist_t) (size : Int) (c : Nat)
    (hff : s.m_first_free = c) (hsz : toU32 size ≤ s.m_block_size)
    (hcap : c < freelist_capacity s) (hoff : c * s.m_block_size < 2 ^ 32)
    (hok : cell_ok s.m_memory s.m_block_size c) :
    freelist_allocate s size =
      some (s.m_memory + c * s.m_block_size,
        { s with
          m_first_free :=
            if s.heap (c * s.m_block_size) = 0 then (c + 1) % 2 ^ 32
            else s.heap (c * s.m_block_size) - 1
          m_used := (s.m_used + 1) % 2 ^ 32 }) := by
  unfold freelist_allocate
  rw [if_neg (by omega), hff, if_neg (by omega)]
  simp only []
  rw [Nat.mod_eq_of_lt hoff, Nat.mod_eq_of_lt (cell_ok_lt _ _ _ hok),
    if_neg (not_not.mpr hok.1), hok.2]
  rfl

/-- A successful `ALLOCATE` passed the size check, the capacity check and
both assertions on the head cell, and popped it. -/
theorem freelist_allocate_inv (s s1 : allocator_freelist_t) (size : Int) (p : Nat)
    (h : freelist_allocate s size = some (p, s1)) (hp : allocation_succeeded p = true) :
    toU32 size ≤ s.m_block_size ∧ s.m_first_free < freelist_capacity s ∧
      align_address ((s.m_memory + (s.m_first_free * s.m_block_size) % 2 ^ 32) % 2 ^ 64) 4 =
        some ((s.m_memory + (s.m_first_free * s.m_block_size) % 2 ^ 32) % 2 ^ 64) ∧
      make_allocation_result
          ((s.m_memory + (s.m_first_free * s.m_block_size) % 2 ^ 32) % 2 ^ 64) =
        some ((s.m_memory + (s.m_first_free * s.m_block_size) % 2 ^ 32) % 2 ^ 64) ∧
      p = (s.m_memory + (s.m_first_free * s.m_block_size) % 2 ^ 32) % 2 ^ 64 ∧
      s1 = { s with
        m_first_free :=
          if s.heap ((s.m_first_free * s.m_block_size) % 2 ^ 32) = 0
          then (s.m_first_free + 1) % 2 ^ 32
          else s.heap ((s.m_first_free * s.m_block_size) % 2 ^ 32) - 1
        m_used := (s.m_used + 1) % 2 ^ 32 } := by
  unfold freelist_allocate at h
  split at h
  · exact absurd h (by simp)
  · rename_i hsz
    split at h
    · exfalso
      have : p = ALLOCATION_STATUS_OUT_OF_MEMORY := by
        simp only [make_allocation_error, ALLOCATION_STATUS_OUT_OF_MEMORY,
          ALLOCATION_STATUS_COUNT] at h
        simp at h
        exact h.1.symm
      rw [this] at hp
      simp [allocation_succeeded, ALLOCATION_STATUS_OUT_OF_MEMORY, ALLOCATION_STATUS_SUCCEEDED,
        ALLOCATION_STATUS_COUNT] at hp
    · rename_i hcap
      simp only [] at h
      split at h
      · exact absurd h (by simp)
      · rename_i hal
        have hal2 := not_not.mp hal
        cases hres : make_allocation_result
            ((s.m_memory + (s.m_first_free * s.m_block_size) % 2 ^ 32) % 2 ^ 64) with
        | none =>
          rw [hres] at h
          exact absurd h (by simp)
        | some r =>
          have hr : r = (s.m_memory + (s.m_first_free * s.m_block_size) % 2 ^ 32) % 2 ^ 64 := by
            unfold make_allocation_result at hres
            split at hres
            · exact (Option.some.inj hres).symm
            · exact absurd hres (by simp)
          rw [hres] at h
          simp only [Option.map_some', Option.some.injEq, Prod.mk.injEq] at h
          subst hr
          exact ⟨by omega, by omega, hal2, rfl, h.1.symm, h.2.symm⟩


theorem freelist_allocate_list_cons (sz : Int) (sizes : List Int) (s s1 s2 : allocator_freelist_t)
    (p : Nat) (ps : List Nat) (h1 : freelist_allocate s sz = some (p, s1))
    (h2 : freelist_allocate_list sizes s1 = some (ps, s2)) :
    freelist_allocate_list (sz :: sizes) s = some (p :: ps, s2) := by
  simp only [freelist_allocate_list, h1, h2]

theorem freelist_allocate_list_cons_inv (sz : Int) (sizes : List Int)
    (s s2 : allocator_freelist_t) (qs : List Nat)
    (h : freelist_allocate_list (sz :: sizes) s = some (qs, s2)) :
    ∃ p s1 ps, freelist_allocate s sz = some (p, s1) ∧
      freelist_allocate_list sizes s1 = some (ps, s2) ∧ qs = p :: ps := by
  simp only [freelist_allocate_list] at h
  cases hA : freelist_allocate s sz with
  | none =>
    rw [hA] at h
    exact absurd h (by simp)
  | some r =>
    obtain ⟨p, s1⟩ := r
    rw [hA] at h
    simp only [] at h
    cases hL : freelist_allocate_list sizes s1 with
    | none =>
      rw [hL] at h
      exact absurd h (by simp)
    | some r2 =>
      obtain ⟨ps, s3⟩ := r2
      rw [hL] at h
      simp only [Option.some.injEq, Prod.mk.injEq] at h
      exact ⟨p, s1, ps, rfl, by rw [hL, h.2], h.1.symm⟩

/-- A run of successful allocations through the never-allocated region: the
cells are handed out in index order, the heap is not written, and every cell
handed out passed the two assertions on its address. -/
theorem freelist_fresh_run (B N : Nat) (hBN : B * N < 2 ^ 32) :
    ∀ (sizes : List Int) (s s1 : allocator_freelist_t) (ps : List Nat),
      s.m_block_size = B → s.m_count = N → s.m_first_free + sizes.length ≤ N →
      s.m_memory + B * N < 2 ^ 64 →
      (∀ i, s.m_first_free ≤ i → i < N → s.heap (i * B) = 0) →
      freelist_allocate_list sizes s = some (ps, s1) →
      (∀ p ∈ ps, allocation_succeeded p = true) →
      ps = (List.range' s.m_first_free sizes.length).map (fun i => s.m_memory + i * B) ∧
        freelist_config s1 s.m_memory B N ∧ s1.heap = s.heap ∧
        s1.m_first_free = s.m_first_free + sizes.length ∧
        (∀ i, s.m_first_free ≤ i → i < s.m_first_free + sizes.length →
          cell_ok s.m_memory B i) := by
  intro sizes
  induction sizes with
  | nil =>
    intro s s1 ps hB hN _ _ _ h _
    simp only [freelist_allocate_list, Option.some.injEq, Prod.mk.injEq] at h
    obtain ⟨rfl, rfl⟩ := h
    refine ⟨by simp, ⟨rfl, hB, hN⟩, rfl, by simp, ?_⟩
    intro i h1 h2
    simp only [List.length_nil, Nat.add_zero] at h2
    omega
  | cons sz rest ih =>
    intro s s2 qs hB hN hlen hw hzero h hsucc
    obtain ⟨p, s1, ps, hA, hL, rfl⟩ := freelist_allocate_list_cons_inv sz rest s s2 qs h
    simp only [List.length_cons] at hlen
    obtain ⟨_, hcap, hal, hres, hp, hs1⟩ :=
      freelist_allocate_inv s s1 sz p hA (hsucc p (by simp))
    have hffN : s.m_first_free < N := by omega
    have hmul : s.m_first_free * B ≤ B * N := by
      rw [Nat.mul_comm B N]
      exact Nat.mul_le_mul_right B hffN.le
    have hBpos : 0 < B := by
      rcases Nat.eq_zero_or_pos B with h0 | h0
      · subst h0
        simp [freelist_capacity, hB] at hcap
      · exact h0
    have hNlt : N < 2 ^ 32 := by
      calc N = 1 * N := (Nat.one_mul N).symm
        _ ≤ B * N := Nat.mul_le_mul_right N hBpos
        _ < 2 ^ 32 := hBN
    rw [hB] at hal hres hp hs1
    rw [Nat.mod_eq_of_lt (by omega)] at hal hres hp hs1
    rw [Nat.mod_eq_of_lt (by omega)] at hal hres hp
    have hz : s.heap (s.m_first_free * B) = 0 := hzero _ (le_refl _) hffN
    rw [hz, if_pos rfl, Nat.mod_eq_of_lt (by omega)] at hs1
    have hff1 : s1.m_first_free = s.m_first_free + 1 := by rw [hs1]
    have hm1 : s1.m_memory = s.m_memory := by rw [hs1]
    have hh1 : s1.heap = s.heap := by rw [hs1]
    obtain ⟨hps, hcfg, hheap, hff2, hok⟩ := ih s1 s2 ps (by rw [hs1])
      (by rw [hs1]; exact hN) (by omega) (by rw [hm1]; exact hw)
      (by
        intro i h1 h2
        rw [hh1]
        exact hzero i (by omega) h2)
      hL (fun q hq => hsucc q (by simp [hq]))
    rw [hff1, hm1] at hps hok
    rw [hm1] at hcfg
    refine ⟨?_, hcfg, by rw [hheap, hh1], by rw [hff2, hff1]; simp only [List.length_cons]; omega,
      ?_⟩
    · rw [hp, hps]
      simp [List.range'_succ]
    · intro i h1 h2
      simp only [List.length_cons] at h2
      by_cases hi : i = s.m_first_free
      · subst hi
        exact ⟨hal, hres⟩
      · exact hok i (by omega) (by omega)


/-- One `FREE` of the address of cell `c`: every assertion passes, the header
of the cell receives `first_free + 1` and the cell becomes the head. -/
theorem freelist_free_step (s : allocator_freelist_t) (c : Nat) (hc : c < s.m_count)
    (hB : 0 < s.m_block_size) (hBN : s.m_block_size * s.m_count < 2 ^ 32)
    (hff : s.m_first_free ≤ s.m_count) (hff32 : s.m_first_free + 1 < 2 ^ 32)
    (hw : s.m_memory + s.m_block_size * s.m_count < 2 ^ 64)
    (hal : align_address (s.m_memory + c * s.m_block_size) 4 =
      some (s.m_memory + c * s.m_block_size)) :
    freelist_free s (s.m_memory + c * s.m_block_size) =
      some (FREE_STATUS_SUCCEEDED,
        { s with
          heap := fun off =>
            if off = c * s.m_block_size then s.m_first_free + 1 else s.heap off
          m_first_free := c
          m_used := (s.m_used + 2 ^ 32 - 1) % 2 ^ 32 }) := by
  have hcB : c * s.m_block_size < s.m_block_size * s.m_count := by
    rw [Nat.mul_comm s.m_block_size]
    exact Nat.mul_lt_mul_of_pos_right hc hB
  have hNle : s.m_count ≤ s.m_block_size * s.m_count := by
    calc s.m_count = 1 * s.m_count := (Nat.one_mul _).symm
      _ ≤ s.m_block_size * s.m_count := Nat.mul_le_mul_right _ hB
  have howns : ¬ (freelist_owns s (s.m_memory + c * s.m_block_size) = false) := by
    have e : (s.m_count * s.m_block_size) % 2 ^ 32 = s.m_block_size * s.m_count := by
      rw [Nat.mul_comm]
      exact Nat.mod_eq_of_lt hBN
    simp only [freelist_owns, e, Nat.mod_eq_of_lt hw, Bool.and_eq_false_imp,
      decide_eq_true_eq, decide_eq_false_iff_not, not_forall, not_not]
    exact ⟨by omega, by omega⟩
  have hcap : ¬ (freelist_capacity s < s.m_first_free) := by
    unfold freelist_capacity
    rw [Nat.mod_eq_of_lt hBN]
    omega
  have hoff : toU32 (((s.m_memory + c * s.m_block_size : Nat) : Int) - (s.m_memory : Int)) =
      c * s.m_block_size := by
    have e : ((s.m_memory + c * s.m_block_size : Nat) : Int) - (s.m_memory : Int) =
        ((c * s.m_block_size : Nat) : Int) := by
      push_cast
      ring
    rw [e, toU32_natCast]
    exact Nat.mod_eq_of_lt (by omega)
  unfold freelist_free
  rw [if_neg howns, if_neg hcap]
  simp only []
  rw [hoff, if_neg (by omega), if_neg (by simp), Nat.mod_eq_of_lt (by omega),
    if_neg (not_not.mpr hal), Nat.mul_div_cancel _ hB, Nat.mod_eq_of_lt hff32]
  rfl

/-- The step `freelist_free_step` for a state over a given configuration. -/
theorem freelist_free_cell (memory B N : Nat) (hB : 0 < B) (hBN : B * N < 2 ^ 32)
    (hN : N + 1 < 2 ^ 32) (hw : memory + B * N < 2 ^ 64) (s : allocator_freelist_t) (c : Nat)
    (hcfg : freelist_config s memory B N) (hc : c < N) (hff : s.m_first_free ≤ N)
    (hok : cell_ok memory B c) :
    ∃ s1, freelist_free s (memory + c * B) = some (FREE_STATUS_SUCCEEDED, s1) ∧
      freelist_config s1 memory B N ∧
      s1.heap = (fun off => if off = c * B then s.m_first_free + 1 else s.heap off) ∧
      s1.m_first_free = c := by
  obtain ⟨hm, hb, hn⟩ := hcfg
  have hstep := freelist_free_step s c (by rw [hn]; exact hc) (by rw [hb]; exact hB)
    (by rw [hb, hn]; exact hBN) (by rw [hn]; exact hff) (by omega)
    (by rw [hm, hb, hn]; exact hw) (by rw [hm, hb]; exact hok.1)
  rw [hm, hb] at hstep
  exact ⟨_, hstep, ⟨rfl, rfl, hn⟩, rfl, rfl⟩

/-- The step `freelist_allocate_step` for a state over a given configuration
whose head cell carries a recorded successor. -/
theorem freelist_allocate_cell (memory B N : Nat) (hB : 0 < B) (hBN : B * N < 2 ^ 32)
    (s : allocator_freelist_t) (sz : Int) (next : Nat)
    (hcfg : freelist_config s memory B N) (hlt : s.m_first_free < N) (hsz : toU32 sz ≤ B)
    (hok : cell_ok memory B s.m_first_free)
    (hnext : s.heap (s.m_first_free * B) = next + 1) :
    ∃ s1, freelist_allocate s sz = some (memory + s.m_first_free * B, s1) ∧
      freelist_config s1 memory B N ∧ s1.heap = s.heap ∧ s1.m_first_free = next := by
  obtain ⟨hm, hb, hn⟩ := hcfg
  have hcN : s.m_first_free * B < B * N := by
    rw [Nat.mul_comm B N]
    exact Nat.mul_lt_mul_of_pos_right hlt hB
  have hNle : N ≤ B * N := by
    calc N = 1 * N := (Nat.one_mul _).symm
      _ ≤ B * N := Nat.mul_le_mul_right _ hB
  have hstep := freelist_allocate_step s sz s.m_first_free rfl
    (by rw [hb]; exact hsz)
    (by
      unfold freelist_capacity
      rw [hb, hn, Nat.mod_eq_of_lt hBN]
      omega)
    (by rw [hb]; omega)
    (by rw [hm, hb]; exact hok)
  rw [hm, hb, hnext] at hstep
  simp only [Nat.add_one_ne_zero, if_false, Nat.add_sub_cancel] at hstep
  exact ⟨_, hstep, ⟨rfl, rfl, hn⟩, rfl, rfl⟩

theorem free_chain_head_le (heap : Nat → Nat) (memory B N : Nat) (l : List Nat) (head : Nat)
    (h : free_chain heap memory B N l head) : head ≤ N := by
  cases l with
  | nil => exact le_of_eq h
  | cons p ps => exact h.2.1.le

/-- Writing the header of a cell that is not on the chain keeps the chain. -/
theorem free_chain_update (heap : Nat → Nat) (memory B N c v : Nat) :
    ∀ (l : List Nat) (head : Nat), free_chain heap memory B N l head →
      memory + c * B ∉ l →
      free_chain (fun off => if off = c * B then v else heap off) memory B N l head := by
  intro l
  induction l with
  | nil =>
    intro head h _
    exact h
  | cons p ps ih =>
    intro head h hnot
    obtain ⟨hp, hlt, next, hnext, hrest⟩ := h
    have hne : head * B ≠ c * B := by
      intro e
      apply hnot
      rw [hp, e]
      simp
    refine ⟨hp, hlt, next, ?_, ih next hrest (fun hm => hnot (List.mem_cons_of_mem _ hm))⟩
    simp only [hne, if_false]
    exact hnext

/-- Freeing distinct cells that are not on the chain pushes them on it, the
last one freed first. -/
theorem freelist_free_run (memory B N : Nat) (hB : 0 < B) (hBN : B * N < 2 ^ 32)
    (hN : N + 1 < 2 ^ 32) (hw : memory + B * N < 2 ^ 64) :
    ∀ (order : List Nat) (s : allocator_freelist_t) (l : List Nat),
      freelist_config s memory B N → free_chain s.heap memory B N l s.m_first_free →
      order.Nodup → (∀ p ∈ order, p ∉ l) →
      (∀ p ∈ order, ∃ c, c < N ∧ p = memory + c * B ∧ cell_ok memory B c) →
      ∃ s2, freelist_free_list order s =
          some (List.replicate order.length FREE_STATUS_SUCCEEDED, s2) ∧
        freelist_config s2 memory B N ∧
        free_chain s2.heap memory B N (order.reverse ++ l) s2.m_first_free := by
  intro order
  induction order with
  | nil =>
    intro s l hcfg hch _ _ _
    exact ⟨s, rfl, hcfg, by simpa using hch⟩
  | cons p rest ih =>
    intro s l hcfg hch hnd hdisj hcells
    obtain ⟨c, hc, hp, hok⟩ := hcells p (by simp)
    obtain ⟨s1, hstep, hcfg1, hheap1, hff1⟩ :=
      freelist_free_cell memory B N hB hBN hN hw s c hcfg hc
      (free_chain_head_le _ _ _ _ _ _ hch) hok
    rw [← hp] at hstep
    have hnd2 := List.nodup_cons.mp hnd
    have hch1 : free_chain s1.heap memory B N (p :: l) s1.m_first_free := by
      rw [hheap1, hff1]
      refine ⟨hp, hc, s.m_first_free, by simp, ?_⟩
      exact free_chain_update s.heap memory B N c _ l _ hch
        (by rw [← hp]; exact hdisj p (by simp))
    obtain ⟨s2, hrun, hcfg2, hch2⟩ := ih s1 (p :: l) hcfg1 hch1 hnd2.2
      (by
        intro q hq hql
        rcases List.mem_cons.mp hql with h | h
        · subst h
          exact hnd2.1 hq
        · exact hdisj q (List.mem_cons_of_mem _ hq) h)
      (fun q hq => hcells q (List.mem_cons_of_mem _ hq))
    refine ⟨s2, ?_, hcfg2, by simpa using hch2⟩
    simp only [freelist_free_list, hstep, hrun, List.length_cons, List.replicate_succ]

/-- Allocating along a chain hands out its addresses in order. -/
theorem freelist_chain_run (memory B N : Nat) (hB : 0 < B) (hBN : B * N < 2 ^ 32)
    (hok : ∀ c, c < N → cell_ok memory B c) :
    ∀ (l : List Nat) (s : allocator_freelist_t) (sizes : List Int),
      freelist_config s memory B N → free_chain s.heap memory B N l s.m_first_free →
      sizes.length = l.length → (∀ sz ∈ sizes, toU32 sz ≤ B) →
      ∃ s3, freelist_allocate_list sizes s = some (l, s3) ∧ s3.m_first_free = N := by
  intro l
  induction l with
  | nil =>
    intro s sizes _ hch hlen _
    have : sizes = [] := List.length_eq_zero.mp hlen
    subst this
    exact ⟨s, rfl, hch⟩
  | cons p ps ih =>
    intro s sizes hcfg hch hlen hsz
    obtain ⟨hp, hlt, next, hnext, hrest⟩ := hch
    cases sizes with
    | nil => simp at hlen
    | cons sz rest =>
      obtain ⟨s1, hstep, hcfg1, hheap1, hff1⟩ := freelist_allocate_cell memory B N hB hBN s sz
        next hcfg hlt (hsz sz (by simp)) (hok _ hlt) hnext
      rw [← hp] at hstep
      obtain ⟨s3, hrun, hend⟩ := ih s1 rest hcfg1 (by rw [hheap1, hff1]; exact hrest)
        (by simpa using hlen) (fun x hx => hsz x (List.mem_cons_of_mem _ hx))
      exact ⟨s3, freelist_allocate_list_cons sz rest s s1 s3 p ps hstep hrun, hend⟩

/-- What `freelist_init` returns. -/
theorem freelist_init_inv (heap : Nat → Nat) (memory B N : Nat) (s0 : allocator_freelist_t)
    (h : freelist_init heap memory B N = some s0) :
    B % 4 = 0 ∧ freelist_config s0 memory B N ∧ s0.m_first_free = 0 ∧ s0.m_used = 0 ∧
      s0.heap = memset_zero heap ((B * N) % 2 ^ 32) := by
  unfold freelist_init at h
  split at h
  · rename_i hB
    simp only [Option.some.injEq] at h
    subst h
    exact ⟨hB, ⟨rfl, rfl, rfl⟩, rfl, rfl, rfl⟩
  · exact absurd h (by simp)

/-- The first round of the full cycle: `N` successful allocations on a
freshly initialised allocator whose buffer ends below `2 ^ 64` hand out the
cells `0 .. N-1` in order and leave `first_free = N`; the block size is a
positive multiple of 4. -/
theorem freelist_first_round (heap : Nat → Nat) (memory B N : Nat) (hN : 1 ≤ N)
    (hBN : B * N < 2 ^ 32) (hw : memory + B * N < 2 ^ 64)
    (s0 s1 : allocator_freelist_t) (sizes : List Int) (ps : List Nat)
    (hinit : freelist_init heap memory B N = some s0) (hlen : sizes.length = N)
    (hrun : freelist_allocate_list sizes s0 = some (ps, s1))
    (hsucc : ∀ p ∈ ps, allocation_succeeded p = true) :
    4 ≤ B ∧ ps = (List.range' 0 N).map (fun i => memory + i * B) ∧
      freelist_config s1 memory B N ∧ s1.heap = memset_zero heap (B * N) ∧
      s1.m_first_free = N ∧ (∀ i, i < N → cell_ok memory B i) := by
  obtain ⟨hB4, ⟨hm, hb, hn⟩, hff0, _, hheap0⟩ := freelist_init_inv heap memory B N s0 hinit
  rw [Nat.mod_eq_of_lt hBN] at hheap0
  have hBpos : 0 < B := by
    cases sizes with
    | nil =>
      simp only [List.length_nil] at hlen
      omega
    | cons sz rest =>
      obtain ⟨p, t, ps1, hA, _, rfl⟩ := freelist_allocate_list_cons_inv sz rest s0 s1 ps hrun
      obtain ⟨_, hcap, _⟩ := freelist_allocate_inv s0 t sz p hA (hsucc p (by simp))
      rcases Nat.eq_zero_or_pos B with h0 | h0
      · subst h0
        simp [freelist_capacity, hb] at hcap
      · exact h0
  have hfresh := freelist_fresh_run B N hBN sizes s0 s1 ps hb hn (by omega)
    (by rw [hm]; exact hw)
    (by
      intro i _ hi
      rw [hheap0]
      have : i * B < B * N := by
        rw [Nat.mul_comm B N]
        exact Nat.mul_lt_mul_of_pos_right hi hBpos
      simp [memset_zero, this])
    hrun hsucc
  rw [hff0, hm, hlen, hheap0] at hfresh
  obtain ⟨hps, hcfg1, hheap1, hff1, hok⟩ := hfresh
  refine ⟨by omega, hps, hcfg1, hheap1, by omega, ?_⟩
  intro i hi
  exact hok i (Nat.zero_le _) (by omega)

/-- C7 (as stated, refuted): with block size `2 ^ 31 + 4` and two blocks the
`u32` product `B * N` wraps to 8.  On zero-filled memory at address 8192 the
two `ALLOCATE` calls succeed and return the two cell addresses, but `FREE` of
the second returned cell fails the ownership assertion and aborts, so the
cycle cannot be completed. -/
theorem freelist_cycle_aborts_on_wrapped_capacity :
    ∃ s0 s1, freelist_init (fun _ => 0) 8192 (2 ^ 31 + 4) 2 = some s0 ∧
      freelist_allocate_list [0, 0] s0 = some ([8192, 8192 + 1 * (2 ^ 31 + 4)], s1) ∧
      allocation_succeeded 8192 = true ∧
      allocation_succeeded (8192 + 1 * (2 ^ 31 + 4)) = true ∧
      freelist_free s1 (8192 + 1 * (2 ^ 31 + 4)) = none := by
  have hal : ∀ e, e % 4 = 0 → e + 3 < 2 ^ 64 → align_address e 4 = some e := by
    intro e h1 h2
    have h := align_address_pow e 2 (by decide) (by omega)
    have e4 : (2 : Nat) ^ 2 = 4 := by decide
    rw [e4] at h
    rw [h]
    congr 1
    omega
  have hres : ∀ e, 4096 < e → e < 2 ^ 64 - 1 → make_allocation_result e = some e := by
    intro e h1 h2
    unfold make_allocation_result ALLOCATION_QUERY_UNSUPPORTED
    rw [if_pos ⟨h1, by omega⟩]
  refine ⟨{ m_memory := 8192, m_first_free := 0, m_block_size := 2 ^ 31 + 4, m_count := 2,
             m_used := 0, heap := memset_zero (fun _ => 0) 8 },
    { m_memory := 8192, m_first_free := 2, m_block_size := 2 ^ 31 + 4, m_count := 2,
      m_used := 2, heap := memset_zero (fun _ => 0) 8 }, ?_, ?_, by decide, by decide, ?_⟩
  · unfold freelist_init
    rw [if_pos (by decide)]
    rfl
  · refine freelist_allocate_list_cons 0 [0] _
      { m_memory := 8192, m_first_free := 1, m_block_size := 2 ^ 31 + 4, m_count := 2,
        m_used := 1, heap := memset_zero (fun _ => 0) 8 } _ _ _ ?_
      (freelist_allocate_list_cons 0 [] _ _ _ _ _ ?_ rfl)
    · refine (freelist_allocate_step _ 0 0 rfl (by decide) (by decide) (by decide)
        ⟨hal _ (by decide) (by decide), hres _ (by decide) (by decide)⟩).trans ?_
      rfl
    · refine (freelist_allocate_step _ 0 1 rfl (by decide) (by decide) (by decide)
        ⟨hal _ (by decide) (by decide), hres _ (by decide) (by decide)⟩).trans ?_
      rfl
  · unfold freelist_free
    rw [if_pos (by decide)]

/-- C7 (amended): for `N >= 1` and a block size `B` with `N * B < 2 ^ 32` (the
`u32` capacity does not wrap) and a buffer that ends below the top of the
address space (`base + N * B < 2 ^ 64`), starting from a freshly initialised
allocator, after `N` successful `ALLOCATE` calls followed by `FREE` of the `N`
returned cells in any order, every `FREE` returns `SUCCEEDED` and the next `N`
`ALLOCATE` calls (with sizes at most `B`) all succeed and return `N` pairwise
distinct addresses whose set is exactly `{ base + i * B | 0 <= i < N }`. -/
theorem freelist_full_cycle (heap : Nat → Nat) (memory B N : Nat) (hN : 1 ≤ N)
    (hBN : B * N < 2 ^ 32) (hend : memory + N * B < 2 ^ 64)
    (s0 s1 : allocator_freelist_t) (sizes : List Int) (ps : List Nat)
    (hinit : freelist_init heap memory B N = some s0) (hlen : sizes.length = N)
    (hrun : freelist_allocate_list sizes s0 = some (ps, s1))
    (hsucc : ∀ p ∈ ps, allocation_succeeded p = true)
    (order : List Nat) (hperm : order.Perm ps)
    (sizes2 : List Int) (hlen2 : sizes2.length = N) (hsz2 : ∀ sz ∈ sizes2, toU32 sz ≤ B) :
    ∃ s2 qs s3,
      freelist_free_list order s1 = some (List.replicate N FREE_STATUS_SUCCEEDED, s2) ∧
      freelist_allocate_list sizes2 s2 = some (qs, s3) ∧
      (∀ q ∈ qs, allocation_succeeded q = true) ∧ qs.length = N ∧ qs.Nodup ∧
      ∀ a, a ∈ qs ↔ ∃ i, i < N ∧ a = memory + i * B := by
  have hw : memory + B * N < 2 ^ 64 := by
    rw [Nat.mul_comm B N]
    exact hend
  obtain ⟨hB4, hps, hcfg1, _, hff1, hok⟩ :=
    freelist_first_round heap memory B N hN hBN hw s0 s1 sizes ps hinit hlen hrun hsucc
  have hBpos : 0 < B := by omega
  have hN32 : N + 1 < 2 ^ 32 := by
    have : 4 * N ≤ B * N := Nat.mul_le_mul_right N hB4
    omega
  have hmem : ∀ a, a ∈ ps ↔ ∃ i, i < N ∧ a = memory + i * B := by
    intro a
    rw [hps]
    simp only [List.mem_map, List.mem_range'_1, Nat.zero_le, Nat.zero_add, true_and]
    constructor
    · rintro ⟨i, hi, rfl⟩
      exact ⟨i, hi, rfl⟩
    · rintro ⟨i, hi, rfl⟩
      exact ⟨i, hi, rfl⟩
  have hnd : ps.Nodup := by
    rw [hps]
    apply List.Nodup.map _ (List.nodup_range' 0 N)
    intro i j hij
    have : i * B = j * B := by
      simp only at hij
      omega
    exact Nat.eq_of_mul_eq_mul_right hBpos this
  have hlenO : order.length = N := by
    rw [hperm.length_eq, hps]
    simp
  obtain ⟨s2, hfree, hcfg2, hch2⟩ := freelist_free_run memory B N hBpos hBN hN32 hw order s1 []
    hcfg1 (by simpa [free_chain] using hff1) (hperm.nodup_iff.mpr hnd) (by simp)
    (by
      intro p hp
      obtain ⟨i, hi, rfl⟩ := (hmem p).mp (hperm.mem_iff.mp hp)
      exact ⟨i, hi, rfl, hok i hi⟩)
  rw [hlenO] at hfree
  rw [List.append_nil] at hch2
  obtain ⟨s3, halloc, _⟩ := freelist_chain_run memory B N hBpos hBN hok order.reverse s2 sizes2
    hcfg2 hch2 (by rw [hlen2, List.length_reverse, hlenO]) hsz2
  refine ⟨s2, order.reverse, s3, hfree, halloc, ?_, by rw [List.length_reverse, hlenO],
    List.nodup_reverse.mpr (hperm.nodup_iff.mpr hnd), ?_⟩
  · intro q hq
    exact hsucc q (hperm.mem_iff.mp (List.mem_reverse.mp hq))
  · intro a
    rw [List.mem_reverse, hperm.mem_iff, hmem]


/-- The alignment assertion on a 4-aligned address below the top of the
address space. -/
theorem align_address_four (e : Nat) (h1 : e % 4 = 0) (h2 : e + 3 < 2 ^ 64) :
    align_address e 4 = some e := by
  have h := align_address_pow e 2 (by decide) (by omega)
  have e4 : (2 : Nat) ^ 2 = 4 := by decide
  rw [e4] at h
  rw [h]
  congr 1
  omega

/-- An address that passes the alignment assertion is a multiple of 4. -/
theorem align_address_four_inv (e : Nat) (h2 : e + 3 < 2 ^ 64)
    (h : align_address e 4 = some e) : e % 4 = 0 := by
  have h' := align_address_pow e 2 (by decide) (by omega)
  have e4 : (2 : Nat) ^ 2 = 4 := by decide
  rw [e4, h] at h'
  have := Option.some.inj h'
  omega

/-- The run used as a concrete input: a free list of two 64-byte blocks on
zero-filled memory at address 8192 is initialised, and `ALLOCATE(64)`,
`ALLOCATE(13)` return the two cells. -/
theorem freelist_two_blocks_run :
    freelist_init (fun _ => 0) 8192 64 2 =
      some { m_memory := 8192, m_first_free := 0, m_block_size := 64, m_count := 2,
             m_used := 0, heap := memset_zero (fun _ => 0) 128 } ∧
    freelist_allocate_list [64, 13]
        { m_memory := 8192, m_first_free := 0, m_block_size := 64, m_count := 2,
          m_used := 0, heap := memset_zero (fun _ => 0) 128 } =
      some ([8192, 8256],
        { m_memory := 8192, m_first_free := 2, m_block_size := 64, m_count := 2,
          m_used := 2, heap := memset_zero (fun _ => 0) 128 }) := by
  have hres : ∀ e, 4096 < e → e < 2 ^ 64 - 1 → make_allocation_result e = some e := by
    intro e h1 h2
    unfold make_allocation_result ALLOCATION_QUERY_UNSUPPORTED
    rw [if_pos ⟨h1, by omega⟩]
  constructor
  · unfold freelist_init
    rw [if_pos (by decide)]
    rfl
  · refine freelist_allocate_list_cons 64 [13] _
      { m_memory := 8192, m_first_free := 1, m_block_size := 64, m_count := 2,
        m_used := 1, heap := memset_zero (fun _ => 0) 128 } _ _ _ ?_
      (freelist_allocate_list_cons 13 [] _ _ _ _ _ ?_ rfl)
    · refine (freelist_allocate_step _ 64 0 rfl (by decide) (by decide) (by decide)
        ⟨align_address_four _ (by decide) (by decide),
          hres _ (by decide) (by decide)⟩).trans ?_
      rfl
    · refine (freelist_allocate_step _ 13 1 rfl (by decide) (by decide) (by decide)
        ⟨align_address_four _ (by decide) (by decide),
          hres _ (by decide) (by decide)⟩).trans ?_
      rfl

/-- C7 (witness): two 64-byte blocks at address 8192, allocated with sizes 64
and 13, freed in the order 8256, 8192, then allocated again. -/
theorem freelist_full_cycle_witness :
    ∃ s2 qs s3,
      freelist_free_list [8256, 8192]
          { m_memory := 8192, m_first_free := 2, m_block_size := 64, m_count := 2,
            m_used := 2, heap := memset_zero (fun _ => 0) 128 } =
        some (List.replicate 2 FREE_STATUS_SUCCEEDED, s2) ∧
      freelist_allocate_list [1, 2] s2 = some (qs, s3) ∧
      (∀ q ∈ qs, allocation_succeeded q = true) ∧ qs.length = 2 ∧ qs.Nodup ∧
      ∀ a, a ∈ qs ↔ ∃ i, i < 2 ∧ a = 8192 + i * 64 :=
  freelist_full_cycle (fun _ => 0) 8192 64 2 (by decide) (by decide) (by decide) _ _ [64, 13]
    [8192, 8256]
    freelist_two_blocks_run.1 rfl freelist_two_blocks_run.2 (by decide) [8256, 8192]
    (List.Perm.swap 8192 8256 []) [1, 2] rfl (by decide)

/-- C1 (the code at the failing inputs): for every `N >= 1` and block size `B`
whose capacity `B * N` fits in 32 bits, after `N` successful `ALLOCATE` calls
on a freshly initialised allocator (so `first_free = N`), the next `ALLOCATE`
does not return `OUT_OF_MEMORY`: the test `first_free >= B * N` is false, the
cell at index `N`, one past the buffer, is handed out, and the used counter is
incremented. The buffer is assumed to end below the top of the address
space. -/
theorem freelist_allocate_past_capacity (heap : Nat → Nat) (memory B N : Nat) (hN : 1 ≤ N)
    (hBN : B * N < 2 ^ 32) (s0 s1 : allocator_freelist_t) (sizes : List Int) (ps : List Nat)
    (hinit : freelist_init heap memory B N = some s0) (hlen : sizes.length = N)
    (hrun : freelist_allocate_list sizes s0 = some (ps, s1))
    (hsucc : ∀ p ∈ ps, allocation_succeeded p = true)
    (size : Int) (hsz : toU32 size ≤ B) (hend : memory + N * B + 4 < 2 ^ 64) :
    s1.m_first_free = N ∧
    ∃ s2, freelist_allocate s1 size = some (memory + N * B, s2) ∧
      memory + N * B ≠ ALLOCATION_STATUS_OUT_OF_MEMORY ∧
      s2.m_used = (s1.m_used + 1) % 2 ^ 32 := by
  have hw : memory + B * N < 2 ^ 64 := by
    rw [Nat.mul_comm B N]
    omega
  obtain ⟨hB4, _, ⟨hm, hb, hn⟩, _, hff1, hok⟩ :=
    freelist_first_round heap memory B N hN hBN hw s0 s1 sizes ps hinit hlen hrun hsucc
  obtain ⟨hBmod, _⟩ := freelist_init_inv heap memory B N s0 hinit
  have h4N : 4 * N ≤ B * N := Nat.mul_le_mul_right N hB4
  have hcomm : N * B = B * N := Nat.mul_comm N B
  obtain ⟨hal0, hres0⟩ := hok 0 (by omega)
  simp only [Nat.zero_mul, Nat.add_zero] at hal0 hres0
  have hm4 : memory % 4 = 0 := align_address_four_inv memory (by omega) hal0
  have hlow : 4096 < memory := by
    unfold make_allocation_result at hres0
    split at hres0
    · rename_i hc
      exact hc.1
    · exact absurd hres0 (by simp)
  have hNB4 : (N * B) % 4 = 0 := by
    rw [Nat.mul_mod, hBmod]
    simp
  have hcell : cell_ok memory B N := by
    constructor
    · exact align_address_four _ (by omega) (by omega)
    · unfold make_allocation_result ALLOCATION_QUERY_UNSUPPORTED
      rw [if_pos ⟨by omega, by omega⟩]
  have hstep := freelist_allocate_step s1 size N hff1 (by rw [hb]; exact hsz)
    (by
      unfold freelist_capacity
      rw [hb, hn, Nat.mod_eq_of_lt hBN]
      omega)
    (by rw [hb]; omega)
    (by rw [hm, hb]; exact hcell)
  rw [hm, hb] at hstep
  refine ⟨hff1, _, hstep, ?_, rfl⟩
  unfold ALLOCATION_STATUS_OUT_OF_MEMORY
  omega

/-- C1 (witness): two 64-byte blocks at address 8192; after `ALLOCATE(64)` and
`ALLOCATE(13)` the third `ALLOCATE(1)` returns 8320, the address one past the
128-byte buffer. -/
theorem freelist_allocate_past_capacity_witness :
    (2 : Nat) = 2 ∧
    ∃ s2, freelist_allocate
        { m_memory := 8192, m_first_free := 2, m_block_size := 64, m_count := 2,
          m_used := 2, heap := memset_zero (fun _ => 0) 128 } 1 = some (8192 + 2 * 64, s2) ∧
      8192 + 2 * 64 ≠ ALLOCATION_STATUS_OUT_OF_MEMORY ∧
      s2.m_used = (2 + 1) % 2 ^ 32 :=
  freelist_allocate_past_capacity (fun _ => 0) 8192 64 2 (by decide) (by decide) _ _ [64, 13]
    [8192, 8256] freelist_two_blocks_run.1 rfl freelist_two_blocks_run.2 (by decide) 1
    (by decide) (by decide)


/-! ## Allocation through the compositors -/

/-- A word that `allocation_succeeded` rejects is one of the three error
codes, so the casts to `allocation_status_t` and `make_allocation_error` keep
it. -/
theorem make_allocation_error_of_failed (w : Nat) (h : allocation_succeeded w = false) :
    make_allocation_error (w % 2 ^ 32) = some w := by
  have hw : w ≠ 0 ∧ w < 4 := by
    simpa [allocation_succeeded, ALLOCATION_STATUS_SUCCEEDED, ALLOCATION_STATUS_COUNT] using h
  have hmod : w % 2 ^ 32 = w := Nat.mod_eq_of_lt (by omega)
  unfold make_allocation_error ALLOCATION_STATUS_COUNT
  rw [hmod, if_pos hw.2]

/-- A word above 4096 other than the query sentinel passes both
`allocation_succeeded` and `make_allocation_result`. -/
theorem make_allocation_result_of_pointer (w : Nat) (h1 : 4096 < w)
    (h2 : w ≠ ALLOCATION_QUERY_UNSUPPORTED) :
    allocation_succeeded w = true ∧ make_allocation_result w = some w := by
  constructor
  · simp only [allocation_succeeded, ALLOCATION_STATUS_SUCCEEDED, ALLOCATION_STATUS_COUNT,
      Bool.or_eq_true, beq_iff_eq, decide_eq_true_eq]
    omega
  · unfold make_allocation_result
    rw [if_pos ⟨h1, h2⟩]

/-- C11 (as stated, refuted): with the null allocator as primary, `ALLOCATE(0)`
makes the primary return the successful word 0, but the fallback does not
return it: `make_allocation_result` rejects 0 and the call aborts. -/
theorem fallback_allocate_aborts_on_null_success :
    (allocation_proxy allocator_null (.ALLOCATE 0)).map (fun r => r.1) = some 0 ∧
    allocation_succeeded 0 = true ∧
    (allocator_fallback_proc
        { primary := allocator_null, secondary := counting_child 8192 }
        (.ALLOCATE 0)).map (fun r => r.1) = none := by
  refine ⟨rfl, rfl, rfl⟩

/-- C11 (amended): for `ALLOCATE` and `ALLOCATE_ALIGNED` alike, if the primary
returns a pointer `p` above 4096 (and not the sentinel `2 ^ 64 - 1`) the
fallback returns `p` and leaves the secondary untouched; if the primary
returns an error code, the same request goes to the secondary, and the
fallback returns the secondary's pointer (above 4096, not the sentinel) or
the secondary's error code, the primary's code being dropped. -/
theorem fallback_allocate_rule {σ₁ σ₂ : Type} (f : allocator_fallback_t σ₁ σ₂)
    (req : allocation_arguments_t)
    (hreq : (∃ size, req = .ALLOCATE size) ∨
      (∃ size alignment, req = .ALLOCATE_ALIGNED size alignment))
    (p : Nat) (p1 : allocator_t σ₁) (h1 : allocation_proxy f.primary req = some (p, p1)) :
    (4096 < p → p ≠ ALLOCATION_QUERY_UNSUPPORTED →
      allocator_fallback_proc f req = some (p, { primary := p1, secondary := f.secondary })) ∧
    (allocation_succeeded p = false → ∀ (q : Nat) (q1 : allocator_t σ₂),
      allocation_proxy f.secondary req = some (q, q1) →
      (4096 < q → q ≠ ALLOCATION_QUERY_UNSUPPORTED →
        allocator_fallback_proc f req = some (q, { primary := p1, secondary := q1 })) ∧
      (allocation_succeeded q = false →
        allocator_fallback_proc f req = some (q, { primary := p1, secondary := q1 }))) := by
  have key : allocator_fallback_proc f req =
      (if allocation_succeeded p = false then
        match allocation_proxy f.secondary req with
        | none => none
        | some (result2, secondary1) =>
          if allocation_succeeded result2 = false then
            (make_allocation_error (result2 % 2 ^ 32)).map
              (fun r => (r, { primary := p1, secondary := secondary1 }))
          else (make_allocation_result result2).map
              (fun r => (r, { primary := p1, secondary := secondary1 }))
      else (make_allocation_result p).map
        (fun r => (r, { primary := p1, secondary := f.secondary }))) := by
    rcases hreq with ⟨size, rfl⟩ | ⟨size, alignment, rfl⟩
    · simp only [allocator_fallback_proc, fallback_allocate, h1]
    · simp only [allocator_fallback_proc, fallback_allocate_aligned, h1]
  constructor
  · intro hp hmax
    obtain ⟨hs, hr⟩ := make_allocation_result_of_pointer p hp hmax
    rw [key, hs, hr]
    rfl
  · intro hfail q q1 h2
    rw [key, hfail, h2]
    constructor
    · intro hq hmax
      obtain ⟨hs, hr⟩ := make_allocation_result_of_pointer q hq hmax
      simp only [hs, hr, if_true]
      rfl
    · intro hq
      simp only [hq, if_true, make_allocation_error_of_failed q hq]
      rfl

/-- C11 (witness): a primary that answers `OUT_OF_MEMORY` and a secondary that
answers the pointer 8192. -/
theorem fallback_allocate_rule_witness :
    allocator_fallback_proc
        { primary := counting_child ALLOCATION_STATUS_OUT_OF_MEMORY,
          secondary := counting_child 8192 } (.ALLOCATE 1000) =
      some (8192,
        { primary := { counting_child ALLOCATION_STATUS_OUT_OF_MEMORY with data := 1 },
          secondary := { counting_child 8192 with data := 1 } }) :=
  ((fallback_allocate_rule
    { primary := counting_child ALLOCATION_STATUS_OUT_OF_MEMORY,
      secondary := counting_child 8192 } (.ALLOCATE 1000) (Or.inl ⟨1000, rfl⟩)
    ALLOCATION_STATUS_OUT_OF_MEMORY
    { counting_child ALLOCATION_STATUS_OUT_OF_MEMORY with data := 1 } rfl).2 (by decide)
    8192 { counting_child 8192 with data := 1 } rfl).1 (by decide) (by decide)


/-- C12 (as stated, refuted): a segregator with threshold 128 whose primary is
the null allocator routes `ALLOCATE(0)` to the primary, which returns the
successful word 0; the segregator does not return it but aborts in
`make_allocation_result`. -/
theorem segregator_allocate_aborts_on_null_success :
    (allocation_proxy allocator_null (.ALLOCATE 0)).map (fun r => r.1) = some 0 ∧
    allocation_succeeded 0 = true ∧
    (allocator_segregator_proc
        { primary := allocator_null, secondary := counting_child 8192, threshold := 128 }
        (.ALLOCATE 0)).map (fun r => r.1) = none := by
  refine ⟨rfl, rfl, rfl⟩

/-- C12 (amended): `ALLOCATE(size)` and `ALLOCATE_ALIGNED(size, alignment)`
call exactly one child with the unchanged request, the primary if
`size <= threshold` and the secondary otherwise; the segregator returns that
child's pointer when it is above 4096 and not the sentinel `2 ^ 64 - 1`, or
that child's error code, and the other child's handle is untouched. -/
theorem segregator_allocate_rule {σ₁ σ₂ : Type} (g : allocator_segregator_t σ₁ σ₂)
    (req : allocation_arguments_t) (size : Int)
    (hreq : req = .ALLOCATE size ∨ ∃ alignment, req = .ALLOCATE_ALIGNED size alignment) :
    (size ≤ g.threshold → ∀ (w : Nat) (p1 : allocator_t σ₁),
      allocation_proxy g.primary req = some (w, p1) →
      ((4096 < w ∧ w ≠ ALLOCATION_QUERY_UNSUPPORTED) ∨ allocation_succeeded w = false) →
      allocator_segregator_proc g req =
        some (w, { primary := p1, secondary := g.secondary, threshold := g.threshold })) ∧
    (g.threshold < size → ∀ (w : Nat) (q1 : allocator_t σ₂),
      allocation_proxy g.secondary req = some (w, q1) →
      ((4096 < w ∧ w ≠ ALLOCATION_QUERY_UNSUPPORTED) ∨ allocation_succeeded w = false) →
      allocator_segregator_proc g req =
        some (w, { primary := g.primary, secondary := q1, threshold := g.threshold })) := by
  have finish : ∀ (w : Nat) {τ : Type} (t : τ),
      ((4096 < w ∧ w ≠ ALLOCATION_QUERY_UNSUPPORTED) ∨ allocation_succeeded w = false) →
      (if allocation_succeeded w = false then
          (make_allocation_error (w % 2 ^ 32)).map (fun r => (r, t))
        else (make_allocation_result w).map (fun r => (r, t))) = some (w, t) := by
    intro w τ t hw
    rcases hw with ⟨h1, h2⟩ | h
    · obtain ⟨hs, hr⟩ := make_allocation_result_of_pointer w h1 h2
      simp only [hs, hr]
      rfl
    · simp only [h, if_true, make_allocation_error_of_failed w h]
      rfl
  constructor
  · intro hle w p1 h1 hw
    rcases hreq with rfl | ⟨alignment, rfl⟩
    · simp only [allocator_segregator_proc, segregator_allocate, if_pos hle, h1]
      exact finish w _ hw
    · simp only [allocator_segregator_proc, segregator_allocate_aligned, if_pos hle, h1]
      exact finish w _ hw
  · intro hlt w q1 h1 hw
    have hnle : ¬ size ≤ g.threshold := by omega
    rcases hreq with rfl | ⟨alignment, rfl⟩
    · simp only [allocator_segregator_proc, segregator_allocate, if_neg hnle, h1]
      exact finish w _ hw
    · simp only [allocator_segregator_proc, segregator_allocate_aligned, if_neg hnle, h1]
      exact finish w _ hw

/-- C12 (witness): threshold 128; a request of 512 bytes goes to the secondary
and the primary's call counter stays 0. -/
theorem segregator_allocate_rule_witness :
    allocator_segregator_proc
        { primary := counting_child 8192, secondary := counting_child 16384,
          threshold := 128 } (.ALLOCATE 512) =
      some (16384,
        { primary := counting_child 8192,
          secondary := { counting_child 16384 with data := 1 }, threshold := 128 }) :=
  (segregator_allocate_rule
    { primary := counting_child 8192, secondary := counting_child 16384, threshold := 128 }
    (.ALLOCATE 512) 512 (Or.inl rfl)).2 (by decide) 16384
    { counting_child 16384 with data := 1 } rfl (Or.inl (by decide))


/-! ## Queries through the compositors -/

/-- C13 (the code at the failing input): over the same children the
segregator and the fallback return the same word and the same child states
for `QUERY_ALIGNMENT`, `QUERY_GOOD_SIZE`, `QUERY_CAPACITY` and `QUERY_USED`;
for `QUERY_OWNS` with a primary answering `UNSUPPORTED` and a secondary
answering 0 the segregator returns 0 while the fallback returns 1. -/
theorem segregator_queries_vs_fallback {σ₁ σ₂ : Type} (p : allocator_t σ₁) (q : allocator_t σ₂)
    (threshold : Int) :
    ((allocator_segregator_proc { primary := p, secondary := q, threshold := threshold }
        .QUERY_ALIGNMENT).map (fun r => (r.1, r.2.primary, r.2.secondary)) =
      (allocator_fallback_proc { primary := p, secondary := q }
        .QUERY_ALIGNMENT).map (fun r => (r.1, r.2.primary, r.2.secondary))) ∧
    ((allocator_segregator_proc { primary := p, secondary := q, threshold := threshold }
        .QUERY_GOOD_SIZE).map (fun r => (r.1, r.2.primary, r.2.secondary)) =
      (allocator_fallback_proc { primary := p, secondary := q }
        .QUERY_GOOD_SIZE).map (fun r => (r.1, r.2.primary, r.2.secondary))) ∧
    ((allocator_segregator_proc { primary := p, secondary := q, threshold := threshold }
        .QUERY_CAPACITY).map (fun r => (r.1, r.2.primary, r.2.secondary)) =
      (allocator_fallback_proc { primary := p, secondary := q }
        .QUERY_CAPACITY).map (fun r => (r.1, r.2.primary, r.2.secondary))) ∧
    ((allocator_segregator_proc { primary := p, secondary := q, threshold := threshold }
        .QUERY_USED).map (fun r => (r.1, r.2.primary, r.2.secondary)) =
      (allocator_fallback_proc { primary := p, secondary := q }
        .QUERY_USED).map (fun r => (r.1, r.2.primary, r.2.secondary))) ∧
    ((allocator_segregator_proc
        { primary := counting_child ALLOCATION_QUERY_UNSUPPORTED,
          secondary := counting_child 0, threshold := threshold }
        (.QUERY_OWNS 8192)).map (fun r => r.1) = some 0 ∧
      (allocator_fallback_proc
        { primary := counting_child ALLOCATION_QUERY_UNSUPPORTED,
          secondary := counting_child 0 }
        (.QUERY_OWNS 8192)).map (fun r => r.1) = some 1) := by
  refine ⟨?_, ?_, ?_, ?_, ?_, ?_⟩
  · simp only [allocator_segregator_proc, allocator_fallback_proc, segregator_alignment,
      fallback_alignment]
    cases allocation_proxy p .QUERY_ALIGNMENT with
    | none => rfl
    | some r1 =>
      cases allocation_proxy q .QUERY_ALIGNMENT with
      | none => rfl
      | some r2 => rfl
  · simp only [allocator_segregator_proc, allocator_fallback_proc, segregator_good_size,
      fallback_good_size]
    cases allocation_proxy p .QUERY_GOOD_SIZE with
    | none => rfl
    | some r1 =>
      cases allocation_proxy q .QUERY_GOOD_SIZE with
      | none => rfl
      | some r2 => rfl
  · simp only [allocator_segregator_proc, allocator_fallback_proc, segregator_capacity,
      fallback_capacity]
    cases allocation_proxy p .QUERY_CAPACITY with
    | none => rfl
    | some r1 =>
      cases allocation_proxy q .QUERY_CAPACITY with
      | none => rfl
      | some r2 => rfl
  · simp only [allocator_segregator_proc, allocator_fallback_proc, segregator_used,
      fallback_used]
    cases allocation_proxy p .QUERY_USED with
    | none => rfl
    | some r1 =>
      cases allocation_proxy q .QUERY_USED with
      | none => rfl
      | some r2 => rfl
  · rfl
  · rfl


/-- C16 (as stated, refuted): `RESIZE` on a fallback does not return
`UNSUPPORTED_OPERATION`; the call aborts on `ASSERTF(0, "TODO")`. -/
theorem fallback_resize_aborts :
    (allocator_fallback_proc
        { primary := counting_child ALLOCATION_STATUS_OUT_OF_MEMORY,
          secondary := counting_child ALLOCATION_STATUS_OUT_OF_MEMORY }
        (.RESIZE 8192 32 16)).map (fun r => r.1) = none ∧
    (allocator_fallback_proc
        { primary := counting_child ALLOCATION_STATUS_OUT_OF_MEMORY,
          secondary := counting_child ALLOCATION_STATUS_OUT_OF_MEMORY }
        (.RESIZE 8192 32 16)).map (fun r => r.1) ≠
      some ALLOCATION_STATUS_UNSUPPORTED_OPERATION := by
  constructor
  · rfl
  · intro h
    exact absurd h (by simp [allocator_fallback_proc, fallback_resize])

/-- C16 (amended): for every state and arguments, `ALLOCATE_ALL` on the
fallback and on the segregator returns `UNSUPPORTED_OPERATION` and touches
neither child, whereas `RESIZE` on the fallback and `RESIZE` and `FREE` on the
segregator abort on `ASSERTF(0, "TODO")` before touching a child. -/
theorem compositor_stub_operations {σ₁ σ₂ : Type} (f : allocator_fallback_t σ₁ σ₂)
    (g : allocator_segregator_t σ₁ σ₂) (memory : Nat) (new_size old_size : Int) :
    allocator_fallback_proc f .ALLOCATE_ALL =
      some (ALLOCATION_STATUS_UNSUPPORTED_OPERATION, f) ∧
    allocator_segregator_proc g .ALLOCATE_ALL =
      some (ALLOCATION_STATUS_UNSUPPORTED_OPERATION, g) ∧
    allocator_fallback_proc f (.RESIZE memory new_size old_size) = none ∧
    allocator_segregator_proc g (.RESIZE memory new_size old_size) = none ∧
    allocator_segregator_proc g (.FREE memory) = none := by
  refine ⟨rfl, rfl, ?_, ?_, ?_⟩
  · simp [allocator_fallback_proc, fallback_resize]
  · simp [allocator_segregator_proc, segregator_resize]
  · simp [allocator_segregator_proc, segregator_free]

/-- C17 (as stated, refuted): with two children that each report `2 ^ 63`, the
fallback's `QUERY_CAPACITY` is the `size_t` sum, which wraps to 0 and is not
`2 ^ 63 + 2 ^ 63`. -/
theorem fallback_capacity_wraps :
    (2 : Nat) ^ 63 ≠ ALLOCATION_QUERY_UNSUPPORTED ∧
    (allocator_fallback_proc
        { primary := counting_child (2 ^ 63), secondary := counting_child (2 ^ 63) }
        .QUERY_CAPACITY).map (fun r => r.1) = some 0 ∧
    (0 : Nat) ≠ 2 ^ 63 + 2 ^ 63 := by
  refine ⟨by decide, ?_, by decide⟩
  simp [allocator_fallback_proc, fallback_capacity, allocation_proxy, counting_child,
    make_query_result, ALLOCATION_QUERY_UNSUPPORTED]

/-- C17 (amended): for `QUERY_CAPACITY` and `QUERY_USED` with child answers
`c1` and `c2`, the fallback returns the `size_t` sum `(c1 + c2) mod 2 ^ 64`
when neither is `UNSUPPORTED` (so `c1 + c2` whenever that fits in a word), the
other child's value when exactly one is `UNSUPPORTED`, and `UNSUPPORTED` when
both are. -/
theorem fallback_sum_queries {σ₁ σ₂ : Type} (f : allocator_fallback_t σ₁ σ₂)
    (req : allocation_arguments_t) (hreq : req = .QUERY_CAPACITY ∨ req = .QUERY_USED)
    (c1 c2 : Nat) (p1 : allocator_t σ₁) (q1 : allocator_t σ₂)
    (h1 : allocation_proxy f.primary req = some (c1, p1))
    (h2 : allocation_proxy f.secondary req = some (c2, q1)) :
    ∃ w, allocator_fallback_proc f req = some (w, { primary := p1, secondary := q1 }) ∧
      (c1 ≠ ALLOCATION_QUERY_UNSUPPORTED → c2 ≠ ALLOCATION_QUERY_UNSUPPORTED →
        w = (c1 + c2) % 2 ^ 64 ∧ (c1 + c2 < 2 ^ 64 → w = c1 + c2)) ∧
      (c1 ≠ ALLOCATION_QUERY_UNSUPPORTED → c2 = ALLOCATION_QUERY_UNSUPPORTED → w = c1) ∧
      (c1 = ALLOCATION_QUERY_UNSUPPORTED → c2 ≠ ALLOCATION_QUERY_UNSUPPORTED → w = c2) ∧
      (c1 = ALLOCATION_QUERY_UNSUPPORTED → c2 = ALLOCATION_QUERY_UNSUPPORTED →
        w = ALLOCATION_QUERY_UNSUPPORTED) := by
  refine ⟨if c1 ≠ ALLOCATION_QUERY_UNSUPPORTED ∧ c2 ≠ ALLOCATION_QUERY_UNSUPPORTED
      then (c1 + c2) % 2 ^ 64
      else if c1 ≠ ALLOCATION_QUERY_UNSUPPORTED then c1 else c2, ?_, ?_, ?_, ?_, ?_⟩
  · rcases hreq with rfl | rfl
    · simp only [allocator_fallback_proc, fallback_capacity, h1, h2]
      rfl
    · simp only [allocator_fallback_proc, fallback_used, h1, h2]
      rfl
  · intro hc1 hc2
    rw [if_pos ⟨hc1, hc2⟩]
    exact ⟨rfl, fun hlt => Nat.mod_eq_of_lt hlt⟩
  · intro hc1 hc2
    rw [if_neg (fun h => h.2 hc2), if_pos hc1]
  · intro hc1 hc2
    rw [if_neg (fun h => h.1 hc1), if_neg (fun h => h hc1)]
  · intro hc1 hc2
    rw [if_neg (fun h => h.1 hc1), if_neg (fun h => h hc1), hc2]

/-- C17 (witness): children reporting capacities 1024 and 4096. -/
theorem fallback_sum_queries_witness :
    ∃ w, allocator_fallback_proc
        { primary := counting_child 1024, secondary := counting_child 4096 } .QUERY_CAPACITY =
        some (w, { primary := { counting_child 1024 with data := 1 },
                   secondary := { counting_child 4096 with data := 1 } }) ∧
      (1024 ≠ ALLOCATION_QUERY_UNSUPPORTED → 4096 ≠ ALLOCATION_QUERY_UNSUPPORTED →
        w = (1024 + 4096) % 2 ^ 64 ∧ (1024 + 4096 < 2 ^ 64 → w = 1024 + 4096)) ∧
      (1024 ≠ ALLOCATION_QUERY_UNSUPPORTED → 4096 = ALLOCATION_QUERY_UNSUPPORTED → w = 1024) ∧
      (1024 = ALLOCATION_QUERY_UNSUPPORTED → 4096 ≠ ALLOCATION_QUERY_UNSUPPORTED → w = 4096) ∧
      (1024 = ALLOCATION_QUERY_UNSUPPORTED → 4096 = ALLOCATION_QUERY_UNSUPPORTED →
        w = ALLOCATION_QUERY_UNSUPPORTED) :=
  fallback_sum_queries
    { primary := counting_child 1024, secondary := counting_child 4096 } .QUERY_CAPACITY
    (Or.inl rfl) 1024 4096 { counting_child 1024 with data := 1 }
    { counting_child 4096 with data := 1 } rfl rfl


/-! ## Ownership and alignment of the free list -/

/-- A pointer above 4096 below the sentinel passes `make_allocation_result`. -/
theorem make_allocation_result_of_range (e : Nat) (h1 : 4096 < e) (h2 : e < 2 ^ 64 - 1) :
    make_allocation_result e = some e := by
  unfold make_allocation_result ALLOCATION_QUERY_UNSUPPORTED
  rw [if_pos ⟨h1, by omega⟩]

/-- C14 (the code at the failing input): a free list of two 64-byte blocks on
zero-filled memory at address 8192.  After the two cells are handed out, a
third and a fourth `ALLOCATE(64)` still succeed (the capacity test compares
the index with 128), and the fourth returns 8384, which lies beyond
`base + N * B = 8320`: `QUERY_OWNS(8384)` right afterwards returns 0. -/
theorem freelist_allocation_not_owned :
    freelist_init (fun _ => 0) 8192 64 2 =
      some { m_memory := 8192, m_first_free := 0, m_block_size := 64, m_count := 2,
             m_used := 0, heap := memset_zero (fun _ => 0) 128 } ∧
    freelist_allocate_list [64, 13]
        { m_memory := 8192, m_first_free := 0, m_block_size := 64, m_count := 2,
          m_used := 0, heap := memset_zero (fun _ => 0) 128 } =
      some ([8192, 8256],
        { m_memory := 8192, m_first_free := 2, m_block_size := 64, m_count := 2,
          m_used := 2, heap := memset_zero (fun _ => 0) 128 }) ∧
    allocator_freelist_proc
        { m_memory := 8192, m_first_free := 2, m_block_size := 64, m_count := 2,
          m_used := 2, heap := memset_zero (fun _ => 0) 128 } (.ALLOCATE 64) =
      some (8320,
        { m_memory := 8192, m_first_free := 3, m_block_size := 64, m_count := 2,
          m_used := 3, heap := memset_zero (fun _ => 0) 128 }) ∧
    allocator_freelist_proc
        { m_memory := 8192, m_first_free := 3, m_block_size := 64, m_count := 2,
          m_used := 3, heap := memset_zero (fun _ => 0) 128 } (.ALLOCATE 64) =
      some (8384,
        { m_memory := 8192, m_first_free := 4, m_block_size := 64, m_count := 2,
          m_used := 4, heap := memset_zero (fun _ => 0) 128 }) ∧
    allocation_succeeded 8384 = true ∧
    allocator_freelist_proc
        { m_memory := 8192, m_first_free := 4, m_block_size := 64, m_count := 2,
          m_used := 4, heap := memset_zero (fun _ => 0) 128 } (.QUERY_OWNS 8384) =
      some (0,
        { m_memory := 8192, m_first_free := 4, m_block_size := 64, m_count := 2,
          m_used := 4, heap := memset_zero (fun _ => 0) 128 }) := by
  refine ⟨freelist_two_blocks_run.1, freelist_two_blocks_run.2, ?_, ?_, by decide, ?_⟩
  · refine (freelist_allocate_step _ 64 2 rfl (by decide) (by decide) (by decide)
      ⟨align_address_four _ (by decide) (by decide),
        make_allocation_result_of_range _ (by decide) (by decide)⟩).trans ?_
    rfl
  · refine (freelist_allocate_step _ 64 3 rfl (by decide) (by decide) (by decide)
      ⟨align_address_four _ (by decide) (by decide),
        make_allocation_result_of_range _ (by decide) (by decide)⟩).trans ?_
    rfl
  · simp [allocator_freelist_proc, freelist_owns, make_query_result]

/-- C15 (the code at the failing input): a free list of sixteen 64-byte blocks
whose buffer starts at the 4-aligned address 8196.  `ALLOCATE_ALIGNED(64, 64)`
passes the check `alignment == block_size` and succeeds, returning 8196,
which is not a multiple of 64. -/
theorem freelist_allocate_aligned_misaligned :
    freelist_init (fun _ => 0) 8196 64 16 =
      some { m_memory := 8196, m_first_free := 0, m_block_size := 64, m_count := 16,
             m_used := 0, heap := memset_zero (fun _ => 0) 1024 } ∧
    allocator_freelist_proc
        { m_memory := 8196, m_first_free := 0, m_block_size := 64, m_count := 16,
          m_used := 0, heap := memset_zero (fun _ => 0) 1024 } (.ALLOCATE_ALIGNED 64 64) =
      some (8196,
        { m_memory := 8196, m_first_free := 1, m_block_size := 64, m_count := 16,
          m_used := 1, heap := memset_zero (fun _ => 0) 1024 }) ∧
    allocation_succeeded 8196 = true ∧ 8196 % 64 ≠ 0 := by
  refine ⟨?_, ?_, by decide, by decide⟩
  · unfold freelist_init
    rw [if_pos (by decide)]
    rfl
  · have hal : toU32 64 = 64 := by decide
    simp only [allocator_freelist_proc, hal, ne_eq, not_true_eq_false, if_false]
    refine (freelist_allocate_step _ 64 0 rfl (by decide) (by decide) (by decide)
      ⟨align_address_four _ (by decide) (by decide),
        make_allocation_result_of_range _ (by decide) (by decide)⟩).trans ?_
    rfl


/-! ## Queries of the free list -/

/-- C18 (as stated, refuted): with block size `2 ^ 31` and 2 blocks,
`QUERY_CAPACITY` returns the `u32` product, which is 0 and not
`N * B = 2 ^ 32`. -/
theorem freelist_capacity_wraps :
    (allocator_freelist_proc
        { m_memory := 8192, m_first_free := 0, m_block_size := 2 ^ 31, m_count := 2,
          m_used := 0, heap := fun _ => 0 } .QUERY_CAPACITY).map (fun r => r.1) = some 0 ∧
    (0 : Nat) ≠ 2 * 2 ^ 31 := by
  refine ⟨?_, by decide⟩
  simp [allocator_freelist_proc, freelist_capacity, make_query_result]

/-- C18 (amended): for every free-list state whose products `N * B` and
`u * B` fit in 32 bits, `QUERY_USED` returns `u * B`, `QUERY_CAPACITY` returns
`N * B`, `QUERY_ALIGNMENT` and `QUERY_GOOD_SIZE` return `B`, and, when the
buffer ends below the top of the address space (`base + N * B < 2 ^ 64`),
`QUERY_OWNS(m)` returns 1 iff `base <= m <= base + N * B` (else 0), whatever
cells are allocated; and with `B = 64`, `N = 16` on a 4-aligned buffer above
4096 that ends below `2 ^ 64`, after `x = ALLOCATE(64)`, `y = ALLOCATE(13)`,
`FREE(x)`, `FREE(y)` the capacity is 1024, `QUERY_OWNS(x)` and `QUERY_OWNS(y)`
are 1 and `QUERY_USED` is 0. -/
theorem freelist_queries (s : allocator_freelist_t) (m : Nat)
    (hBN : s.m_count * s.m_block_size < 2 ^ 32) (hBu : s.m_used * s.m_block_size < 2 ^ 32) :
    allocator_freelist_proc s .QUERY_USED = some (s.m_used * s.m_block_size, s) ∧
    allocator_freelist_proc s .QUERY_CAPACITY = some (s.m_count * s.m_block_size, s) ∧
    allocator_freelist_proc s .QUERY_ALIGNMENT = some (s.m_block_size, s) ∧
    allocator_freelist_proc s .QUERY_GOOD_SIZE = some (s.m_block_size, s) ∧
    (s.m_memory + s.m_count * s.m_block_size < 2 ^ 64 →
      allocator_freelist_proc s (.QUERY_OWNS m) =
        some (if s.m_memory ≤ m ∧ m ≤ s.m_memory + s.m_count * s.m_block_size then 1 else 0,
          s)) ∧
    (∀ (heap : Nat → Nat) (base : Nat), base % 4 = 0 → 4096 < base → base + 1024 < 2 ^ 64 →
      ∃ s0 s1 s2 s3 s4,
        freelist_init heap base 64 16 = some s0 ∧
        allocator_freelist_proc s0 (.ALLOCATE 64) = some (base, s1) ∧
        allocator_freelist_proc s1 (.ALLOCATE 13) = some (base + 64, s2) ∧
        allocator_freelist_proc s2 (.FREE base) = some (FREE_STATUS_SUCCEEDED, s3) ∧
        allocator_freelist_proc s3 (.FREE (base + 64)) = some (FREE_STATUS_SUCCEEDED, s4) ∧
        allocator_freelist_proc s4 .QUERY_CAPACITY = some (1024, s4) ∧
        allocator_freelist_proc s4 (.QUERY_OWNS base) = some (1, s4) ∧
        allocator_freelist_proc s4 (.QUERY_OWNS (base + 64)) = some (1, s4) ∧
        allocator_freelist_proc s4 .QUERY_USED = some (0, s4)) := by
  have hcomm1 : s.m_block_size * s.m_used = s.m_used * s.m_block_size := Nat.mul_comm _ _
  have hcomm2 : s.m_block_size * s.m_count = s.m_count * s.m_block_size := Nat.mul_comm _ _
  refine ⟨?_, ?_, rfl, rfl, ?_, ?_⟩
  · simp only [allocator_freelist_proc, freelist_used, make_query_result, hcomm1,
      Nat.mod_eq_of_lt hBu, Option.map_some']
  · simp only [allocator_freelist_proc, freelist_capacity, make_query_result, hcomm2,
      Nat.mod_eq_of_lt hBN, Option.map_some']
  · intro hw
    simp only [allocator_freelist_proc, freelist_owns, make_query_result,
      Nat.mod_eq_of_lt hBN, Nat.mod_eq_of_lt hw, Option.map_some', Bool.and_eq_true,
      decide_eq_true_eq]
  · intro heap base hb4 hlow hend
    have hok : ∀ c, c < 16 → cell_ok base 64 c := by
      intro c hc
      exact ⟨align_address_four _ (by omega) (by omega),
        make_allocation_result_of_range _ (by omega) (by omega)⟩
    have hz : ∀ c, c < 16 → memset_zero heap 1024 (c * 64) = 0 := by
      intro c hc
      have : c * 64 < 1024 := by omega
      simp [memset_zero, this]
    have h1 := freelist_allocate_step
      { m_memory := base, m_first_free := 0, m_block_size := 64, m_count := 16,
        m_used := 0, heap := memset_zero heap 1024 } 64 0 rfl
      (show toU32 64 ≤ 64 from by decide) (show 0 < (64 * 16) % 2 ^ 32 from by decide)
      (show 0 * 64 < 2 ^ 32 from by decide) (hok 0 (by decide))
    simp only [hz 0 (by decide), if_true, Nat.zero_mul, Nat.add_zero] at h1
    have h2 := freelist_allocate_step
      { m_memory := base, m_first_free := (0 + 1) % 2 ^ 32, m_block_size := 64, m_count := 16,
        m_used := (0 + 1) % 2 ^ 32, heap := memset_zero heap 1024 } 13 1 rfl
      (show toU32 13 ≤ 64 from by decide) (show 1 < (64 * 16) % 2 ^ 32 from by decide)
      (show 1 * 64 < 2 ^ 32 from by decide) (hok 1 (by decide))
    simp only [hz 1 (by decide), if_true, Nat.one_mul] at h2
    have h3 := freelist_free_step
      { m_memory := base, m_first_free := (1 + 1) % 2 ^ 32, m_block_size := 64, m_count := 16,
        m_used := ((0 + 1) % 2 ^ 32 + 1) % 2 ^ 32, heap := memset_zero heap 1024 } 0
      (show 0 < 16 from by decide) (show 0 < 64 from by decide)
      (show 64 * 16 < 2 ^ 32 from by decide) (show (1 + 1) % 2 ^ 32 ≤ 16 from by decide)
      (show (1 + 1) % 2 ^ 32 + 1 < 2 ^ 32 from by decide)
      (show base + 64 * 16 < 2 ^ 64 from by omega) (hok 0 (by decide)).1
    simp only [Nat.zero_mul, Nat.add_zero] at h3
    have h4 := freelist_free_step
      { m_memory := base, m_first_free := 0, m_block_size := 64, m_count := 16,
        m_used := (((0 + 1) % 2 ^ 32 + 1) % 2 ^ 32 + 2 ^ 32 - 1) % 2 ^ 32,
        heap := fun off => if off = 0 then (1 + 1) % 2 ^ 32 + 1 else memset_zero heap 1024 off }
      1 (show 1 < 16 from by decide) (show 0 < 64 from by decide)
      (show 64 * 16 < 2 ^ 32 from by decide) (show 0 ≤ 16 from by decide)
      (show 0 + 1 < 2 ^ 32 from by decide)
      (show base + 64 * 16 < 2 ^ 64 from by omega) (hok 1 (by decide)).1
    simp only [Nat.one_mul] at h4
    refine ⟨_, _, _, _, _, ?_, h1, h2, h3, h4, ?_, ?_, ?_, ?_⟩
    · simp [freelist_init, freelist_capacity]
    · simp [allocator_freelist_proc, freelist_capacity, make_query_result]
    · simp only [allocator_freelist_proc, freelist_owns, make_query_result, Option.map_some']
      rw [if_pos]
      simp only [Bool.and_eq_true, decide_eq_true_eq]
      omega
    · simp only [allocator_freelist_proc, freelist_owns, make_query_result, Option.map_some']
      rw [if_pos]
      simp only [Bool.and_eq_true, decide_eq_true_eq]
      omega
    · simp [allocator_freelist_proc, freelist_used, make_query_result]

/-- C18 (witness): the state of a free list of sixteen 64-byte blocks with two
cells handed out. -/
theorem freelist_queries_witness :
    allocator_freelist_proc
        { m_memory := 8192, m_first_free := 2, m_block_size := 64, m_count := 16,
          m_used := 2, heap := memset_zero (fun _ => 0) 1024 } .QUERY_USED =
      some (2 * 64,
        { m_memory := 8192, m_first_free := 2, m_block_size := 64, m_count := 16,
          m_used := 2, heap := memset_zero (fun _ => 0) 1024 }) :=
  (freelist_queries
    { m_memory := 8192, m_first_free := 2, m_block_size := 64, m_count := 16,
      m_used := 2, heap := memset_zero (fun _ => 0) 1024 } 8192 (by decide) (by decide)).1


/-! ## The demo scenario on the stack -/

/-- The success branch of `stack_allocate_aligned` for a power-of-two
alignment without address overflow, up to the assertion of
`make_allocation_result`. -/
theorem stack_allocate_aligned_fits (s : allocator_stack_t) (size a k aligned : Nat)
    (hptr : s.m_pointer < 2 ^ 32) (hc : s.m_capacity < 2 ^ 32) (hk : k < 63) (ha : a = 2 ^ k)
    (hov : s.m_memory + s.m_pointer + (a - 1) < 2 ^ 64)
    (hal : aligned = (s.m_memory + s.m_pointer + (a - 1)) / a * a)
    (hfit : s.m_pointer + (aligned - (s.m_memory + s.m_pointer)) + size ≤ s.m_capacity) :
    stack_allocate_aligned s (size : Int) (a : Int) =
      (make_allocation_result aligned).map
        (fun r => (r, { m_memory := s.m_memory,
                        m_pointer := s.m_pointer + (aligned - (s.m_memory + s.m_pointer)) + size,
                        m_capacity := s.m_capacity })) := by
  subst ha
  have hpos : 0 < 2 ^ k := by positivity
  obtain ⟨_, hle2, hlt2, _⟩ := round_up_least (s.m_memory + s.m_pointer) (2 ^ k) hpos
  have halign := align_address_pow (s.m_memory + s.m_pointer) k (by omega) hov
  rw [← hal] at halign hle2 hlt2
  have hk64 : (2 ^ k : Nat) < 2 ^ 64 := Nat.pow_lt_pow_right (by norm_num) (by omega)
  have hpad2 : (aligned + 2 ^ 64 - (s.m_memory + s.m_pointer)) % 2 ^ 64 =
      aligned - (s.m_memory + s.m_pointer) := by
    have : aligned + 2 ^ 64 - (s.m_memory + s.m_pointer) =
        (aligned - (s.m_memory + s.m_pointer)) + 2 ^ 64 := by omega
    rw [this]
    omega
  unfold stack_allocate_aligned
  rw [toSizeT_natCast, toSizeT_natCast, toU32_natCast, Nat.mod_eq_of_lt hk64, halign]
  simp only []
  rw [hpad2, if_neg (by omega)]
  congr 1
  funext r
  simp only [Prod.mk.injEq, true_and, allocator_stack_t.mk.injEq, and_true]
  clear halign hal hpad2
  omega

/-- C19: on a fresh stack over a 1024-byte buffer at any base above 4096, the
calls `a = ALLOCATE(10)`, `b = ALLOCATE_ALIGNED(155, 64)`, `c = ALLOCATE(12)`,
`d = ALLOCATE_ALIGNED(48, 4)` through `allocator_stack_proc` all succeed, `b`
is a multiple of 64, `QUERY_CAPACITY` is 1024, `QUERY_ALIGNMENT` and
`QUERY_GOOD_SIZE` are 1, and after `FREE(c)`, `FREE(b)`, `FREE(a)`, `FREE_ALL`
(each returning `SUCCEEDED`) `QUERY_USED` is 0. -/
theorem stack_demo_scenario (base : Nat) (hlow : 4096 < base) (hend : base + 1024 ≤ 2 ^ 64) :
    ∃ a b c d t1 t2 t3 t4 t5 t6 t7 t8,
      allocator_stack_proc (allocator_stack_init base 1024) (.ALLOCATE ((10 : Nat) : Int)) =
        some (a, t1) ∧
      allocator_stack_proc t1 (.ALLOCATE_ALIGNED ((155 : Nat) : Int) ((64 : Nat) : Int)) =
        some (b, t2) ∧
      allocator_stack_proc t2 (.ALLOCATE ((12 : Nat) : Int)) = some (c, t3) ∧
      allocator_stack_proc t3 (.ALLOCATE_ALIGNED ((48 : Nat) : Int) ((4 : Nat) : Int)) =
        some (d, t4) ∧
      allocation_succeeded a = true ∧ allocation_succeeded b = true ∧
      allocation_succeeded c = true ∧ allocation_succeeded d = true ∧
      b % 64 = 0 ∧
      allocator_stack_proc t4 .QUERY_CAPACITY = some (1024, t4) ∧
      allocator_stack_proc t4 .QUERY_ALIGNMENT = some (1, t4) ∧
      allocator_stack_proc t4 .QUERY_GOOD_SIZE = some (1, t4) ∧
      allocator_stack_proc t4 (.FREE c) = some (FREE_STATUS_SUCCEEDED, t5) ∧
      allocator_stack_proc t5 (.FREE b) = some (FREE_STATUS_SUCCEEDED, t6) ∧
      allocator_stack_proc t6 (.FREE a) = some (FREE_STATUS_SUCCEEDED, t7) ∧
      allocator_stack_proc t7 .FREE_ALL = some (FREE_STATUS_SUCCEEDED, t8) ∧
      allocator_stack_proc t8 .QUERY_USED = some (0, t8) := by
  -- the two aligned addresses
  obtain ⟨B, hB⟩ : ∃ B, B = (base + 10 + (64 - 1)) / 64 * 64 := ⟨_, rfl⟩
  obtain ⟨hBd, hBle, hBlt, _⟩ := round_up_least (base + 10) 64 (by decide)
  rw [← hB] at hBd hBle hBlt
  obtain ⟨D, hD⟩ : ∃ D, D = (base + (B - base + 155 + 12) + (4 - 1)) / 4 * 4 := ⟨_, rfl⟩
  obtain ⟨hDd, hDle, hDlt, _⟩ := round_up_least (base + (B - base + 155 + 12)) 4 (by decide)
  rw [← hD] at hDd hDle hDlt
  have hsucc : ∀ w, 4096 < w → allocation_succeeded w = true := by
    intro w hw
    simp only [allocation_succeeded, ALLOCATION_STATUS_SUCCEEDED, ALLOCATION_STATUS_COUNT,
      Bool.or_eq_true, beq_iff_eq, decide_eq_true_eq]
    omega
  have hDnot : D ≠ 2 ^ 64 - 1 := by
    intro h
    rw [h] at hDd
    omega
  have hBnot : B ≠ 2 ^ 64 - 1 := by
    intro h
    rw [h] at hBd
    omega
  -- the four allocations
  have ha : stack_allocate (allocator_stack_init base 1024) ((10 : Nat) : Int) =
      some (base, { m_memory := base, m_pointer := 10, m_capacity := 1024 }) := by
    rw [stack_allocate_fits (allocator_stack_init base 1024) 10
      (show 1024 < 2 ^ 32 from by decide) (show 0 + 10 ≤ 1024 from by decide)]
    have := make_allocation_result_of_range base hlow (by omega)
    have e : (base + 0) % 2 ^ 64 = base := Nat.mod_eq_of_lt (by omega)
    simp only [allocator_stack_init, e, Nat.zero_add, this, Option.map_some']
  have hb : stack_allocate_aligned { m_memory := base, m_pointer := 10, m_capacity := 1024 }
      ((155 : Nat) : Int) ((64 : Nat) : Int) =
      some (B, { m_memory := base, m_pointer := B - base + 155, m_capacity := 1024 }) := by
    rw [stack_allocate_aligned_fits { m_memory := base, m_pointer := 10, m_capacity := 1024 }
      155 64 6 B (show 10 < 2 ^ 32 from by decide) (show 1024 < 2 ^ 32 from by decide)
      (by decide) (by decide) (show base + 10 + (64 - 1) < 2 ^ 64 from by omega) hB
      (show 10 + (B - (base + 10)) + 155 ≤ 1024 from by omega)]
    rw [make_allocation_result_of_range B (by omega) (by omega)]
    simp only [Option.map_some', Option.some.injEq, Prod.mk.injEq, true_and,
      allocator_stack_t.mk.injEq, and_true]
    omega
  have hc : stack_allocate { m_memory := base, m_pointer := B - base + 155, m_capacity := 1024 }
      ((12 : Nat) : Int) =
      some (B + 155,
        { m_memory := base, m_pointer := B - base + 155 + 12, m_capacity := 1024 }) := by
    rw [stack_allocate_fits
      { m_memory := base, m_pointer := B - base + 155, m_capacity := 1024 } 12
      (show 1024 < 2 ^ 32 from by decide) (show B - base + 155 + 12 ≤ 1024 from by omega)]
    have e : (base + (B - base + 155)) % 2 ^ 64 = B + 155 := by omega
    simp only [e, make_allocation_result_of_range (B + 155) (by omega) (by omega),
      Option.map_some']
  have hd : stack_allocate_aligned
      { m_memory := base, m_pointer := B - base + 155 + 12, m_capacity := 1024 }
      ((48 : Nat) : Int) ((4 : Nat) : Int) =
      some (D, { m_memory := base, m_pointer := D - base + 48, m_capacity := 1024 }) := by
    rw [stack_allocate_aligned_fits
      { m_memory := base, m_pointer := B - base + 155 + 12, m_capacity := 1024 }
      48 4 2 D (show B - base + 155 + 12 < 2 ^ 32 from by omega)
      (show 1024 < 2 ^ 32 from by decide) (by decide) (by decide)
      (show base + (B - base + 155 + 12) + (4 - 1) < 2 ^ 64 from by omega) hD
      (show B - base + 155 + 12 + (D - (base + (B - base + 155 + 12))) + 48 ≤ 1024
        from by omega)]
    rw [make_allocation_result_of_range D (by omega) (by omega)]
    simp only [Option.map_some', Option.some.injEq, Prod.mk.injEq, true_and,
      allocator_stack_t.mk.injEq, and_true]
    omega
  -- the frees
  have hfc : stack_free { m_memory := base, m_pointer := D - base + 48, m_capacity := 1024 }
      (B + 155) = some (FREE_STATUS_SUCCEEDED,
        { m_memory := base, m_pointer := B + 155 - base, m_capacity := 1024 }) :=
    stack_free_rewinds
      { m_memory := base, m_pointer := D - base + 48, m_capacity := 1024 } (B + 155)
      (show D - base + 48 < 2 ^ 32 from by omega) (show base ≤ B + 155 from by omega)
      (show B + 155 < (base + (D - base + 48)) % 2 ^ 64 from by omega)
  have hfb : stack_free { m_memory := base, m_pointer := B + 155 - base, m_capacity := 1024 }
      B = some (FREE_STATUS_SUCCEEDED,
        { m_memory := base, m_pointer := B - base, m_capacity := 1024 }) :=
    stack_free_rewinds
      { m_memory := base, m_pointer := B + 155 - base, m_capacity := 1024 } B
      (show B + 155 - base < 2 ^ 32 from by omega) (show base ≤ B from by omega)
      (show B < (base + (B + 155 - base)) % 2 ^ 64 from by omega)
  have hfa : stack_free { m_memory := base, m_pointer := B - base, m_capacity := 1024 }
      base = some (FREE_STATUS_SUCCEEDED,
        { m_memory := base, m_pointer := base - base, m_capacity := 1024 }) :=
    stack_free_rewinds
      { m_memory := base, m_pointer := B - base, m_capacity := 1024 } base
      (show B - base < 2 ^ 32 from by omega) (show base ≤ base from le_refl _)
      (show base < (base + (B - base)) % 2 ^ 64 from by omega)
  refine ⟨base, B, B + 155, D, _, _, _, _, _, _, _, _, ha, hb, hc, hd, hsucc _ hlow,
    hsucc _ (by omega), hsucc _ (by omega), hsucc _ (by omega),
    Nat.mod_eq_zero_of_dvd hBd, rfl, rfl, rfl, hfc, hfb, hfa, rfl, rfl⟩


/-- C19 (witness): the scenario at base address 8192. -/
theorem stack_demo_scenario_witness :
    ∃ a b c d t1 t2 t3 t4 t5 t6 t7 t8,
      allocator_stack_proc (allocator_stack_init 8192 1024) (.ALLOCATE ((10 : Nat) : Int)) =
        some (a, t1) ∧
      allocator_stack_proc t1 (.ALLOCATE_ALIGNED ((155 : Nat) : Int) ((64 : Nat) : Int)) =
        some (b, t2) ∧
      allocator_stack_proc t2 (.ALLOCATE ((12 : Nat) : Int)) = some (c, t3) ∧
      allocator_stack_proc t3 (.ALLOCATE_ALIGNED ((48 : Nat) : Int) ((4 : Nat) : Int)) =
        some (d, t4) ∧
      allocation_succeeded a = true ∧ allocation_succeeded b = true ∧
      allocation_succeeded c = true ∧ allocation_succeeded d = true ∧
      b % 64 = 0 ∧
      allocator_stack_proc t4 .QUERY_CAPACITY = some (1024, t4) ∧
      allocator_stack_proc t4 .QUERY_ALIGNMENT = some (1, t4) ∧
      allocator_stack_proc t4 .QUERY_GOOD_SIZE = some (1, t4) ∧
      allocator_stack_proc t4 (.FREE c) = some (FREE_STATUS_SUCCEEDED, t5) ∧
      allocator_stack_proc t5 (.FREE b) = some (FREE_STATUS_SUCCEEDED, t6) ∧
      allocator_stack_proc t6 (.FREE a) = some (FREE_STATUS_SUCCEEDED, t7) ∧
      allocator_stack_proc t7 .FREE_ALL = some (FREE_STATUS_SUCCEEDED, t8) ∧
      allocator_stack_proc t8 .QUERY_USED = some (0, t8) :=
  stack_demo_scenario 8192 (by decide) (by decide)

/-! ## Fallback of a full stack and the system heap -/

/-- A pointer above 4096 returned by the `ALLOCATE` of `allocator_malloc_proc`
has passed `make_allocation_result`. -/
theorem allocator_malloc_proc_allocate_inv {σ : Type} (platform : platform_heap σ)
    (heap heap1 : σ) (size : Int) (p : Nat)
    (h : allocator_malloc_proc platform heap (.ALLOCATE size) = some (p, heap1))
    (hp : 4096 < p) : make_allocation_result p = some p := by
  simp only [allocator_malloc_proc] at h
  split at h
  · rename_i hne
    cases hres : make_allocation_result (platform.malloc heap (toSizeT size)).1 with
    | none =>
      rw [hres] at h
      exact absurd h (by simp)
    | some r =>
      rw [hres] at h
      simp only [Option.map_some', Option.some.injEq, Prod.mk.injEq] at h
      have hr := hres
      unfold make_allocation_result at hr
      split at hr
      · have e1 := Option.some.inj hr
        have e := e1.trans h.1
        rw [← e, hres, e1]
      · exact absurd hr (by simp)
  · exfalso
    simp only [make_allocation_error, ALLOCATION_STATUS_OUT_OF_MEMORY, ALLOCATION_STATUS_COUNT]
      at h
    simp at h
    omega

/-- C20: for a fallback whose primary is a stack that cannot fit 1000 more
bytes and whose secondary is the system heap answering `ALLOCATE(1000)` with a
pointer `p` above 4096, `ALLOCATE(1000)` on the fallback returns exactly `p`
and leaves the stack state unchanged, and `QUERY_OWNS(p)` on the fallback then
returns 1 (for `p` outside the stack's buffer as for any other `p`). -/
theorem fallback_full_stack_system_heap {σ : Type} (platform : platform_heap σ)
    (heap heap1 : σ) (s : allocator_stack_t) (p : Nat)
    (hptr : s.m_pointer < 2 ^ 32) (hfull : s.m_capacity < s.m_pointer + 1000)
    (hsec : allocator_malloc_proc platform heap (.ALLOCATE ((1000 : Nat) : Int)) =
      some (p, heap1))
    (hp : 4096 < p) :
    allocator_fallback_proc
        { primary := { procedure := allocator_stack_proc, data := s },
          secondary := allocator_malloc platform heap }
        (.ALLOCATE ((1000 : Nat) : Int)) =
      some (p, { primary := { procedure := allocator_stack_proc, data := s },
                 secondary := allocator_malloc platform heap1 }) ∧
    allocator_fallback_proc
        { primary := { procedure := allocator_stack_proc, data := s },
          secondary := allocator_malloc platform heap1 }
        (.QUERY_OWNS p) =
      some (1, { primary := { procedure := allocator_stack_proc, data := s },
                 secondary := allocator_malloc platform heap1 }) := by
  have hres := allocator_malloc_proc_allocate_inv platform heap heap1 _ p hsec hp
  have hoom := stack_allocate_oom s 1000 hptr (by decide) hfull
  have hsuccp : allocation_succeeded p = true := by
    simp only [allocation_succeeded, ALLOCATION_STATUS_SUCCEEDED, ALLOCATION_STATUS_COUNT,
      Bool.or_eq_true, beq_iff_eq, decide_eq_true_eq]
    omega
  constructor
  · have h1 : allocation_proxy
        ({ procedure := allocator_stack_proc, data := s } : allocator_t allocator_stack_t)
        (.ALLOCATE ((1000 : Nat) : Int)) =
        some (ALLOCATION_STATUS_OUT_OF_MEMORY,
          { procedure := allocator_stack_proc, data := s }) := by
      simp only [allocation_proxy, allocator_stack_proc, hoom]
    have h2 : allocation_proxy (allocator_malloc platform heap)
        (.ALLOCATE ((1000 : Nat) : Int)) = some (p, allocator_malloc platform heap1) := by
      simp only [allocation_proxy, allocator_malloc, hsec]
    have hfail : allocation_succeeded ALLOCATION_STATUS_OUT_OF_MEMORY = false := by decide
    simp only [allocator_fallback_proc, fallback_allocate, h1, h2, hfail, hsuccp, hres,
      if_true, Option.map_some']
    rfl
  · by_cases ho : stack_owns s p = true
    · simp [allocator_fallback_proc, fallback_owns, allocation_proxy, allocator_stack_proc,
        make_query_result, ho]
    · simp [allocator_fallback_proc, fallback_owns, allocation_proxy, allocator_stack_proc,
        allocator_malloc, allocator_malloc_proc, make_query_result, ho,
        ALLOCATION_QUERY_UNSUPPORTED]

/-- C20 (witness): a full 1024-byte stack at address 8192 and a platform heap
whose next block is at 65536. -/
theorem fallback_full_stack_system_heap_witness :
    allocator_fallback_proc
        { primary := { procedure := allocator_stack_proc,
                       data := { m_memory := 8192, m_pointer := 1024, m_capacity := 1024 } },
          secondary := allocator_malloc bump_platform 65536 }
        (.ALLOCATE ((1000 : Nat) : Int)) =
      some (65536,
        { primary := { procedure := allocator_stack_proc,
                       data := { m_memory := 8192, m_pointer := 1024, m_capacity := 1024 } },
          secondary := allocator_malloc bump_platform 66536 }) ∧
    allocator_fallback_proc
        { primary := { procedure := allocator_stack_proc,
                       data := { m_memory := 8192, m_pointer := 1024, m_capacity := 1024 } },
          secondary := allocator_malloc bump_platform 66536 }
        (.QUERY_OWNS 65536) =
      some (1,
        { primary := { procedure := allocator_stack_proc,
                       data := { m_memory := 8192, m_pointer := 1024, m_capacity := 1024 } },
          secondary := allocator_malloc bump_platform 66536 }) :=
  fallback_full_stack_system_heap bump_platform 65536 66536
    { m_memory := 8192, m_pointer := 1024, m_capacity := 1024 } 65536 (by decide) (by decide)
    (by
      rw [show allocator_malloc_proc bump_platform 65536 (.ALLOCATE ((1000 : Nat) : Int)) =
        (make_allocation_result 65536).map (fun r => (r, 66536)) from rfl]
      rw [make_allocation_result_of_range 65536 (by decide) (by decide)]
      rfl)
    (by decide)


/-! ## Ownership of what the stack and the null allocator hand out -/

/-- The out-of-memory branch of `stack_allocate_aligned` for a power-of-two
alignment without address overflow. -/
theorem stack_allocate_aligned_oom (s : allocator_stack_t) (size a k aligned : Nat)
    (hptr : s.m_pointer < 2 ^ 32) (hs : size < 2 ^ 63) (hk : k < 63) (ha : a = 2 ^ k)
    (hov : s.m_memory + s.m_pointer + (a - 1) < 2 ^ 64)
    (hal : aligned = (s.m_memory + s.m_pointer + (a - 1)) / a * a)
    (hfull : s.m_capacity < s.m_pointer + (aligned - (s.m_memory + s.m_pointer)) + size) :
    stack_allocate_aligned s (size : Int) (a : Int) =
      some (ALLOCATION_STATUS_OUT_OF_MEMORY, s) := by
  subst ha
  have hpos : 0 < 2 ^ k := by positivity
  obtain ⟨_, hle2, hlt2, _⟩ := round_up_least (s.m_memory + s.m_pointer) (2 ^ k) hpos
  have halign := align_address_pow (s.m_memory + s.m_pointer) k (by omega) hov
  rw [← hal] at halign hle2 hlt2
  have hk64 : (2 ^ k : Nat) < 2 ^ 64 := Nat.pow_lt_pow_right (by norm_num) (by omega)
  have hk62 : (2 ^ k : Nat) ≤ 2 ^ 62 := Nat.pow_le_pow_right (by norm_num) (by omega)
  have hpad2 : (aligned + 2 ^ 64 - (s.m_memory + s.m_pointer)) % 2 ^ 64 =
      aligned - (s.m_memory + s.m_pointer) := by
    have : aligned + 2 ^ 64 - (s.m_memory + s.m_pointer) =
        (aligned - (s.m_memory + s.m_pointer)) + 2 ^ 64 := by omega
    rw [this]
    omega
  unfold stack_allocate_aligned
  rw [toSizeT_natCast, toSizeT_natCast, Nat.mod_eq_of_lt hk64, halign]
  simp only []
  rw [hpad2, if_pos (by clear halign hal hpad2; omega)]
  rfl

/-- Ownership soundness of the stack: with `pointer <= capacity` and a buffer
that ends below `2 ^ 64`, after a successful `ALLOCATE`, `ALLOCATE_ALIGNED`
(power-of-two alignment, no address overflow) or `ALLOCATE_ALL` returning `p`,
`QUERY_OWNS(p)` returns 1. -/
theorem stack_allocation_owned (s t : allocator_stack_t) (req : allocation_arguments_t)
    (p : Nat) (hp : s.m_pointer ≤ s.m_capacity) (hc : s.m_capacity < 2 ^ 32)
    (hw : s.m_memory + s.m_capacity < 2 ^ 64)
    (hreq : (∃ size : Nat, size < 2 ^ 63 ∧ req = .ALLOCATE (size : Int)) ∨
      (∃ size k : Nat, size < 2 ^ 63 ∧ k < 63 ∧
        s.m_memory + s.m_pointer + (2 ^ k - 1) < 2 ^ 64 ∧
        req = .ALLOCATE_ALIGNED (size : Int) ((2 ^ k : Nat) : Int)) ∨
      req = .ALLOCATE_ALL)
    (h : allocator_stack_proc s req = some (p, t)) (hsucc : allocation_succeeded p = true) :
    allocator_stack_proc t (.QUERY_OWNS p) = some (1, t) := by
  have hoomfalse : allocation_succeeded ALLOCATION_STATUS_OUT_OF_MEMORY = false := by decide
  have howns : stack_owns t p = true →
      allocator_stack_proc t (.QUERY_OWNS p) = some (1, t) := by
    intro ho
    simp [allocator_stack_proc, make_query_result, ho]
  apply howns
  rcases hreq with ⟨size, hs, rfl⟩ | ⟨size, k, hs, hk, hov, rfl⟩ | rfl
  · obtain ⟨hfit, rfl, rfl⟩ :=
      stack_allocate_succeeded_inv s size p t (by omega) hc hs h hsucc
    simp only [stack_owns, Bool.and_eq_true, decide_eq_true_eq]
    omega
  · simp only [allocator_stack_proc] at h
    obtain ⟨A, hA⟩ : ∃ A, A = (s.m_memory + s.m_pointer + (2 ^ k - 1)) / 2 ^ k * 2 ^ k :=
      ⟨_, rfl⟩
    obtain ⟨_, hle, _, _⟩ := round_up_least (s.m_memory + s.m_pointer) (2 ^ k) (by positivity)
    rw [← hA] at hle
    by_cases hfit : s.m_pointer + (A - (s.m_memory + s.m_pointer)) + size ≤ s.m_capacity
    · rw [stack_allocate_aligned_fits s size (2 ^ k) k A (by omega) hc hk rfl hov hA hfit] at h
      unfold make_allocation_result at h
      split at h
      · simp only [Option.map_some', Option.some.injEq, Prod.mk.injEq] at h
        obtain ⟨rfl, rfl⟩ := h
        simp only [stack_owns, Bool.and_eq_true, decide_eq_true_eq]
        omega
      · exact absurd h (by simp)
    · rw [stack_allocate_aligned_oom s size (2 ^ k) k A (by omega) hs hk rfl hov hA
        (by omega)] at h
      simp only [Option.some.injEq, Prod.mk.injEq] at h
      rw [← h.1, hoomfalse] at hsucc
      exact absurd hsucc (by simp)
  · simp only [allocator_stack_proc, stack_allocate_all] at h
    split at h
    · simp only [make_allocation_error, ALLOCATION_STATUS_OUT_OF_MEMORY,
        ALLOCATION_STATUS_COUNT] at h
      simp at h
      rw [← h.1] at hsucc
      exact absurd hsucc (by decide)
    · unfold make_allocation_result at h
      split at h
      · simp only [Option.map_some', Option.some.injEq, Prod.mk.injEq] at h
        obtain ⟨rfl, rfl⟩ := h
        simp only [stack_owns, Bool.and_eq_true, decide_eq_true_eq]
        omega
      · exact absurd h (by simp)

/-- Ownership soundness of the null allocator: after a successful `ALLOCATE`,
`ALLOCATE_ALIGNED` or `ALLOCATE_ALL` returning `p`, `QUERY_OWNS(p)` returns
1. -/
theorem null_allocation_owned (u : Unit) (req : allocation_arguments_t) (p : Nat)
    (hreq : (∃ size, req = .ALLOCATE size) ∨
      (∃ size alignment, req = .ALLOCATE_ALIGNED size alignment) ∨ req = .ALLOCATE_ALL)
    (h : allocator_null_proc () req = some (p, u)) (hsucc : allocation_succeeded p = true) :
    allocator_null_proc u (.QUERY_OWNS p) = some (1, u) := by
  have hp0 : p = 0 := by
    rcases hreq with ⟨size, rfl⟩ | ⟨size, alignment, rfl⟩ | rfl
    · simp only [allocator_null_proc] at h
      split at h
      · simp only [Option.some.injEq, Prod.mk.injEq] at h
        exact h.1.symm
      · simp only [make_allocation_error, ALLOCATION_STATUS_OUT_OF_MEMORY,
          ALLOCATION_STATUS_COUNT] at h
        simp at h
        rw [← h] at hsucc
        exact absurd hsucc (by decide)
    · simp only [allocator_null_proc] at h
      split at h
      · simp only [Option.some.injEq, Prod.mk.injEq] at h
        exact h.1.symm
      · simp only [make_allocation_error, ALLOCATION_STATUS_OUT_OF_MEMORY,
          ALLOCATION_STATUS_COUNT] at h
        simp at h
        rw [← h] at hsucc
        exact absurd hsucc (by decide)
    · simp only [allocator_null_proc, Option.some.injEq, Prod.mk.injEq] at h
      exact h.1.symm
  subst hp0
  rfl


/-! ## The null allocator -/

/-- C21: the null allocator returns 0 for `ALLOCATE` and `ALLOCATE_ALIGNED` of
size 0 and `OUT_OF_MEMORY` for any other size; `FREE(p)` returns `SUCCEEDED`
for `p = 0` and `CALLED_ON_NON_OWNED_MEMORY` otherwise; `QUERY_OWNS(p)`
returns 1 for `p = 0` and 0 otherwise; `QUERY_USED`, `QUERY_CAPACITY`,
`QUERY_ALIGNMENT` and `QUERY_GOOD_SIZE` return `UNSUPPORTED`, the word
`2 ^ 64 - 1`. -/
theorem allocator_null_contract (u : Unit) (size alignment : Int) (p : Nat) :
    allocator_null_proc u (.ALLOCATE size) =
      some (if size = 0 then 0 else ALLOCATION_STATUS_OUT_OF_MEMORY, u) ∧
    allocator_null_proc u (.ALLOCATE_ALIGNED size alignment) =
      some (if size = 0 then 0 else ALLOCATION_STATUS_OUT_OF_MEMORY, u) ∧
    allocator_null_proc u (.FREE p) =
      some (if p = 0 then FREE_STATUS_SUCCEEDED
            else FREE_STATUS_CALLED_ON_NON_OWNED_MEMORY, u) ∧
    allocator_null_proc u (.QUERY_OWNS p) = some (if p = 0 then 1 else 0, u) ∧
    allocator_null_proc u .QUERY_USED = some (ALLOCATION_QUERY_UNSUPPORTED, u) ∧
    allocator_null_proc u .QUERY_CAPACITY = some (ALLOCATION_QUERY_UNSUPPORTED, u) ∧
    allocator_null_proc u .QUERY_ALIGNMENT = some (ALLOCATION_QUERY_UNSUPPORTED, u) ∧
    allocator_null_proc u .QUERY_GOOD_SIZE = some (ALLOCATION_QUERY_UNSUPPORTED, u) ∧
    ALLOCATION_QUERY_UNSUPPORTED = 2 ^ 64 - 1 := by
  refine ⟨?_, ?_, ?_, rfl, rfl, rfl, rfl, rfl, rfl⟩
  · by_cases h : size = 0
    · simp [allocator_null_proc, h]
    · simp only [allocator_null_proc, if_neg h]
      rfl
  · by_cases h : size = 0
    · simp [allocator_null_proc, h]
    · simp only [allocator_null_proc, if_neg h]
      rfl
  · by_cases h : p = 0
    · simp only [allocator_null_proc, if_pos h]
      rfl
    · simp only [allocator_null_proc, if_neg h]
      rfl

/-! ## Compositors and child words at or below 4096 -/

/-- A word that `allocation_succeeded` accepts but that is at most 4096 fails
the assertion of `make_allocation_result`. -/
theorem make_allocation_result_of_low (w : Nat) (h : w ≤ 4096) :
    make_allocation_result w = none := by
  unfold make_allocation_result
  rw [if_neg (fun hc => by omega)]

/-- C30: when the child that serves an `ALLOCATE` or `ALLOCATE_ALIGNED`
request of a fallback (the primary if it succeeds, else the secondary) or of a
segregator (the primary if `size <= threshold`, else the secondary) returns a
word `w` that `allocation_succeeded` accepts with `w <= 4096`, the compositor
does not return: the assertion of `make_allocation_result` fails. -/
theorem compositor_aborts_on_low_success {σ₁ σ₂ : Type} (f : allocator_fallback_t σ₁ σ₂)
    (g : allocator_segregator_t σ₁ σ₂) (req : allocation_arguments_t) (size : Int) (w : Nat)
    (hreq : req = .ALLOCATE size ∨ ∃ alignment, req = .ALLOCATE_ALIGNED size alignment)
    (hw : allocation_succeeded w = true) (hlow : w ≤ 4096) :
    (∀ p1, allocation_proxy f.primary req = some (w, p1) →
      allocator_fallback_proc f req = none) ∧
    (∀ e p1 q1, allocation_proxy f.primary req = some (e, p1) →
      allocation_succeeded e = false → allocation_proxy f.secondary req = some (w, q1) →
      allocator_fallback_proc f req = none) ∧
    (∀ p1, size ≤ g.threshold → allocation_proxy g.primary req = some (w, p1) →
      allocator_segregator_proc g req = none) ∧
    (∀ q1, g.threshold < size → allocation_proxy g.secondary req = some (w, q1) →
      allocator_segregator_proc g req = none) := by
  have hnone := make_allocation_result_of_low w hlow
  refine ⟨?_, ?_, ?_, ?_⟩
  · intro p1 h1
    rcases hreq with rfl | ⟨alignment, rfl⟩
    · simp [allocator_fallback_proc, fallback_allocate, h1, hw, hnone]
    · simp [allocator_fallback_proc, fallback_allocate_aligned, h1, hw, hnone]
  · intro e p1 q1 h1 he h2
    rcases hreq with rfl | ⟨alignment, rfl⟩
    · simp [allocator_fallback_proc, fallback_allocate, h1, he, h2, hw, hnone]
    · simp [allocator_fallback_proc, fallback_allocate_aligned, h1, he, h2, hw, hnone]
  · intro p1 hle h1
    rcases hreq with rfl | ⟨alignment, rfl⟩
    · simp [allocator_segregator_proc, segregator_allocate, hle, h1, hw, hnone]
    · simp [allocator_segregator_proc, segregator_allocate_aligned, hle, h1, hw, hnone]
  · intro q1 hlt h1
    have hnle : ¬ size ≤ g.threshold := by omega
    rcases hreq with rfl | ⟨alignment, rfl⟩
    · simp [allocator_segregator_proc, segregator_allocate, hnle, h1, hw, hnone]
    · simp [allocator_segregator_proc, segregator_allocate_aligned, hnle, h1, hw, hnone]

/-- C30 (witness): the null allocator as primary of a fallback answers
`ALLOCATE(0)` with the word 0, and the fallback aborts. -/
theorem compositor_aborts_on_low_success_witness :
    allocator_fallback_proc
      ({ primary := allocator_null, secondary := counting_child 8192 } :
        allocator_fallback_t Unit Nat) (.ALLOCATE 0) = none :=
  (compositor_aborts_on_low_success
    ({ primary := allocator_null, secondary := counting_child 8192 } :
      allocator_fallback_t Unit Nat)
    ({ primary := allocator_null, secondary := counting_child 8192, threshold := 128 } :
      allocator_segregator_t Unit Nat)
    (.ALLOCATE 0) 0 0 (Or.inl rfl) (by decide) (by decide)).1 allocator_null rfl


/-! ## Round trip and cursor invariant of the stack -/

/-- C24 (as stated, refuted): on a fresh 16-byte stack whose buffer ends at
`2 ^ 64`, `ALLOCATE(16)` succeeds returning `p = 2 ^ 64 - 16`, but the
immediately following `FREE(p)` returns `CALLED_ON_NON_OWNED_MEMORY` and leaves
the cursor at 16: the pointer sum `base + pointer` of `stack_owns` wraps to
0. -/
theorem stack_round_trip_fails_at_address_wrap :
    allocator_stack_proc (allocator_stack_init (2 ^ 64 - 16) 16) (.ALLOCATE ((16 : Nat) : Int)) =
      some (2 ^ 64 - 16, { m_memory := 2 ^ 64 - 16, m_pointer := 16, m_capacity := 16 }) ∧
    allocation_succeeded (2 ^ 64 - 16) = true ∧
    allocator_stack_proc { m_memory := 2 ^ 64 - 16, m_pointer := 16, m_capacity := 16 }
        (.FREE (2 ^ 64 - 16)) =
      some (FREE_STATUS_CALLED_ON_NON_OWNED_MEMORY,
        { m_memory := 2 ^ 64 - 16, m_pointer := 16, m_capacity := 16 }) ∧
    allocator_stack_proc { m_memory := 2 ^ 64 - 16, m_pointer := 16, m_capacity := 16 }
        .QUERY_USED =
      some (16, { m_memory := 2 ^ 64 - 16, m_pointer := 16, m_capacity := 16 }) := by
  refine ⟨?_, by decide, ?_, rfl⟩
  · simp only [allocator_stack_proc]
    rw [stack_allocate_fits _ _ (by decide) (by decide)]
    simp [make_allocation_result, ALLOCATION_QUERY_UNSUPPORTED, allocator_stack_init]
  · simp only [allocator_stack_proc]
    exact stack_free_rejects _ _ (Or.inl (by decide))

/-- C24 (amended): when `ALLOCATE(size)` with `size > 0` succeeds returning `p`
and the allocation ends below the top of the address space
(`base + pointer + size < 2 ^ 64`), the immediately following `FREE(p)`
returns `SUCCEEDED` and the state is again the one before the allocation (the
cursor is restored); on a fresh stack `QUERY_USED` is then 0. -/
theorem stack_round_trip (s t : allocator_stack_t) (size p : Nat)
    (hptr : s.m_pointer < 2 ^ 32) (hc : s.m_capacity < 2 ^ 32) (hpos : 0 < size)
    (hs : size < 2 ^ 63) (hw : s.m_memory + s.m_pointer + size < 2 ^ 64)
    (h : allocator_stack_proc s (.ALLOCATE (size : Int)) = some (p, t))
    (hsucc : allocation_succeeded p = true) :
    allocator_stack_proc t (.FREE p) = some (FREE_STATUS_SUCCEEDED, s) ∧
    (s = allocator_stack_init s.m_memory s.m_capacity →
      allocator_stack_proc s .QUERY_USED = some (0, s)) := by
  obtain ⟨hfit, rfl, rfl⟩ := stack_allocate_succeeded_inv s size p t hptr hc hs h hsucc
  constructor
  · have hfree := stack_free_rewinds
      { m_memory := s.m_memory, m_pointer := s.m_pointer + size, m_capacity := s.m_capacity }
      ((s.m_memory + s.m_pointer) % 2 ^ 64)
      (show s.m_pointer + size < 2 ^ 32 from by omega)
      (show s.m_memory ≤ (s.m_memory + s.m_pointer) % 2 ^ 64 from by omega)
      (show (s.m_memory + s.m_pointer) % 2 ^ 64 <
        (s.m_memory + (s.m_pointer + size)) % 2 ^ 64 from by omega)
    simp only [allocator_stack_proc]
    rw [hfree]
    have e : (s.m_memory + s.m_pointer) % 2 ^ 64 - s.m_memory = s.m_pointer := by omega
    rw [e]
  · intro hfresh
    have hp0 : s.m_pointer = 0 := by
      rw [hfresh]
      rfl
    simp [allocator_stack_proc, make_query_result, stack_used, hp0]

/-- C24 (witness): `ALLOCATE(10)` on a fresh 1024-byte stack at address 8192,
then `FREE(8192)`. -/
theorem stack_round_trip_witness :
    allocator_stack_proc { m_memory := 8192, m_pointer := 10, m_capacity := 1024 }
      (.FREE 8192) = some (FREE_STATUS_SUCCEEDED, allocator_stack_init 8192 1024) :=
  (stack_round_trip (allocator_stack_init 8192 1024)
    { m_memory := 8192, m_pointer := 10, m_capacity := 1024 } 10 8192
    (by decide) (by decide) (by decide) (by decide) (by decide)
    (by
      simp only [allocator_stack_proc]
      rw [stack_allocate_fits _ _ (by decide) (by decide)]
      simp [make_allocation_result, ALLOCATION_QUERY_UNSUPPORTED, allocator_stack_init])
    (by decide)).1

/-- The cast to `u32` keeps the low 32 bits of the cast to `size_t`. -/
theorem toU32_eq_toSizeT_mod (x : Int) : toU32 x = toSizeT x % 2 ^ 32 := by
  unfold toU32 toSizeT
  omega

/-- What a returning `stack_allocate` leaves: base and capacity kept, cursor
within the capacity. -/
theorem stack_allocate_keeps_range (s t : allocator_stack_t) (size : Int) (w : Nat)
    (hp : s.m_pointer ≤ s.m_capacity) (hc : s.m_capacity < 2 ^ 32)
    (h : stack_allocate s size = some (w, t)) :
    t.m_pointer ≤ t.m_capacity ∧ t.m_capacity = s.m_capacity ∧ t.m_memory = s.m_memory := by
  unfold stack_allocate at h
  split at h
  · simp only [make_allocation_error, ALLOCATION_STATUS_OUT_OF_MEMORY,
      ALLOCATION_STATUS_COUNT] at h
    simp at h
    rw [← h.2]
    exact ⟨hp, rfl, rfl⟩
  · rename_i hfit
    simp only [] at h
    cases hres : make_allocation_result ((s.m_memory + s.m_pointer) % 2 ^ 64) with
    | none =>
      rw [hres] at h
      exact absurd h (by simp)
    | some r =>
      rw [hres] at h
      simp only [Option.map_some', Option.some.injEq, Prod.mk.injEq] at h
      rw [← h.2]
      refine ⟨?_, rfl, rfl⟩
      show (s.m_pointer + toU32 size) % 2 ^ 32 ≤ s.m_capacity
      rw [toU32_eq_toSizeT_mod]
      omega

/-- What a returning `stack_allocate_aligned` leaves. -/
theorem stack_allocate_aligned_keeps_range (s t : allocator_stack_t) (size alignment : Int)
    (w : Nat) (hp : s.m_pointer ≤ s.m_capacity) (hc : s.m_capacity < 2 ^ 32)
    (h : stack_allocate_aligned s size alignment = some (w, t)) :
    t.m_pointer ≤ t.m_capacity ∧ t.m_capacity = s.m_capacity ∧ t.m_memory = s.m_memory := by
  unfold stack_allocate_aligned at h
  cases hal : align_address (s.m_memory + s.m_pointer) (toSizeT alignment) with
  | none =>
    rw [hal] at h
    exact absurd h (by simp)
  | some A =>
    rw [hal] at h
    simp only [] at h
    split at h
    · simp only [make_allocation_error, ALLOCATION_STATUS_OUT_OF_MEMORY,
        ALLOCATION_STATUS_COUNT] at h
      simp at h
      rw [← h.2]
      exact ⟨hp, rfl, rfl⟩
    · rename_i hfit
      cases hres : make_allocation_result A with
      | none =>
        rw [hres] at h
        exact absurd h (by simp)
      | some r =>
        rw [hres] at h
        simp only [Option.map_some', Option.some.injEq, Prod.mk.injEq] at h
        rw [← h.2]
        refine ⟨?_, rfl, rfl⟩
        show (s.m_pointer + (toU32 size +
          (A + 2 ^ 64 - (s.m_memory + s.m_pointer)) % 2 ^ 64) % 2 ^ 64) % 2 ^ 32 ≤ s.m_capacity
        rw [toU32_eq_toSizeT_mod]
        omega


/-- What a returning `stack_free` leaves. -/
theorem stack_free_keeps_range (s t : allocator_stack_t) (memory w : Nat)
    (hp : s.m_pointer ≤ s.m_capacity) (hc : s.m_capacity < 2 ^ 32)
    (h : stack_free s memory = some (w, t)) :
    t.m_pointer ≤ t.m_capacity ∧ t.m_capacity = s.m_capacity ∧ t.m_memory = s.m_memory := by
  by_cases hcase :
      ¬ (s.m_memory ≤ memory ∧ memory ≤ (s.m_memory + s.m_pointer) % 2 ^ 64) ∨
      (((s.m_memory + s.m_pointer) % 2 ^ 64 : Nat) : Int) - (memory : Int) ≤ 0
  · rw [stack_free_rejects s memory hcase] at h
    simp only [Option.some.injEq, Prod.mk.injEq] at h
    rw [← h.2]
    exact ⟨hp, rfl, rfl⟩
  · push_neg at hcase
    rw [stack_free_rewinds s memory (by omega) hcase.1.1 (by omega)] at h
    simp only [Option.some.injEq, Prod.mk.injEq] at h
    rw [← h.2]
    refine ⟨?_, rfl, rfl⟩
    show memory - s.m_memory ≤ s.m_capacity
    omega

/-- What a returning `stack_resize` leaves when it is called, as the
dispatcher does, with the old size in both size parameters. -/
theorem stack_resize_same_keeps_range (s t : allocator_stack_t) (memory w : Nat)
    (old_size : Int) (hp : s.m_pointer ≤ s.m_capacity) (hc : s.m_capacity < 2 ^ 32)
    (h : stack_resize s memory old_size old_size = some (w, t)) :
    t.m_pointer ≤ t.m_capacity ∧ t.m_capacity = s.m_capacity ∧ t.m_memory = s.m_memory := by
  unfold stack_resize at h
  split at h
  · exact stack_allocate_keeps_range s t old_size w hp hc h
  · split at h
    · exact absurd h (by simp)
    · rename_i howns
      split at h
      · exact absurd h (by simp)
      · rename_i hold
        have hold2 := not_not.mp hold
        have ho : s.m_memory ≤ memory ∧ memory ≤ (s.m_memory + s.m_pointer) % 2 ^ 64 := by
          simp only [stack_owns, Bool.and_eq_false_imp, decide_eq_true_eq,
            decide_eq_false_iff_not, not_forall, not_not] at howns
          obtain ⟨h1, h2⟩ := howns
          exact ⟨h1, h2⟩
        have hU : toU32 old_size ≤ s.m_pointer := by
          unfold toU32
          omega
        simp only [] at h
        split at h
        · simp only [make_allocation_error, ALLOCATION_STATUS_OUT_OF_MEMORY,
            ALLOCATION_STATUS_COUNT] at h
          simp at h
          rw [← h.2]
          refine ⟨?_, rfl, rfl⟩
          show (s.m_pointer + 2 ^ 32 - toU32 old_size) % 2 ^ 32 ≤ s.m_capacity
          omega
        · cases hres : make_allocation_result
              ((s.m_memory + (s.m_pointer + 2 ^ 32 - toU32 old_size) % 2 ^ 32) % 2 ^ 64) with
          | none =>
            rw [hres] at h
            exact absurd h (by simp)
          | some r =>
            rw [hres] at h
            simp only [Option.map_some', Option.some.injEq, Prod.mk.injEq] at h
            rw [← h.2]
            refine ⟨?_, rfl, rfl⟩
            show ((s.m_pointer + 2 ^ 32 - toU32 old_size) % 2 ^ 32 + toU32 old_size) % 2 ^ 32
              ≤ s.m_capacity
            omega

/-- C27: `pointer <= capacity` holds in the initial state, and every operation
dispatched through `allocator_stack_proc` that returns (for all sizes, all
alignments and all pointer arguments) leaves `pointer <= capacity` and does
not modify capacity and base. -/
theorem stack_cursor_invariant (s t : allocator_stack_t) (req : allocation_arguments_t)
    (w : Nat) (hp : s.m_pointer ≤ s.m_capacity) (hc : s.m_capacity < 2 ^ 32)
    (h : allocator_stack_proc s req = some (w, t)) :
    (t.m_pointer ≤ t.m_capacity ∧ t.m_capacity = s.m_capacity ∧ t.m_memory = s.m_memory) ∧
    (allocator_stack_init s.m_memory s.m_capacity).m_pointer ≤
      (allocator_stack_init s.m_memory s.m_capacity).m_capacity := by
  refine ⟨?_, Nat.zero_le _⟩
  cases req with
  | ALLOCATE size => exact stack_allocate_keeps_range s t size w hp hc h
  | ALLOCATE_ALIGNED size alignment =>
    exact stack_allocate_aligned_keeps_range s t size alignment w hp hc h
  | ALLOCATE_ALL =>
    simp only [allocator_stack_proc, stack_allocate_all] at h
    split at h
    · simp only [make_allocation_error, ALLOCATION_STATUS_OUT_OF_MEMORY,
        ALLOCATION_STATUS_COUNT] at h
      simp at h
      rw [← h.2]
      exact ⟨hp, rfl, rfl⟩
    · cases hres : make_allocation_result ((s.m_memory + s.m_pointer) % 2 ^ 64) with
      | none =>
        rw [hres] at h
        exact absurd h (by simp)
      | some r =>
        rw [hres] at h
        simp only [Option.map_some', Option.some.injEq, Prod.mk.injEq] at h
        rw [← h.2]
        exact ⟨le_refl _, rfl, rfl⟩
  | RESIZE memory new_size old_size =>
    exact stack_resize_same_keeps_range s t memory w old_size hp hc h
  | FREE memory => exact stack_free_keeps_range s t memory w hp hc h
  | FREE_ALL =>
    simp only [allocator_stack_proc, stack_free_all, make_free_status, FREE_STATUS_SUCCEEDED,
      FREE_STATUS_COUNT] at h
    simp at h
    rw [← h.2]
    exact ⟨Nat.zero_le _, rfl, rfl⟩
  | QUERY_USED =>
    simp only [allocator_stack_proc, make_query_result, Option.map_some', Option.some.injEq,
      Prod.mk.injEq] at h
    rw [← h.2]
    exact ⟨hp, rfl, rfl⟩
  | QUERY_OWNS memory =>
    simp only [allocator_stack_proc, make_query_result, Option.map_some', Option.some.injEq,
      Prod.mk.injEq] at h
    rw [← h.2]
    exact ⟨hp, rfl, rfl⟩
  | QUERY_CAPACITY =>
    simp only [allocator_stack_proc, make_query_result, Option.map_some', Option.some.injEq,
      Prod.mk.injEq] at h
    rw [← h.2]
    exact ⟨hp, rfl, rfl⟩
  | QUERY_ALIGNMENT =>
    simp only [allocator_stack_proc, make_query_result, Option.map_some', Option.some.injEq,
      Prod.mk.injEq] at h
    rw [← h.2]
    exact ⟨hp, rfl, rfl⟩
  | QUERY_GOOD_SIZE =>
    simp only [allocator_stack_proc, make_query_result, Option.map_some', Option.some.injEq,
      Prod.mk.injEq] at h
    rw [← h.2]
    exact ⟨hp, rfl, rfl⟩

/-- C27 (witness): `RESIZE(8192, old_size = 16, new_size = 32)` on a stack
holding one 16-byte allocation. -/
theorem stack_cursor_invariant_witness :
    ((16 : Nat) ≤ 1024 ∧ (1024 : Nat) = 1024 ∧ (8192 : Nat) = 8192) ∧
    (allocator_stack_init 8192 1024).m_pointer ≤ (allocator_stack_init 8192 1024).m_capacity :=
  stack_cursor_invariant { m_memory := 8192, m_pointer := 16, m_capacity := 1024 }
    { m_memory := 8192, m_pointer := 16, m_capacity := 1024 }
    (.RESIZE 8192 ((32 : Nat) : Int) ((16 : Nat) : Int)) 8192 (by decide) (by decide)
    (by
      simp only [allocator_stack_proc, stack_resize, toU32_natCast]
      simp [stack_owns, make_allocation_result, ALLOCATION_QUERY_UNSUPPORTED])


/-! ## The partition of result words -/

/-- A word that passed `make_allocation_result` is above `4096`. -/
theorem allocation_result_word_inv {σ : Type} (m w : Nat) (st t : σ)
    (h : (make_allocation_result m).map (fun r => (r, st)) = some (w, t)) : 4096 < w := by
  unfold make_allocation_result at h
  split at h
  · rename_i hm
    simp only [Option.map_some', Option.some.injEq, Prod.mk.injEq] at h
    rw [← h.1]
    exact hm.1
  · exact absurd h (by simp)

/-- A word that passed `make_allocation_error` is the status, below `4`. -/
theorem allocation_error_word_inv {σ : Type} (c w : Nat) (st t : σ)
    (h : (make_allocation_error c).map (fun r => (r, st)) = some (w, t)) : w = c ∧ c < 4 := by
  unfold make_allocation_error ALLOCATION_STATUS_COUNT at h
  split at h
  · rename_i hc
    simp only [Option.map_some', Option.some.injEq, Prod.mk.injEq] at h
    exact ⟨h.1.symm, hc⟩
  · exact absurd h (by simp)

/-- A pointer word lies in the second class only. -/
theorem partition_of_pointer (w : Nat) (h : 4096 < w) :
    w ≠ 0 ∧ allocation_word_partition w := by
  unfold allocation_word_partition exactly_one
  refine ⟨by omega, Or.inr (Or.inl ⟨by omega, by omega, ?_⟩)⟩
  intro hc
  omega

/-- A nonzero word below `4` lies in the third class only. -/
theorem partition_of_error (w : Nat) (h0 : w ≠ 0) (h4 : w < 4) :
    w ≠ 0 ∧ allocation_word_partition w := by
  unfold allocation_word_partition exactly_one ALLOCATION_STATUS_OUT_OF_MEMORY
    ALLOCATION_STATUS_UNSUPPORTED_OPERATION ALLOCATION_STATUS_NON_OWNED_MEMORY
  refine ⟨h0, Or.inr (Or.inr ⟨h0, by omega, by omega, ?_⟩)⟩
  omega

/-- A word rejected by `allocation_succeeded` is one of `1`, `2`, `3`. -/
theorem allocation_failed_word (w : Nat) (h : allocation_succeeded w = false) :
    w ≠ 0 ∧ w < 4 := by
  unfold allocation_succeeded ALLOCATION_STATUS_SUCCEEDED ALLOCATION_STATUS_COUNT at h
  simp at h
  omega

/-- The result word of a returning `stack_allocate`. -/
theorem stack_allocate_word (s t : allocator_stack_t) (size : Int) (w : Nat)
    (h : stack_allocate s size = some (w, t)) : w ≠ 0 ∧ allocation_word_partition w := by
  unfold stack_allocate at h
  split at h
  · have := allocation_error_word_inv _ _ _ _ h
    exact partition_of_error w (by rw [this.1]; decide) (by rw [this.1]; decide)
  · exact partition_of_pointer w (allocation_result_word_inv _ _ _ _ h)

/-- The result word of a returning `freelist_allocate`. -/
theorem freelist_allocate_word (s t : allocator_freelist_t) (size : Int) (w : Nat)
    (h : freelist_allocate s size = some (w, t)) : w ≠ 0 ∧ allocation_word_partition w := by
  unfold freelist_allocate at h
  split at h
  · exact absurd h (by simp)
  · split at h
    · have := allocation_error_word_inv _ _ _ _ h
      exact partition_of_error w (by rw [this.1]; decide) (by rw [this.1]; decide)
    · simp only [] at h
      split at h
      · exact absurd h (by simp)
      · exact partition_of_pointer w (allocation_result_word_inv _ _ _ _ h)

/-- The result word of a compositor that forwards a child's failure word. -/
theorem forwarded_error_word {σ : Type} (r w : Nat) (st t : σ)
    (hr : allocation_succeeded r = false)
    (h : (make_allocation_error (r % 2 ^ 32)).map (fun x => (x, st)) = some (w, t)) :
    w ≠ 0 ∧ allocation_word_partition w := by
  have h1 := allocation_failed_word r hr
  have h2 := allocation_error_word_inv _ _ _ _ h
  exact partition_of_error w (by omega) (by omega)

/-- The result word of a returning `fallback_allocate` or
`fallback_allocate_aligned`, stated for the request both forward. -/
theorem fallback_allocate_word {σ₁ σ₂ : Type} (a t : allocator_fallback_t σ₁ σ₂)
    (req : allocation_arguments_t) (w : Nat)
    (h : (match allocation_proxy a.primary req with
      | none => none
      | some (result, primary1) =>
        if allocation_succeeded result = false then
          match allocation_proxy a.secondary req with
          | none => none
          | some (result2, secondary1) =>
            let allocator1 : allocator_fallback_t σ₁ σ₂ :=
              { primary := primary1, secondary := secondary1 }
            if allocation_succeeded result2 = false then
              (make_allocation_error (result2 % 2 ^ 32)).map (fun r => (r, allocator1))
            else (make_allocation_result result2).map (fun r => (r, allocator1))
        else
          (make_allocation_result result).map
            (fun r => (r, { a with primary := primary1 }))) = some (w, t)) :
    w ≠ 0 ∧ allocation_word_partition w := by
  split at h
  · exact absurd h (by simp)
  · split at h
    · split at h
      · exact absurd h (by simp)
      · simp only [] at h
        split at h
        · rename_i hr
          exact forwarded_error_word _ w _ t hr h
        · exact partition_of_pointer w (allocation_result_word_inv _ _ _ _ h)
    · exact partition_of_pointer w (allocation_result_word_inv _ _ _ _ h)

/-- The result word of a returning `segregator_allocate` or
`segregator_allocate_aligned`, stated for the request both forward. -/
theorem segregator_allocate_word {σ₁ σ₂ : Type} (a t : allocator_segregator_t σ₁ σ₂)
    (req : allocation_arguments_t) (size : Int) (w : Nat)
    (h : (if size ≤ a.threshold then
        match allocation_proxy a.primary req with
        | none => none
        | some (memory, primary1) =>
          if allocation_succeeded memory = false then
            (make_allocation_error (memory % 2 ^ 32)).map
              (fun r => (r, { a with primary := primary1 }))
          else
            (make_allocation_result memory).map
              (fun r => (r, { a with primary := primary1 }))
      else
        match allocation_proxy a.secondary req with
        | none => none
        | some (memory, secondary1) =>
          if allocation_succeeded memory = false then
            (make_allocation_error (memory % 2 ^ 32)).map
              (fun r => (r, { a with secondary := secondary1 }))
          else
            (make_allocation_result memory).map
              (fun r => (r, { a with secondary := secondary1 }))) = some (w, t)) :
    w ≠ 0 ∧ allocation_word_partition w := by
  split at h
  · split at h
    · exact absurd h (by simp)
    · split at h
      · rename_i hr
        exact forwarded_error_word _ w _ t hr h
      · exact partition_of_pointer w (allocation_result_word_inv _ _ _ _ h)
  · split at h
    · exact absurd h (by simp)
    · split at h
      · rename_i hr
        exact forwarded_error_word _ w _ t hr h
      · exact partition_of_pointer w (allocation_result_word_inv _ _ _ _ h)

/-- C22: for every allocating request (`ALLOCATE`, `ALLOCATE_ALIGNED`,
`ALLOCATE_ALL`, `RESIZE`), every state and every child pair, a call of the
stack, free-list, null, fallback or segregator procedure that returns yields a
word in exactly one of the classes "zero", "4096 or more", "below 4096 and one
of OUT_OF_MEMORY, UNSUPPORTED_OPERATION, NON_OWNED_MEMORY"; the zero word is
returned by the null allocator only. -/
theorem allocation_result_partition (req : allocation_arguments_t)
    (hreq : is_allocating_call req = true) :
    (∀ (s t : allocator_stack_t) (w : Nat), allocator_stack_proc s req = some (w, t) →
      w ≠ 0 ∧ allocation_word_partition w) ∧
    (∀ (s t : allocator_freelist_t) (w : Nat), allocator_freelist_proc s req = some (w, t) →
      w ≠ 0 ∧ allocation_word_partition w) ∧
    (∀ (u v : Unit) (w : Nat), allocator_null_proc u req = some (w, v) →
      allocation_word_partition w) ∧
    (∀ (σ₁ σ₂ : Type) (a t : allocator_fallback_t σ₁ σ₂) (w : Nat),
      allocator_fallback_proc a req = some (w, t) → w ≠ 0 ∧ allocation_word_partition w) ∧
    (∀ (σ₁ σ₂ : Type) (a t : allocator_segregator_t σ₁ σ₂) (w : Nat),
      allocator_segregator_proc a req = some (w, t) → w ≠ 0 ∧ allocation_word_partition w) := by
  have herr : ∀ {σ : Type} (c w : Nat) (st t : σ), c ≠ 0 →
      (make_allocation_error c).map (fun r => (r, st)) = some (w, t) →
      w ≠ 0 ∧ allocation_word_partition w := by
    intro σ c w st t hc h
    have := allocation_error_word_inv _ _ _ _ h
    exact partition_of_error w (by omega) (by omega)
  have hzero : allocation_word_partition 0 := by
    unfold allocation_word_partition exactly_one ALLOCATION_STATUS_OUT_OF_MEMORY
      ALLOCATION_STATUS_UNSUPPORTED_OPERATION ALLOCATION_STATUS_NON_OWNED_MEMORY
    exact Or.inl ⟨rfl, by omega, by omega⟩
  have hnull : ∀ (c : Prop) [Decidable c] (u v : Unit) (w : Nat),
      (if c then some (0, u)
        else (make_allocation_error ALLOCATION_STATUS_OUT_OF_MEMORY).map (fun r => (r, u)))
        = some (w, v) → allocation_word_partition w := by
    intro c _ u v w h
    split at h
    · simp only [Option.some.injEq, Prod.mk.injEq] at h
      rw [← h.1]
      exact hzero
    · exact (herr _ w _ _ (by decide) h).2
  cases req with
  | ALLOCATE size =>
    refine ⟨?_, ?_, ?_, ?_, ?_⟩
    · intro s t w h
      exact stack_allocate_word s t size w h
    · intro s t w h
      exact freelist_allocate_word s t size w h
    · intro u v w h
      exact hnull _ u v w h
    · intro σ₁ σ₂ a t w h
      exact fallback_allocate_word a t (.ALLOCATE size) w h
    · intro σ₁ σ₂ a t w h
      exact segregator_allocate_word a t (.ALLOCATE size) size w h
  | ALLOCATE_ALIGNED size alignment =>
    refine ⟨?_, ?_, ?_, ?_, ?_⟩
    · intro s t w h
      simp only [allocator_stack_proc, stack_allocate_aligned] at h
      split at h
      · exact absurd h (by simp)
      · split at h
        · exact herr _ w _ _ (by decide) h
        · exact partition_of_pointer w (allocation_result_word_inv _ _ _ _ h)
    · intro s t w h
      simp only [allocator_freelist_proc] at h
      split at h
      · exact absurd h (by simp)
      · exact freelist_allocate_word s t size w h
    · intro u v w h
      exact hnull _ u v w h
    · intro σ₁ σ₂ a t w h
      exact fallback_allocate_word a t (.ALLOCATE_ALIGNED size alignment) w h
    · intro σ₁ σ₂ a t w h
      exact segregator_allocate_word a t (.ALLOCATE_ALIGNED size alignment) size w h
  | ALLOCATE_ALL =>
    refine ⟨?_, ?_, ?_, ?_, ?_⟩
    · intro s t w h
      simp only [allocator_stack_proc, stack_allocate_all] at h
      split at h
      · exact herr _ w _ _ (by decide) h
      · exact partition_of_pointer w (allocation_result_word_inv _ _ _ _ h)
    · intro s t w h
      simp only [allocator_freelist_proc] at h
      exact herr _ w _ _ (by decide) h
    · intro u v w h
      simp only [allocator_null_proc, Option.some.injEq, Prod.mk.injEq] at h
      rw [← h.1]
      exact hzero
    · intro σ₁ σ₂ a t w h
      simp only [allocator_fallback_proc] at h
      exact herr _ w _ _ (by decide) h
    · intro σ₁ σ₂ a t w h
      simp only [allocator_segregator_proc] at h
      exact herr _ w _ _ (by decide) h
  | RESIZE memory new_size old_size =>
    refine ⟨?_, ?_, ?_, ?_, ?_⟩
    · intro s t w h
      simp only [allocator_stack_proc, stack_resize] at h
      split at h
      · exact stack_allocate_word s t old_size w h
      · split at h
        · exact absurd h (by simp)
        · split at h
          · exact absurd h (by simp)
          · split at h
            · exact herr _ w _ _ (by decide) h
            · exact partition_of_pointer w (allocation_result_word_inv _ _ _ _ h)
    · intro s t w h
      simp [allocator_freelist_proc, freelist_resize] at h
    · intro u v w h
      exact hnull _ u v w h
    · intro σ₁ σ₂ a t w h
      simp [allocator_fallback_proc, fallback_resize] at h
    · intro σ₁ σ₂ a t w h
      simp [allocator_segregator_proc, segregator_resize] at h
  | FREE memory => exact absurd hreq (by simp [is_allocating_call])
  | FREE_ALL => exact absurd hreq (by decide)
  | QUERY_USED => exact absurd hreq (by decide)
  | QUERY_OWNS memory => exact absurd hreq (by simp [is_allocating_call])
  | QUERY_CAPACITY => exact absurd hreq (by decide)
  | QUERY_ALIGNMENT => exact absurd hreq (by decide)
  | QUERY_GOOD_SIZE => exact absurd hreq (by decide)

/-- C22 (witness): `ALLOCATE(16)` on a fresh stack over 1024 bytes at 8192
returns the pointer 8192. -/
theorem allocation_result_partition_witness :
    is_allocating_call (.ALLOCATE ((16 : Nat) : Int)) = true ∧
    allocator_stack_proc (allocator_stack_init 8192 1024) (.ALLOCATE ((16 : Nat) : Int)) =
      some (8192, { m_memory := 8192, m_pointer := 16, m_capacity := 1024 }) ∧
    (8192 : Nat) ≠ 0 ∧ allocation_word_partition 8192 :=
  have hrun : allocator_stack_proc (allocator_stack_init 8192 1024)
      (.ALLOCATE ((16 : Nat) : Int)) =
      some (8192, { m_memory := 8192, m_pointer := 16, m_capacity := 1024 }) := by
    simp only [allocator_stack_proc, stack_allocate, toU32_natCast, toSizeT_natCast]
    simp [allocator_stack_init, make_allocation_result, ALLOCATION_QUERY_UNSUPPORTED]
  ⟨rfl, hrun,
    (allocation_result_partition (.ALLOCATE ((16 : Nat) : Int)) rfl).1 _ _ _ hrun⟩


/-! ## The alignment helpers -/

/-- On a positive size, a power-of-two alignment below `2 ^ 63` and a sum that
stays a positive `word_t`, `round_to_aligned` passes its assertion and rounds
the size up by division. -/
theorem round_to_aligned_pow (x k : Nat) (hx : 0 < x) (hk : k < 63)
    (hov : x + (2 ^ k - 1) < 2 ^ 63) :
    round_to_aligned (x : Int) ((2 ^ k : Nat) : Int) =
      some (((x + (2 ^ k - 1)) / 2 ^ k * 2 ^ k : Nat) : Int) := by
  have hpos : 0 < 2 ^ k := by positivity
  have hle : 2 ^ k ≤ 2 ^ 62 := Nat.pow_le_pow_right (by decide) (by omega)
  have hsum : (x : Int) + (((2 ^ k : Nat) : Int) - 1) = ((x + (2 ^ k - 1) : Nat) : Int) := by
    omega
  have hneg : toSizeT (-((2 ^ k : Nat) : Int)) = 2 ^ 64 - 1 - (2 ^ k - 1) := by
    unfold toSizeT
    generalize 2 ^ k = P at hpos hle
    omega
  have hr := (round_up_least x (2 ^ k) hpos).2.2.1
  unfold round_to_aligned
  rw [if_pos (by omega), hsum, toSizeT_natCast, Nat.mod_eq_of_lt (by omega), hneg,
    and_not_mask _ k (by omega) (by omega)]
  unfold ofSizeT
  rw [if_pos]
  generalize (x + (2 ^ k - 1)) / 2 ^ k * 2 ^ k = r at hr
  generalize 2 ^ k = P at hpos hle hr hov
  omega

/-- C28: for a power-of-two alignment `a = 2 ^ k` and a value `x > 0`,
`round_to_aligned(x, a)` (when `x + a - 1` stays a positive `word_t`) and
`align_address(x, a)` (when `x + a - 1` stays a `size_t`) both return the
least multiple `r` of `a` at or above `x`: `r % a == 0`, `x <= r < x + a`, and
no multiple of `a` lies in `[x, r)`. -/
theorem alignment_helpers_round_up (x k : Nat) (hx : 0 < x) :
    (k < 63 → x + (2 ^ k - 1) < 2 ^ 63 →
      round_to_aligned (x : Int) ((2 ^ k : Nat) : Int) =
        some (((x + (2 ^ k - 1)) / 2 ^ k * 2 ^ k : Nat) : Int)) ∧
    (k < 64 → x + (2 ^ k - 1) < 2 ^ 64 →
      align_address x (2 ^ k) = some ((x + (2 ^ k - 1)) / 2 ^ k * 2 ^ k)) ∧
    ((x + (2 ^ k - 1)) / 2 ^ k * 2 ^ k) % 2 ^ k = 0 ∧
    x ≤ (x + (2 ^ k - 1)) / 2 ^ k * 2 ^ k ∧
    (x + (2 ^ k - 1)) / 2 ^ k * 2 ^ k < x + 2 ^ k ∧
    (∀ m, m % 2 ^ k = 0 → x ≤ m → (x + (2 ^ k - 1)) / 2 ^ k * 2 ^ k ≤ m) := by
  have hpos : 0 < 2 ^ k := by positivity
  obtain ⟨h1, h2, h3, h4⟩ := round_up_least x (2 ^ k) hpos
  refine ⟨fun hk hov => round_to_aligned_pow x k hx hk hov,
    fun hk hov => align_address_pow x k (by omega) hov,
    Nat.mod_eq_zero_of_dvd h1, h2, h3, ?_⟩
  intro m hm hle
  exact h4 m (Nat.dvd_of_mod_eq_zero hm) hle

/-- C28 (witness): `x = 13`, `a = 8` round up to 16. -/
theorem alignment_helpers_round_up_witness :
    (0 : Nat) < 13 ∧
    round_to_aligned ((13 : Nat) : Int) ((2 ^ 3 : Nat) : Int) = some ((16 : Nat) : Int) ∧
    align_address 13 (2 ^ 3) = some 16 :=
  have h := alignment_helpers_round_up 13 3 (by decide)
  ⟨by decide, h.1 (by decide) (by decide), h.2.1 (by decide) (by decide)⟩


/-! ## `FREE_ALL` twice -/

/-- Zeroing the same bytes twice is zeroing them once. -/
theorem memset_zero_idem (heap : Nat → Nat) (n : Nat) :
    memset_zero (memset_zero heap n) n = memset_zero heap n := by
  funext off
  unfold memset_zero
  split <;> rfl

/-- C23 (as stated, refuted): a free list of two cells of `2 ^ 31` bytes at
8192, initialised over memory holding the word 7 everywhere.  `FREE_ALL`
returns SUCCEEDED, but the `u32` capacity is 0, so no byte is zeroed and the
header of cell 0 still holds 7: the buffer is not all zero. -/
theorem freelist_free_all_leaves_buffer :
    freelist_init (fun _ => 7) 8192 (2 ^ 31) 2 =
      some { m_memory := 8192, m_first_free := 0, m_block_size := 2 ^ 31, m_count := 2,
             m_used := 0, heap := memset_zero (fun _ => 7) 0 } ∧
    allocator_freelist_proc
        { m_memory := 8192, m_first_free := 0, m_block_size := 2 ^ 31, m_count := 2,
          m_used := 0, heap := memset_zero (fun _ => 7) 0 } .FREE_ALL =
      some (FREE_STATUS_SUCCEEDED,
        { m_memory := 8192, m_first_free := 0, m_block_size := 2 ^ 31, m_count := 2,
          m_used := 0, heap := memset_zero (memset_zero (fun _ => 7) 0) 0 }) ∧
    (0 : Nat) < 2 * 2 ^ 31 ∧ memset_zero (memset_zero (fun _ => 7) 0) 0 0 = 7 := by
  refine ⟨by simp [freelist_init, freelist_capacity], ?_, by decide, ?_⟩
  · simp [allocator_freelist_proc, freelist_free_all, make_free_status,
      FREE_STATUS_SUCCEEDED, FREE_STATUS_COUNT, freelist_capacity]
  · simp [memset_zero]

/-- C23 (amended): for every stack state and every free-list state (buffer
contents included), `FREE_ALL` returns SUCCEEDED, and a second `FREE_ALL`
returns SUCCEEDED and leaves exactly the state the first one produced.  For
the stack that state has `pointer == 0` and is the freshly initialised one.
For the free list it has `first_free == 0`, `used == 0`, the first
`freelist_capacity` bytes zero (the whole buffer whenever `block_size * count`
fits in a `u32`), and it is the state `freelist_init` builds over the same
memory whenever the block size is a multiple of 4. -/
theorem free_all_idempotent (s : allocator_stack_t) (f : allocator_freelist_t) :
    (∃ t, allocator_stack_proc s .FREE_ALL = some (FREE_STATUS_SUCCEEDED, t) ∧
      allocator_stack_proc t .FREE_ALL = some (FREE_STATUS_SUCCEEDED, t) ∧
      t.m_pointer = 0 ∧ t = allocator_stack_init s.m_memory s.m_capacity) ∧
    (∃ g, allocator_freelist_proc f .FREE_ALL = some (FREE_STATUS_SUCCEEDED, g) ∧
      allocator_freelist_proc g .FREE_ALL = some (FREE_STATUS_SUCCEEDED, g) ∧
      g.m_first_free = 0 ∧ g.m_used = 0 ∧
      (∀ off, off < freelist_capacity f → g.heap off = 0) ∧
      (f.m_block_size * f.m_count < 2 ^ 32 →
        ∀ off, off < f.m_block_size * f.m_count → g.heap off = 0) ∧
      (f.m_block_size % 4 = 0 →
        freelist_init f.heap f.m_memory f.m_block_size f.m_count = some g)) := by
  constructor
  · refine ⟨{ s with m_pointer := 0 }, ?_, ?_, rfl, rfl⟩
    · simp [allocator_stack_proc, stack_free_all, make_free_status, FREE_STATUS_SUCCEEDED,
        FREE_STATUS_COUNT]
    · simp [allocator_stack_proc, stack_free_all, make_free_status, FREE_STATUS_SUCCEEDED,
        FREE_STATUS_COUNT]
  · refine ⟨{ f with m_first_free := 0, m_used := 0,
                     heap := memset_zero f.heap (freelist_capacity f) }, ?_, ?_, rfl, rfl,
      ?_, ?_, ?_⟩
    · simp [allocator_freelist_proc, freelist_free_all, make_free_status,
        FREE_STATUS_SUCCEEDED, FREE_STATUS_COUNT, freelist_capacity]
    · simp only [allocator_freelist_proc, freelist_free_all, make_free_status,
        FREE_STATUS_SUCCEEDED, FREE_STATUS_COUNT, freelist_capacity]
      simp only [show (0 : Nat) < 3 from by decide, if_true, Option.map_some',
        memset_zero_idem]
    · intro off hoff
      show memset_zero f.heap (freelist_capacity f) off = 0
      unfold memset_zero
      rw [if_pos hoff]
    · intro hfit off hoff
      show memset_zero f.heap (freelist_capacity f) off = 0
      unfold memset_zero freelist_capacity
      rw [Nat.mod_eq_of_lt hfit, if_pos hoff]
    · intro hb
      unfold freelist_init
      rw [if_pos hb]
      rfl

/-- C23 (witness): a free list of 16 cells of 64 bytes with every header
nonzero: after `FREE_ALL` the 1024 bytes of the buffer are zero and the state
is the freshly initialised one. -/
theorem free_all_idempotent_witness :
    ∃ g, allocator_freelist_proc
        { m_memory := 8192, m_first_free := 3, m_block_size := 64, m_count := 16,
          m_used := 5, heap := fun _ => 7 } .FREE_ALL = some (FREE_STATUS_SUCCEEDED, g) ∧
      allocator_freelist_proc g .FREE_ALL = some (FREE_STATUS_SUCCEEDED, g) ∧
      (∀ off, off < 64 * 16 → g.heap off = 0) ∧
      freelist_init (fun _ => 7) 8192 64 16 = some g := by
  obtain ⟨g, h1, h2, _, _, _, h6, h7⟩ :=
    (free_all_idempotent (allocator_stack_init 8192 1024)
      { m_memory := 8192, m_first_free := 3, m_block_size := 64, m_count := 16,
        m_used := 5, heap := fun _ => 7 }).2
  exact ⟨g, h1, h2, h6 (by decide), h7 (by decide)⟩


/-! ## The range invariant of the free list -/

/-- What a returning `freelist_allocate` leaves: the state is unchanged, or
the head cell was popped. -/
theorem freelist_allocate_cases (s t : allocator_freelist_t) (size : Int) (w : Nat)
    (h : freelist_allocate s size = some (w, t)) :
    t = s ∨
    (s.m_first_free < freelist_capacity s ∧
      t = { s with
        m_first_free :=
          if s.heap ((s.m_first_free * s.m_block_size) % 2 ^ 32) = 0
          then (s.m_first_free + 1) % 2 ^ 32
          else s.heap ((s.m_first_free * s.m_block_size) % 2 ^ 32) - 1
        m_used := (s.m_used + 1) % 2 ^ 32 }) := by
  unfold freelist_allocate at h
  split at h
  · exact absurd h (by simp)
  · split at h
    · left
      simp only [make_allocation_error, ALLOCATION_STATUS_OUT_OF_MEMORY,
        ALLOCATION_STATUS_COUNT] at h
      simp at h
      exact h.2.symm
    · rename_i hcap
      right
      simp only [] at h
      split at h
      · exact absurd h (by simp)
      · cases hres : make_allocation_result
            ((s.m_memory + (s.m_first_free * s.m_block_size) % 2 ^ 32) % 2 ^ 64) with
        | none =>
          rw [hres] at h
          exact absurd h (by simp)
        | some r =>
          rw [hres] at h
          simp only [Option.map_some', Option.some.injEq, Prod.mk.injEq] at h
          exact ⟨by omega, h.2.symm⟩

/-- What a returning `freelist_free` leaves: the byte offset of the pointer is
at most the `u32` capacity, its header received `first_free + 1`, the cell
index became the head and `used` went down by one in `u32`. -/
theorem freelist_free_cases (s t : allocator_freelist_t) (memory w : Nat)
    (h : freelist_free s memory = some (w, t)) :
    ∃ offset, offset ≤ (s.m_count * s.m_block_size) % 2 ^ 32 ∧ 0 < s.m_block_size ∧
      t = { s with
        heap := fun off =>
          if off = offset then (s.m_first_free + 1) % 2 ^ 32 else s.heap off
        m_first_free := offset / s.m_block_size
        m_used := (s.m_used + 2 ^ 32 - 1) % 2 ^ 32 } := by
  unfold freelist_free at h
  split at h
  · exact absurd h (by simp)
  · rename_i howns
    split at h
    · exact absurd h (by simp)
    · simp only [] at h
      split at h
      · exact absurd h (by simp)
      · rename_i hB
        split at h
        · exact absurd h (by simp)
        · split at h
          · exact absurd h (by simp)
          · simp only [make_free_status, FREE_STATUS_SUCCEEDED, FREE_STATUS_COUNT] at h
            simp at h
            have ho : s.m_memory ≤ memory ∧
                memory ≤ (s.m_memory + (s.m_count * s.m_block_size) % 2 ^ 32) % 2 ^ 64 := by
              simp only [freelist_owns, Bool.and_eq_false_imp, decide_eq_true_eq,
                decide_eq_false_iff_not, not_forall, not_not] at howns
              obtain ⟨h1, h2⟩ := howns
              exact ⟨h1, h2⟩
            refine ⟨toU32 ((memory : Int) - (s.m_memory : Int)), ?_, by omega, h.2.symm⟩
            have hlt := Nat.mod_lt (s.m_count * s.m_block_size)
              (show 0 < 2 ^ 32 from by decide)
            generalize (s.m_count * s.m_block_size) % 2 ^ 32 = cap at ho hlt
            unfold toU32
            omega

/-- C26 (as stated, refuted): on the freshly initialised free list of 16 cells
of 64 bytes at 8192, where `first_free = 0 <= N` and `used = 0 <= N`, the call
`FREE(8192)` passes the ownership and cell-alignment checks and returns
SUCCEEDED, leaving `used = 2 ^ 32 - 1 > N`. -/
theorem freelist_free_breaks_used_range :
    freelist_init (fun _ => 0) 8192 64 16 =
      some { m_memory := 8192, m_first_free := 0, m_block_size := 64, m_count := 16,
             m_used := 0, heap := memset_zero (fun _ => 0) 1024 } ∧
    allocator_freelist_proc
        { m_memory := 8192, m_first_free := 0, m_block_size := 64, m_count := 16,
          m_used := 0, heap := memset_zero (fun _ => 0) 1024 } (.FREE 8192) =
      some (FREE_STATUS_SUCCEEDED,
        { m_memory := 8192, m_first_free := 0, m_block_size := 64, m_count := 16,
          m_used := 4294967295,
          heap := fun off => if off = 0 then 1 else memset_zero (fun _ => 0) 1024 off }) ∧
    ¬ ((4294967295 : Nat) ≤ 16) := by
  refine ⟨by simp [freelist_init, freelist_capacity], ?_, by decide⟩
  exact freelist_free_step
    { m_memory := 8192, m_first_free := 0, m_block_size := 64, m_count := 16,
      m_used := 0, heap := memset_zero (fun _ => 0) 1024 } 0 (by decide) (by decide)
    (by decide) (by decide) (by decide) (by decide)
    (align_address_four _ (by decide) (by decide))

/-- The cursor after `ALLOCATE` is read from the header of the head cell: on a
free list of 16 cells of 64 bytes at 8192 with `first_free = 1`, `used = 1`
and the value 100 in the header of cell 1, `ALLOCATE(16)` returns cell 1 and
leaves `first_free = 99 > N`. -/
theorem freelist_allocate_follows_header :
    allocator_freelist_proc
        { m_memory := 8192, m_first_free := 1, m_block_size := 64, m_count := 16,
          m_used := 1, heap := fun off => if off = 64 then 100 else 0 } (.ALLOCATE 16) =
      some (8256,
        { m_memory := 8192, m_first_free := 99, m_block_size := 64, m_count := 16,
          m_used := 2, heap := fun off => if off = 64 then 100 else 0 }) ∧
    ¬ ((99 : Nat) ≤ 16) := by
  refine ⟨?_, by decide⟩
  exact (freelist_allocate_step _ 16 1 rfl (by decide) (by decide) (by decide)
    ⟨align_address_four _ (by decide) (by decide),
      make_allocation_result_of_range _ (by decide) (by decide)⟩).trans rfl

/-- C26 (amended): from a free-list state with `first_free <= N` and
`used <= N`, every operation dispatched through `allocator_freelist_proc` that
returns keeps `N`.  `FREE_ALL`, the queries and `ALLOCATE_ALL` keep
`first_free <= N` and `used <= N`.  A returning `FREE` keeps `first_free <= N`,
and keeps `used <= N` when `used >= 1` before the call.  A returning
`ALLOCATE` or `ALLOCATE_ALIGNED` keeps `used <= N` when `used < N` before the
call, and keeps `first_free <= N` when `first_free < N` before the call and
the header of the head cell (the `u32` the call reads at byte offset
`first_free * B`) is at most `N + 1`.  The freshly initialised state has
`first_free = 0` and `used = 0`. -/
theorem freelist_range_invariant (s t : allocator_freelist_t) (req : allocation_arguments_t)
    (w : Nat) (hr : freelist_in_range s)
    (h : allocator_freelist_proc s req = some (w, t)) :
    t.m_count = s.m_count ∧
    (is_cell_request req = true →
      (s.m_used < s.m_count → t.m_used ≤ t.m_count) ∧
      (s.m_first_free < s.m_count →
        s.heap ((s.m_first_free * s.m_block_size) % 2 ^ 32) ≤ s.m_count + 1 →
        t.m_first_free ≤ t.m_count)) ∧
    ((∃ memory, req = .FREE memory) →
      t.m_first_free ≤ t.m_count ∧ (1 ≤ s.m_used → t.m_used ≤ t.m_count)) ∧
    (is_cell_request req = false → (∀ memory, req ≠ .FREE memory) → freelist_in_range t) ∧
    (∀ heap memory block_size count g, freelist_init heap memory block_size count = some g →
      g.m_first_free = 0 ∧ g.m_used = 0 ∧ g.m_count = count ∧ freelist_in_range g) := by
  have hinit : ∀ heap memory block_size count g,
      freelist_init heap memory block_size count = some g →
      g.m_first_free = 0 ∧ g.m_used = 0 ∧ g.m_count = count ∧ freelist_in_range g := by
    intro heap memory block_size count g hg
    unfold freelist_init at hg
    split at hg
    · simp only [Option.some.injEq] at hg
      rw [← hg]
      exact ⟨rfl, rfl, rfl, ⟨Nat.zero_le _, Nat.zero_le _⟩⟩
    · exact absurd hg (by simp)
  have halloc : ∀ size, freelist_allocate s size = some (w, t) →
      t.m_count = s.m_count ∧
      (s.m_used < s.m_count → t.m_used ≤ t.m_count) ∧
      (s.m_first_free < s.m_count →
        s.heap ((s.m_first_free * s.m_block_size) % 2 ^ 32) ≤ s.m_count + 1 →
        t.m_first_free ≤ t.m_count) := by
    intro size ha
    rcases freelist_allocate_cases s t size w ha with ht | ⟨hcap, ht⟩
    · rw [ht]
      exact ⟨rfl, fun _ => hr.2, fun _ _ => hr.1⟩
    · rw [ht]
      refine ⟨rfl, ?_, ?_⟩
      · intro hused
        show (s.m_used + 1) % 2 ^ 32 ≤ s.m_count
        have := Nat.mod_le (s.m_used + 1) (2 ^ 32)
        omega
      · intro hff hhead
        show (if s.heap ((s.m_first_free * s.m_block_size) % 2 ^ 32) = 0
          then (s.m_first_free + 1) % 2 ^ 32
          else s.heap ((s.m_first_free * s.m_block_size) % 2 ^ 32) - 1) ≤ s.m_count
        split
        · have := Nat.mod_le (s.m_first_free + 1) (2 ^ 32)
          omega
        · omega
  have hsame : t = s → t.m_count = s.m_count ∧ freelist_in_range t := by
    intro ht
    rw [ht]
    exact ⟨rfl, hr⟩
  have hquery : ∀ r, (make_query_result r).map (fun x => (x, s)) = some (w, t) → t = s := by
    intro r hq
    simp only [make_query_result, Option.map_some', Option.some.injEq, Prod.mk.injEq] at hq
    exact hq.2.symm
  have hother : ∀ r : allocation_arguments_t, is_cell_request r = false →
      (∀ memory, r ≠ .FREE memory) → t = s →
      t.m_count = s.m_count ∧
      (is_cell_request r = true →
        (s.m_used < s.m_count → t.m_used ≤ t.m_count) ∧
        (s.m_first_free < s.m_count →
          s.heap ((s.m_first_free * s.m_block_size) % 2 ^ 32) ≤ s.m_count + 1 →
          t.m_first_free ≤ t.m_count)) ∧
      ((∃ memory, r = .FREE memory) →
        t.m_first_free ≤ t.m_count ∧ (1 ≤ s.m_used → t.m_used ≤ t.m_count)) ∧
      (is_cell_request r = false → (∀ memory, r ≠ .FREE memory) → freelist_in_range t) ∧
      (∀ heap memory block_size count g, freelist_init heap memory block_size count = some g →
        g.m_first_free = 0 ∧ g.m_used = 0 ∧ g.m_count = count ∧ freelist_in_range g) := by
    intro r hcell hfree ht
    obtain ⟨h1, h2⟩ := hsame ht
    refine ⟨h1, ?_, ?_, fun _ _ => h2, hinit⟩
    · intro hf
      rw [hcell] at hf
      exact absurd hf (by decide)
    · rintro ⟨m, hm⟩
      exact absurd hm (hfree m)
  cases req with
  | ALLOCATE size =>
    obtain ⟨h1, h2, h3⟩ := halloc size h
    refine ⟨h1, fun _ => ⟨h2, h3⟩, ?_, ?_, hinit⟩
    · rintro ⟨m, hm⟩
      cases hm
    · intro hf
      exact absurd hf (by simp [is_cell_request])
  | ALLOCATE_ALIGNED size alignment =>
    simp only [allocator_freelist_proc] at h
    split at h
    · exact absurd h (by simp)
    · obtain ⟨h1, h2, h3⟩ := halloc size h
      refine ⟨h1, fun _ => ⟨h2, h3⟩, ?_, ?_, hinit⟩
      · rintro ⟨m, hm⟩
        cases hm
      · intro hf
        exact absurd hf (by simp [is_cell_request])
  | ALLOCATE_ALL =>
    simp only [allocator_freelist_proc, make_allocation_error,
      ALLOCATION_STATUS_UNSUPPORTED_OPERATION, ALLOCATION_STATUS_COUNT] at h
    simp at h
    exact hother _ rfl (fun m hm => by cases hm) h.2.symm
  | RESIZE memory new_size old_size =>
    simp [allocator_freelist_proc, freelist_resize] at h
  | FREE memory =>
    obtain ⟨offset, hoff, hB, ht⟩ := freelist_free_cases s t memory w h
    have hmodle := Nat.mod_le (s.m_count * s.m_block_size) (2 ^ 32)
    rw [ht]
    refine ⟨rfl, ?_, ?_, fun _ hne => absurd rfl (hne memory), hinit⟩
    · intro hf
      exact absurd hf (by simp [is_cell_request])
    · intro _
      refine ⟨?_, ?_⟩
      · show offset / s.m_block_size ≤ s.m_count
        apply Nat.div_le_of_le_mul
        rw [Nat.mul_comm s.m_block_size]
        omega
      · intro hu
        show (s.m_used + 2 ^ 32 - 1) % 2 ^ 32 ≤ s.m_count
        have := hr.2
        have := Nat.mod_le (s.m_used - 1) (2 ^ 32)
        have e : s.m_used + 2 ^ 32 - 1 = (s.m_used - 1) + 2 ^ 32 := by omega
        rw [e, Nat.add_mod_right]
        omega
  | FREE_ALL =>
    simp only [allocator_freelist_proc, freelist_free_all, make_free_status,
      FREE_STATUS_SUCCEEDED, FREE_STATUS_COUNT] at h
    simp at h
    rw [← h.2]
    refine ⟨rfl, ?_, ?_, fun _ _ => ⟨Nat.zero_le _, Nat.zero_le _⟩, hinit⟩
    · intro hf
      exact absurd hf (by simp [is_cell_request])
    · rintro ⟨m, hm⟩
      cases hm
  | QUERY_USED => exact hother _ rfl (fun m hm => by cases hm) (hquery _ h)
  | QUERY_OWNS memory => exact hother _ rfl (fun m hm => by cases hm) (hquery _ h)
  | QUERY_CAPACITY => exact hother _ rfl (fun m hm => by cases hm) (hquery _ h)
  | QUERY_ALIGNMENT => exact hother _ rfl (fun m hm => by cases hm) (hquery _ h)
  | QUERY_GOOD_SIZE => exact hother _ rfl (fun m hm => by cases hm) (hquery _ h)

/-- C26 (witness): `ALLOCATE(16)` on the freshly initialised free list of 16
cells of 64 bytes at 8192. -/
theorem freelist_range_invariant_witness :
    allocator_freelist_proc
        { m_memory := 8192, m_first_free := 0, m_block_size := 64, m_count := 16,
          m_used := 0, heap := memset_zero (fun _ => 0) 1024 } (.ALLOCATE 16) =
      some (8192,
        { m_memory := 8192, m_first_free := 1, m_block_size := 64, m_count := 16,
          m_used := 1, heap := memset_zero (fun _ => 0) 1024 }) ∧
    freelist_in_range
      { m_memory := 8192, m_first_free := 1, m_block_size := 64, m_count := 16,
        m_used := 1, heap := memset_zero (fun _ => 0) 1024 } :=
  have hrun : allocator_freelist_proc
      { m_memory := 8192, m_first_free := 0, m_block_size := 64, m_count := 16,
        m_used := 0, heap := memset_zero (fun _ => 0) 1024 } (.ALLOCATE 16) =
      some (8192,
        { m_memory := 8192, m_first_free := 1, m_block_size := 64, m_count := 16,
          m_used := 1, heap := memset_zero (fun _ => 0) 1024 }) :=
    (freelist_allocate_step _ 16 0 rfl (by decide) (by decide) (by decide)
      ⟨align_address_four _ (by decide) (by decide),
        make_allocation_result_of_range _ (by decide) (by decide)⟩).trans rfl
  have h := (freelist_range_invariant _ _ _ _ ⟨by decide, by decide⟩ hrun).2.1 rfl
  ⟨hrun, h.2 (by decide) (by decide), h.1 (by decide)⟩

/-! ## Reuse of the cell freed last -/

/-- C29 (as stated, refuted): the freshly initialised free list of two cells
of `2 ^ 31 + 4` bytes at 8192 has `first_free = 0 <= N`, and
`p = base + 1 * B` is the address of cell 1.  The `u32` product `N * B` is 8,
so the ownership assertion of `FREE(p)` fails and the call does not return. -/
theorem freelist_free_aborts_on_wrapped_capacity :
    freelist_init (fun _ => 0) 8192 (2 ^ 31 + 4) 2 =
      some { m_memory := 8192, m_first_free := 0, m_block_size := 2 ^ 31 + 4, m_count := 2,
             m_used := 0, heap := memset_zero (fun _ => 0) 8 } ∧
    (0 : Nat) ≤ 2 ∧ (1 : Nat) < 2 ∧
    allocator_freelist_proc
        { m_memory := 8192, m_first_free := 0, m_block_size := 2 ^ 31 + 4, m_count := 2,
          m_used := 0, heap := memset_zero (fun _ => 0) 8 }
        (.FREE (8192 + 1 * (2 ^ 31 + 4))) = none := by
  refine ⟨?_, by decide, by decide, ?_⟩
  · unfold freelist_init
    rw [if_pos (by decide)]
    rfl
  · simp [allocator_freelist_proc, freelist_free, freelist_owns]

/-- C29 (amended): let a free-list state have a block size that is a positive
multiple of 4, `B * N` fitting in a `u32`, a buffer that ends below the top of
the address space (`base + B * N < 2 ^ 64`), `first_free <= N` and `used` a
`u32`, and let `p = base + i * B` with `i < N` be a cell address that is
4-aligned, above 4096 and below `2 ^ 64 - 1`.  Then `FREE(p)` returns
SUCCEEDED, the `ALLOCATE` of a size up to `B` that follows returns `p`, and
afterwards `first_free` and `used` have their values from before the
`FREE`. -/
theorem freelist_lifo_reuse (s : allocator_freelist_t) (i : Nat) (size : Int)
    (hi : i < s.m_count) (hB : 0 < s.m_block_size) (hB4 : s.m_block_size % 4 = 0)
    (hBN : s.m_block_size * s.m_count < 2 ^ 32)
    (hw : s.m_memory + s.m_block_size * s.m_count < 2 ^ 64)
    (hff : s.m_first_free ≤ s.m_count)
    (hused : s.m_used < 2 ^ 32) (hsz : toU32 size ≤ s.m_block_size)
    (hok : cell_ok s.m_memory s.m_block_size i) :
    ∃ s1 s2,
      allocator_freelist_proc s (.FREE (s.m_memory + i * s.m_block_size)) =
        some (FREE_STATUS_SUCCEEDED, s1) ∧
      allocator_freelist_proc s1 (.ALLOCATE size) =
        some (s.m_memory + i * s.m_block_size, s2) ∧
      s2.m_first_free = s.m_first_free ∧ s2.m_used = s.m_used := by
  have hB4le : 4 ≤ s.m_block_size := by omega
  have hN4 : 4 * s.m_count ≤ s.m_block_size * s.m_count := Nat.mul_le_mul_right _ hB4le
  have hiB : i * s.m_block_size < s.m_block_size * s.m_count := by
    rw [Nat.mul_comm s.m_block_size]
    exact Nat.mul_lt_mul_of_pos_right hi hB
  have hfree := freelist_free_step s i hi hB hBN hff (by omega) hw hok.1
  have halloc := freelist_allocate_step
    { s with
      heap := fun off =>
        if off = i * s.m_block_size then s.m_first_free + 1 else s.heap off
      m_first_free := i
      m_used := (s.m_used + 2 ^ 32 - 1) % 2 ^ 32 } size i rfl hsz
    (by
      show i < (s.m_block_size * s.m_count) % 2 ^ 32
      rw [Nat.mod_eq_of_lt hBN]
      omega)
    (by
      show i * s.m_block_size < 2 ^ 32
      omega)
    hok
  refine ⟨_, _, hfree, halloc, ?_, ?_⟩
  · show (if (if i * s.m_block_size = i * s.m_block_size then s.m_first_free + 1
        else s.heap (i * s.m_block_size)) = 0 then (i + 1) % 2 ^ 32
      else (if i * s.m_block_size = i * s.m_block_size then s.m_first_free + 1
        else s.heap (i * s.m_block_size)) - 1) = s.m_first_free
    rw [if_pos rfl, if_neg (by omega)]
    omega
  · show ((s.m_used + 2 ^ 32 - 1) % 2 ^ 32 + 1) % 2 ^ 32 = s.m_used
    omega

/-- C29 (witness): the free list of two 64-byte cells at 8192 with both cells
handed out; `FREE(8192)` followed by `ALLOCATE(16)`. -/
theorem freelist_lifo_reuse_witness :
    ∃ s1 s2,
      allocator_freelist_proc
          { m_memory := 8192, m_first_free := 2, m_block_size := 64, m_count := 2,
            m_used := 2, heap := memset_zero (fun _ => 0) 128 } (.FREE (8192 + 0 * 64)) =
        some (FREE_STATUS_SUCCEEDED, s1) ∧
      allocator_freelist_proc s1 (.ALLOCATE 16) = some (8192 + 0 * 64, s2) ∧
      s2.m_first_free = 2 ∧ s2.m_used = 2 :=
  freelist_lifo_reuse
    { m_memory := 8192, m_first_free := 2, m_block_size := 64, m_count := 2,
      m_used := 2, heap := memset_zero (fun _ => 0) 128 } 0 16
    (by decide) (by decide) (by decide) (by decide) (by decide) (by decide) (by decide)
    (by decide)
    ⟨align_address_four _ (by decide) (by decide),
      make_allocation_result_of_range _ (by decide) (by decide)⟩


/-! ## The free chain after the blocks are exhausted -/

/-- On zero-filled memory a walk that starts beyond `count` never reaches
`count`. -/
theorem chain_walk_past_count (block_size count fuel index : Nat) (h : count < index) :
    chain_walk (fun _ => 0) block_size count fuel index = none := by
  induction fuel generalizing index with
  | zero =>
    unfold chain_walk
    rw [if_neg (by omega)]
  | succ n ih =>
    unfold chain_walk
    rw [if_neg (by omega)]
    simp only [if_true]
    rw [ih (index + 1) (by omega)]
    rfl

/-- C25 (the code at the failing input): a free list of two 64-byte blocks on
zero-filled memory at address 8192.  After `ALLOCATE(64)`, `ALLOCATE(13)` have
handed out both cells, a third `ALLOCATE(64)` still returns a pointer (the
capacity test compares the index 2 with 128) and leaves `first_free = 3` and
`used = 3`, both above `N = 2`.  The walk of the chain from `first_free` then
never reaches `N`, whatever the bound on its length, while on the state
before the third call the walk ends at once with no cell visited. -/
theorem freelist_chain_walk_past_count :
    freelist_init (fun _ => 0) 8192 64 2 =
      some { m_memory := 8192, m_first_free := 0, m_block_size := 64, m_count := 2,
             m_used := 0, heap := memset_zero (fun _ => 0) 128 } ∧
    freelist_allocate_list [64, 13]
        { m_memory := 8192, m_first_free := 0, m_block_size := 64, m_count := 2,
          m_used := 0, heap := memset_zero (fun _ => 0) 128 } =
      some ([8192, 8256],
        { m_memory := 8192, m_first_free := 2, m_block_size := 64, m_count := 2,
          m_used := 2, heap := memset_zero (fun _ => 0) 128 }) ∧
    (∀ fuel, chain_walk (memset_zero (fun _ => 0) 128) 64 2 fuel 2 = some []) ∧
    allocator_freelist_proc
        { m_memory := 8192, m_first_free := 2, m_block_size := 64, m_count := 2,
          m_used := 2, heap := memset_zero (fun _ => 0) 128 } (.ALLOCATE 64) =
      some (8320,
        { m_memory := 8192, m_first_free := 3, m_block_size := 64, m_count := 2,
          m_used := 3, heap := memset_zero (fun _ => 0) 128 }) ∧
    (∀ fuel, chain_walk (memset_zero (fun _ => 0) 128) 64 2 fuel 3 = none) := by
  have hzero : memset_zero (fun _ => 0) 128 = fun _ => 0 := by
    funext off
    unfold memset_zero
    split <;> rfl
  refine ⟨freelist_two_blocks_run.1, freelist_two_blocks_run.2, ?_, ?_, ?_⟩
  · intro fuel
    cases fuel with
    | zero => rfl
    | succ n => rfl
  · exact (freelist_allocate_step _ 64 2 rfl (by decide) (by decide) (by decide)
      ⟨align_address_four _ (by decide) (by decide),
        make_allocation_result_of_range _ (by decide) (by decide)⟩).trans rfl
  · intro fuel
    rw [hzero]
    exact chain_walk_past_count 64 2 fuel 3 (by decide)


/-! ## A failed resize of the top allocation -/

/-- C31 (as stated, refuted): on a full 16-byte stack whose buffer ends at
`2 ^ 64`, the block at `memory = 2 ^ 64 - 16` with `old_size = 16` is non-null
and satisfies `memory + old_size == base + pointer`, and `new_size = 64` gives
`pointer - old_size + new_size = 64 > capacity`.  `stack_resize` does not
return `OUT_OF_MEMORY`: the pointer sum `base + pointer` of `stack_owns` wraps
to 0, the ownership assertion fails, and the call does not return. -/
theorem stack_resize_aborts_at_address_wrap :
    ((2 ^ 64 - 16 : Nat) ≠ 0 ∧ (2 ^ 64 - 16 : Nat) + 16 = (2 ^ 64 - 16) + 16 ∧
      (64 : Int) < 2 ^ 32 ∧ (16 : Int) < 16 - 16 + 64) ∧
    stack_resize { m_memory := 2 ^ 64 - 16, m_pointer := 16, m_capacity := 16 }
      (2 ^ 64 - 16) 16 64 = none := by
  refine ⟨by decide, ?_⟩
  unfold stack_resize
  rw [if_neg (by decide), if_pos (by decide)]

/-- C31 (amended): let `memory` be a non-null top allocation of a stack state
whose top `base + pointer` lies below `2 ^ 64` (`base <= memory`,
`old_size >= 0` and `memory + old_size == base + pointer`), and let
`new_size < 2 ^ 32` satisfy
`capacity < pointer - old_size + new_size < 2 ^ 32`.  Then `stack_resize`
returns `OUT_OF_MEMORY`, a word `allocation_succeeded` rejects, and leaves the
pointer at `pointer - old_size`, so that the top of the stack is `memory`: the
old allocation has been released; capacity and base are unchanged. -/
theorem stack_resize_not_atomic (s : allocator_stack_t) (memory : Nat)
    (old_size new_size : Int) (hp : s.m_pointer < 2 ^ 32) (hmem : memory ≠ 0)
    (hw : s.m_memory + s.m_pointer < 2 ^ 64)
    (hbase : s.m_memory ≤ memory) (hold : 0 ≤ old_size)
    (htop : (memory : Int) + old_size = ((s.m_memory + s.m_pointer : Nat) : Int))
    (hnew : new_size < 2 ^ 32)
    (hoom : (s.m_capacity : Int) < (s.m_pointer : Int) - old_size + new_size)
    (hnowrap : (s.m_pointer : Int) - old_size + new_size < 2 ^ 32) :
    stack_resize s memory old_size new_size =
      some (ALLOCATION_STATUS_OUT_OF_MEMORY,
        { s with m_pointer := s.m_pointer - old_size.toNat }) ∧
    allocation_succeeded ALLOCATION_STATUS_OUT_OF_MEMORY = false ∧
    ((s.m_pointer - old_size.toNat : Nat) : Int) = (s.m_pointer : Int) - old_size ∧
    s.m_memory + (s.m_pointer - old_size.toNat) = memory := by
  have hU : toU32 old_size = old_size.toNat := by
    unfold toU32
    omega
  have hp1 : (s.m_pointer + 2 ^ 32 - old_size.toNat) % 2 ^ 32 = s.m_pointer - old_size.toNat := by
    omega
  have hcheck : s.m_capacity <
      (s.m_pointer - old_size.toNat + toU32 new_size) % 2 ^ 32 := by
    unfold toU32
    omega
  have hsum : (s.m_memory + s.m_pointer) % 2 ^ 64 = s.m_memory + s.m_pointer :=
    Nat.mod_eq_of_lt hw
  have howns : ¬ (stack_owns s memory = false) := by
    unfold stack_owns
    rw [hsum, decide_eq_true hbase, decide_eq_true (show memory ≤ s.m_memory + s.m_pointer
      from by omega)]
    decide
  refine ⟨?_, by decide, by omega, by omega⟩
  unfold stack_resize
  rw [if_neg hmem, if_neg howns, hsum, if_neg (by omega)]
  simp only []
  rw [hU, hp1, if_pos hcheck]
  rfl

/-- C31 (witness): a 16-byte allocation at 8192 on top of a stack of capacity
32, resized to 64 bytes. -/
theorem stack_resize_not_atomic_witness :
    stack_resize { m_memory := 8192, m_pointer := 16, m_capacity := 32 } 8192 16 64 =
      some (ALLOCATION_STATUS_OUT_OF_MEMORY,
        { m_memory := 8192, m_pointer := 0, m_capacity := 32 }) ∧
    allocation_succeeded ALLOCATION_STATUS_OUT_OF_MEMORY = false :=
  have h := stack_resize_not_atomic { m_memory := 8192, m_pointer := 16, m_capacity := 32 }
    8192 16 64 (by decide) (by decide) (by decide) (by decide) (by decide) (by decide)
    (by decide) (by decide) (by decide)
  ⟨h.1, h.2.1⟩

end Allocators
